import Mathlib

/-!
Verification of `build.py`, the gallery generator of the ars-technica repository.

The development shallowly embeds the program over `List Char` ("Str"): pure
Python functions become Lean functions, the regular-expression substitution of
`replace_keys_in_slice` is embedded as an explicit matcher for the concrete
pattern `('<key>'\s*:\s*')[^']*(')` together with a faithful model of Python's
`re` replacement-template parser, and `main` becomes a function from the loaded
records and the document text to an outcome (exception raised / finished with
printed lines and an optional written document).
-/

set_option maxRecDepth 10000

namespace ArsBuild

abbrev Str := List Char

/-- Decimal digit character, `chr(48 + d)`. -/
def digCh (d : Nat) : Char := Char.ofNat (48 + d)

/-- Fuelled digit extraction; the fuel only serves structural recursion and is
always sufficient at the call site. -/
def natDigitsF : Nat → Nat → Str
  | 0, _ => []
  | fuel + 1, n => if n < 10 then [digCh n] else natDigitsF fuel (n / 10) ++ [digCh (n % 10)]

/-- Decimal digits of a natural number, most significant first (Python `str(n)`). -/
def natDigits (n : Nat) : Str := natDigitsF (n + 1) n

/-- Python `str` of an int: minus sign for negatives, then decimal digits. -/
def intStr (i : Int) : Str :=
  if i < 0 then '-' :: natDigits i.natAbs else natDigits i.toNat

/-- Insert `','` after every third character, counting from the right; the input
and output are reversed (helper for the `{:,}` format specifier). -/
def grpRev : Str → Str
  | a :: b :: c :: d :: rest => a :: b :: c :: ',' :: grpRev (d :: rest)
  | s => s

/-- Like `grpRev` but with `'.'`: proof bridge between the comma grouping of
`{:,}` followed by `replace(",", ".")` and the specified dot grouping. -/
def grpRevDot : Str → Str
  | a :: b :: c :: d :: rest => a :: b :: c :: '.' :: grpRevDot (d :: rest)
  | s => s

/-- Python `f"{p:,}"`: decimal digits grouped in threes with `','`. -/
def pyCommaFormat (p : Int) : Str :=
  (if p < 0 then ['-'] else []) ++ (grpRev (natDigits p.natAbs).reverse).reverse

/-- `format_price` from build.py: `f"{price:,}€".replace(",", ".")`.
The `replace` of the single character `','` is the character map below. -/
def format_price (price : Int) : Str :=
  (pyCommaFormat price ++ "€".toList).map (fun c => if c = ',' then '.' else c)

/-- One radio record: the JSON fields read by build.py plus the `_file` name
attached by `load_radios`.  `price` and `status` are the two fields read with
`.get` defaults; the others are mandatory. -/
structure Radio where
  year : Int
  model : Str
  image : Str
  price : Option Int
  status : Option Str
  description_en : Str
  description_es : Str
  file : Str
deriving DecidableEq, Repr

def GALLERY_START : Str := "<!-- GALLERY:START -->".toList

def GALLERY_END : Str := "<!-- GALLERY:END -->".toList

/-- The `overlay` literal of the `"sold"` branch of `render_card`. -/
def overlayLit : Str :=
  ("\n                        <div style=\"position: absolute; top: 0; right: 0; width: 250px; height: 250px; overflow: hidden; z-index: 10; pointer-events: none;\">\n                            <div style=\"position: absolute; top: 55px; right: -70px; width: 350px; transform: rotate(45deg); background: linear-gradient(135deg, #8B0000 0%, #B22222 50%, #8B0000 100%); color: #f5ebe0; text-align: center; padding: 0.6rem 0; font-family: 'IBM Plex Mono', monospace; font-size: 0.75rem; font-weight: bold; text-transform: uppercase; letter-spacing: 0.25em; box-shadow: 0 4px 8px rgba(0, 0, 0, 0.5); border-top: 1px solid rgba(212, 175, 55, 0.85); border-bottom: 1px solid rgba(212, 175, 55, 0.85);\" data-i18n=\"gallery.sold\">Sold</div>\n                        </div>").toList

/-- Sold `action_row`, part before the struck-through price. -/
def soldRowA : Str :=
  ("\n                            <span style=\"font-family: 'Playfair Display', serif; font-size: 1.5rem; color: var(--tube-glow); font-weight: 700; text-decoration: line-through; opacity: 0.5;\">").toList

/-- Sold `action_row`, part after the struck-through price. -/
def soldRowB : Str :=
  ("</span>\n                            <span style=\"font-family: 'IBM Plex Mono', monospace; padding: 0.5rem 1rem; font-size: 0.75rem; opacity: 0.5;\" data-i18n=\"gallery.sold\">Sold</span>").toList

/-- The whole `"collection"` `action_row` literal. -/
def collectionRow : Str :=
  ("\n                            <span style=\"font-family: 'IBM Plex Mono', monospace; font-size: 0.8rem; color: var(--copper); text-transform: uppercase; letter-spacing: 0.15em; opacity: 0.8;\" data-i18n=\"gallery.collection\">Personal Collection</span>\n                            <span></span>").toList

/-- Sale `action_row`, part before the price. -/
def saleRowA : Str :=
  ("\n                            <span style=\"font-family: 'Playfair Display', serif; font-size: 1.5rem; color: var(--tube-glow); font-weight: 700;\">").toList

/-- Sale `action_row`, between the price and the interpolated model name. -/
def saleRowB : Str :=
  ("</span>\n                            <a href=\"mailto:info@arstechnica.shop?subject=Inquiry: ").toList

/-- Sale `action_row`, part after the interpolated model name. -/
def saleRowC : Str :=
  ("\" style=\"font-family: 'IBM Plex Mono', monospace; background: transparent; border: 2px solid var(--copper); color: var(--radio-warm); padding: 0.5rem 1rem; text-transform: uppercase; letter-spacing: 0.15em; font-size: 0.75rem; text-decoration: none; transition: all 0.3s;\" data-i18n=\"gallery.inquire\">Inquire</a>").toList

def bodyL1 : Str :=
  ("\n                    <div class=\"service-card\" data-status=\"").toList

def bodyL2 : Str :=
  ("\" style=\"padding: 0; overflow: hidden; display: flex; flex-direction: column;").toList

def bodyL3 : Str := ("\">").toList

def bodyL4 : Str :=
  ("\n                        <div style=\"width: 100%; aspect-ratio: 4/3; overflow: hidden; flex-shrink: 0;\">\n                            <img src=\"").toList

def bodyL5 : Str := ("\" alt=\"").toList

def bodyL6 : Str :=
  ("\" style=\"width: 100%; height: 100%; object-fit: cover;\">\n                        </div>\n                        <div style=\"padding: 1.5rem; display: flex; flex-direction: column; flex: 1;\">\n                            <div style=\"font-family: 'IBM Plex Mono', monospace; font-size: 0.85rem; color: var(--copper); text-transform: uppercase; letter-spacing: 0.2em; margin-bottom: 0.5rem;\">").toList

def bodyL7 : Str :=
  ("</div>\n                            <h4 style=\"margin-bottom: 0.8rem;\">").toList

def bodyL8 : Str :=
  ("</h4>\n                            <p style=\"margin-bottom: 0; font-size: 0.95rem; flex: 1;\" data-i18n=\"").toList

def bodyL9 : Str := ("\">").toList

def bodyL10 : Str :=
  ("</p>\n                            <div style=\"display: flex; justify-content: space-between; align-items: center; padding-top: 1rem; margin-top: 1rem; border-top: 1px solid rgba(184, 115, 51, 0.3);\">").toList

def bodyL11 : Str :=
  ("\n                            </div>\n                        </div>\n                    </div>").toList

/-- The final f-string of `render_card`, with the interpolated locals as
parameters, exactly in source order. -/
def cardBody (status position_relative overlay image : Str) (year : Int)
    (model i18n_key_desc desc_en action_row : Str) : Str :=
  bodyL1 ++ status ++ bodyL2 ++ position_relative ++ bodyL3 ++ overlay ++
  bodyL4 ++ image ++ bodyL5 ++ intStr year ++ [' '] ++ model ++ bodyL6 ++
  intStr year ++ bodyL7 ++ model ++ bodyL8 ++ i18n_key_desc ++ bodyL9 ++
  desc_en ++ bodyL10 ++ action_row ++ bodyL11

/-- The generated localization key `f"radio{index}.desc"`. -/
def radioKey (index : Nat) : Str :=
  "radio".toList ++ natDigits index ++ ".desc".toList

/-- `render_card(radio, index)` from build.py. -/
def render_card (radio : Radio) (index : Nat) : Str :=
  let status := radio.status.getD ("sale".toList)
  let i18n_key_desc := radioKey index
  let overlay := if status = "sold".toList then overlayLit else []
  let position_relative := if status = "sold".toList then " position: relative;".toList else []
  let action_row :=
    if status = "sold".toList then
      soldRowA ++ format_price (radio.price.getD 0) ++ soldRowB
    else if status = "collection".toList then
      collectionRow
    else
      saleRowA ++ format_price (radio.price.getD 0) ++ saleRowB ++ radio.model ++ saleRowC
  cardBody status position_relative overlay radio.image radio.year radio.model
    i18n_key_desc radio.description_en action_row

/-- The rendered cards `render_card(r, i + 1)` in record order. -/
def cardsList (radios : List Radio) : List Str :=
  radios.enum.map (fun p => render_card p.2 (p.1 + 1))

/-- The concatenation `"".join(render_card(r, i + 1) ...)` of `render_gallery`. -/
def cardsConcat (radios : List Radio) : Str :=
  (cardsList radios).flatten

/-- `render_gallery(radios)` from build.py. -/
def render_gallery (radios : List Radio) : Str :=
  GALLERY_START ++ "\n                ".toList ++ cardsConcat radios ++
  "\n                ".toList ++ GALLERY_END

/-- `build_translations(radios)` from build.py; dictionaries are modelled as
association lists in insertion order (`radio1.desc`, `radio2.desc`, ...). -/
def build_translations (radios : List Radio) : List (Str × Str) × List (Str × Str) :=
  (radios.enum.map (fun p => (radioKey (p.1 + 1), p.2.description_en)),
   radios.enum.map (fun p => (radioKey (p.1 + 1), p.2.description_es)))

/-- `value.replace("'", "\\'")` of `replace_keys_in_slice`. -/
def escapeQ : Str → Str
  | [] => []
  | '\'' :: rest => '\\' :: '\'' :: escapeQ rest
  | c :: rest => c :: escapeQ rest

/-- Python `str.replace("\\'", "'")`: left-to-right, non-overlapping. -/
def unescapeQ : Str → Str
  | [] => []
  | '\\' :: '\'' :: rest => '\'' :: unescapeQ rest
  | c :: rest => c :: unescapeQ rest

/-- Characters matched by the regex class `\s` on Python strings. -/
def pyWs (c : Char) : Bool :=
  c = ' ' || c = '\t' || c = '\n' || c = '\r' || c = '\x0b' || c = '\x0c' ||
  c = '\x1c' || c = '\x1d' || c = '\x1e' || c = '\x1f' || c = '\x85' ||
  c = '\xa0' || c = ' ' || c = ' ' || c = ' ' || c = ' ' ||
  c = ' ' || c = ' ' || c = ' ' || c = ' ' || c = ' ' ||
  c = ' ' || c = ' ' || c = ' ' || c = ' ' || c = ' ' ||
  c = ' ' || c = ' ' || c = '　'

/-- Attempt to match the regex `('<key>'\s*:\s*')[^']*(')` at the head of the
string.  On success returns (group 1, the `[^']*` value, the number of
characters the match consumed after the opening quote).  `re.escape(key)`
only quotes `'.'`, so the key matches literally; `\s*` is greedy and `[^']*`
takes everything up to the next quote, exactly as the regex engine does. -/
def expectQuote : Str → Option Str
  | '\'' :: r => some r
  | _ => none

def expectColon : Str → Option Str
  | ':' :: r => some r
  | _ => none

def matchDesc (key : Str) (s : Str) : Option (Str × Str × Nat) :=
  (expectQuote s).bind (fun s1 =>
    if key.isPrefixOf s1 then
      (expectQuote (s1.drop key.length)).bind (fun s3 =>
        (expectColon (s3.dropWhile pyWs)).bind (fun s5 =>
          (expectQuote (s5.dropWhile pyWs)).bind (fun s7 =>
            (expectQuote (s7.dropWhile (fun c => c != '\''))).bind (fun _ =>
              some ('\'' :: key ++ '\'' :: s3.takeWhile pyWs ++ ':' ::
                      s5.takeWhile pyWs ++ ['\''],
                    s7.takeWhile (fun c => c != '\''),
                    key.length + (s3.takeWhile pyWs).length +
                      (s5.takeWhile pyWs).length +
                      (s7.takeWhile (fun c => c != '\'')).length + 4)))))
    else none)

/-- One item of a parsed `re` replacement template: a literal chunk or a
group reference. -/
inductive TItem where
  | lit : Str → TItem
  | group : Nat → TItem
deriving DecidableEq, Repr

def isOctDigit (c : Char) : Bool := '0' ≤ c && c ≤ '7'

def isDecDigit (c : Char) : Bool := '0' ≤ c && c ≤ '9'

def isAsciiLetterCh (c : Char) : Bool :=
  ('a' ≤ c && c ≤ 'z') || ('A' ≤ c && c ≤ 'Z')

/-- Numeric value of a list of decimal digit characters. -/
def digitsVal (ds : Str) : Nat :=
  ds.foldl (fun acc c => 10 * acc + (c.toNat - 48)) 0

/-- Numeric value of a list of octal digit characters. -/
def octVal (ds : Str) : Nat :=
  ds.foldl (fun acc c => 8 * acc + (c.toNat - 48)) 0

/-- The `ESCAPES` table of Python's `re` parser, restricted to letters:
`\a \b \f \n \r \t \v` map to control characters; other letters error. -/
def escLetter (c : Char) : Option Char :=
  if c = 'a' then some '\x07'
  else if c = 'b' then some '\x08'
  else if c = 'f' then some '\x0c'
  else if c = 'n' then some '\n'
  else if c = 'r' then some '\r'
  else if c = 't' then some '\t'
  else if c = 'v' then some '\x0b'
  else none

/-- Fuelled body of the template parser; the fuel only serves structural
recursion and is always sufficient at the call site. -/
def parse_templateF : Nat → Str → Except Str (List TItem)
  | 0, _ => .error ("out of fuel").toList
  | fuel + 1, t =>
    match t with
    | [] => .ok []
    | '\\' :: rest =>
      match rest with
      | [] => .error ("bad escape (end of pattern)").toList
      | 'g' :: rest2 =>
        match rest2 with
        | '<' :: rest3 =>
          let name := rest3.takeWhile (fun c => c != '>')
          match rest3.dropWhile (fun c => c != '>') with
          | '>' :: rest5 =>
            if name = [] then .error ("missing group name").toList
            else if name.all isDecDigit then
              if digitsVal name ≤ 2 then
                (parse_templateF fuel rest5).map (fun items => .group (digitsVal name) :: items)
              else .error ("invalid group reference").toList
            else .error ("unknown group name").toList
          | _ => .error ("missing >, unterminated name").toList
        | _ => .error ("missing <").toList
      | '\\' :: rest2 =>
        (parse_templateF fuel rest2).map (fun items => .lit ['\\'] :: items)
      | '0' :: rest2 =>
        let os := (rest2.take 2).takeWhile isOctDigit
        (parse_templateF fuel (rest2.drop os.length)).map
          (fun items => .lit [Char.ofNat (octVal ('0' :: os) % 256)] :: items)
      | c :: rest2 =>
        if isDecDigit c then
          match rest2 with
          | c2 :: rest3 =>
            if isDecDigit c2 then
              match rest3 with
              | c3 :: rest4 =>
                if isOctDigit c && isOctDigit c2 && isOctDigit c3 then
                  (parse_templateF fuel rest4).map
                    (fun items => .lit [Char.ofNat (octVal [c, c2, c3] % 256)] :: items)
                else if digitsVal [c, c2] ≤ 2 then
                  (parse_templateF fuel (c3 :: rest4)).map
                    (fun items => .group (digitsVal [c, c2]) :: items)
                else .error ("invalid group reference").toList
              | [] =>
                if digitsVal [c, c2] ≤ 2 then
                  .ok [.group (digitsVal [c, c2])]
                else .error ("invalid group reference").toList
            else if digitsVal [c] ≤ 2 then
              (parse_templateF fuel (c2 :: rest3)).map
                (fun items => .group (digitsVal [c]) :: items)
            else .error ("invalid group reference").toList
          | [] =>
            if digitsVal [c] ≤ 2 then .ok [.group (digitsVal [c])]
            else .error ("invalid group reference").toList
        else if isAsciiLetterCh c then
          match escLetter c with
          | some ch => (parse_templateF fuel rest2).map (fun items => .lit [ch] :: items)
          | none => .error (("bad escape \\").toList ++ [c])
        else
          (parse_templateF fuel rest2).map (fun items => .lit ['\\', c] :: items)
    | c :: rest =>
      (parse_templateF fuel rest).map (fun items => .lit [c] :: items)

/-- Python `re._parser.parse_template` for a pattern with 2 capturing groups:
`\g<n>` and `\1`..`\99` are group references (index above 2 is an error),
`\0` starts an octal escape, `\` + letter is a known escape or an error, and
`\` + anything else is left alone.  Errors carry a diagnostic string. -/
def parse_template (t : Str) : Except Str (List TItem) :=
  parse_templateF (t.length + 1) t

/-- Expand a parsed template at one match: group 0 is the whole match,
group 1 the quoted-key prefix, group 2 the closing quote. -/
def expandTemplate (items : List TItem) (g0 g1 g2 : Str) : Str :=
  items.flatMap (fun it =>
    match it with
    | .lit s => s
    | .group n => if n = 0 then g0 else if n = 1 then g1 else if n = 2 then g2 else [])

/-- The scanner of `re.sub` for the pattern `('<key>'\s*:\s*')[^']*(')`: walk
the string left to right; while `skip > 0` the character belongs to a match
whose replacement was already emitted; at `skip = 0` try the pattern, emit the
expanded template on a match and skip the matched span, else copy the
character. -/
def subAllGo (key : Str) (items : List TItem) : Str → Nat → Str
  | [], _ => []
  | _ :: cs, skip + 1 => subAllGo key items cs skip
  | c :: cs, 0 =>
    match matchDesc key (c :: cs) with
    | some (g1, v, k) =>
      expandTemplate items (g1 ++ v ++ ['\'']) g1 ['\''] ++ subAllGo key items cs k
    | none => c :: subAllGo key items cs 0

/-- `re.sub` of the pattern `('<key>'\s*:\s*')[^']*(')` with a parsed
replacement template over the whole string: scan left to right, replace each
non-overlapping match, copy everything else. -/
def subAll (key : Str) (items : List TItem) (s : Str) : Str :=
  subAllGo key items s 0

/-- `replace_keys_in_slice(block, entries)` from build.py: for each entry, in
order, escape the value's quotes and substitute it via the regex; Python
parses the replacement template eagerly, so a bad escape in the value raises
even when nothing matches. -/
def replace_keys_in_slice (block : Str) (entries : List (Str × Str)) : Except Str Str :=
  match entries with
  | [] => .ok block
  | (key, value) :: rest => do
    let escaped := escapeQ value
    let items ← parse_template (("\\g<1>").toList ++ escaped ++ ("\\g<2>").toList)
    replace_keys_in_slice (subAll key items block) rest

/-- Scanner of `str.find`: the accumulator is the current index. -/
def findSubAux (pat : Str) : Str → Nat → Option Nat
  | [], i => if pat.isEmpty then some i else none
  | c :: rest, i => if pat.isPrefixOf (c :: rest) then some i else findSubAux pat rest (i + 1)

/-- Python `str.find`: index of the first occurrence, `none` for `-1`. -/
def findSub (pat : Str) (s : Str) : Option Nat := findSubAux pat s 0

/-- Executable check for an occurrence of `pat` at some index below `n`. -/
def hasOccBefore (pat : Str) : Str → Nat → Bool
  | _, 0 => false
  | [], _ + 1 => pat.isEmpty
  | c :: rest, n + 1 =>
      match pat.isPrefixOf (c :: rest) with
      | true => true
      | false => hasOccBefore pat rest n

/-- The brace-depth scan of `find_lang_block`: walk the remaining text with the
current depth and position, and return the offset one past the closing brace
whose `'}'` brings the depth to zero. -/
def braceWalk : Str → Int → Nat → Option Nat
  | [], _, _ => none
  | c :: rest, depth, i =>
    if c = '\x7b' then braceWalk rest (depth + 1) (i + 1)
    else if c = '\x7d' then
      if depth - 1 = 0 then some (i + 1) else braceWalk rest (depth - 1) (i + 1)
    else braceWalk rest depth (i + 1)

/-- `find_lang_block(html, lang_key)` from build.py.  `.ok none` models the
`(None, None)` returns (marker missing, or unbalanced braces); the `.error`
branch models the `ValueError` that `html.index` would raise (it is provably
unreachable because the marker itself ends in `'{'`). -/
def find_lang_block (html : Str) (lang_key : Str) : Except Str (Option (Nat × Nat)) :=
  let marker := lang_key ++ (": \x7b").toList
  match findSub marker html with
  | none => .ok none
  | some start =>
    match findSub ['\x7b'] (html.drop (start + lang_key.length)) with
    | none => .error ("ValueError: substring not found").toList
    | some off =>
      let brace_start := start + lang_key.length + off
      match braceWalk (html.drop brace_start) 0 0 with
      | none => .ok none
      | some rel => .ok (some (brace_start, brace_start + rel))

/-- One language pass of `update_translations`: locate the block, rewrite the
slice, and splice it back; a missing block leaves the document unchanged. -/
def updateLang (html : Str) (lang_key : Str) (entries : List (Str × Str)) : Except Str Str :=
  match find_lang_block html lang_key with
  | .error e => .error e
  | .ok none => .ok html
  | .ok (some (start, stop)) => do
    let block := (html.drop start).take (stop - start)
    let block2 ← replace_keys_in_slice block entries
    .ok (html.take start ++ block2 ++ html.drop stop)

/-- `update_translations(html, en_entries, es_entries)` from build.py: the two
language blocks are patched independently, `"en"` first. -/
def update_translations (html : Str) (en_entries es_entries : List (Str × Str)) :
    Except Str Str := do
  let h1 ← updateLang html ("en").toList en_entries
  updateLang h1 ("es").toList es_entries

/-- Outcome of a run of `main`: an uncaught exception (non-zero process exit),
or a normal return carrying the printed lines and the document written back,
if any (exit status zero). -/
inductive MainResult where
  | raised : Str → MainResult
  | finished : List Str → Option Str → MainResult
deriving DecidableEq, Repr

/-- Structural Boolean comparison of run outcomes; the list comparisons
short-circuit, so it evaluates iteratively. -/
def eqChars : Str → Str → Bool
  | [], [] => true
  | a :: as, b :: bs =>
      match a == b with
      | true => eqChars as bs
      | false => false
  | _, _ => false

def eqMsgs : List Str → List Str → Bool
  | [], [] => true
  | a :: as, b :: bs =>
      match eqChars a b with
      | true => eqMsgs as bs
      | false => false
  | _, _ => false

def eqOptStr : Option Str → Option Str → Bool
  | none, none => true
  | some a, some b => eqChars a b
  | _, _ => false

def beqMainResult : MainResult → MainResult → Bool
  | .raised x, .raised y => eqChars x y
  | .finished m d, .finished m' d' =>
      match eqMsgs m m' with
      | true => eqOptStr d d'
      | false => false
  | _, _ => false

def noRadiosMsg : Str := ("No radio JSON files found in radios/").toList

def errMarkers1 : Str :=
  ("Error: Could not find '<!-- GALLERY:START -->' / '<!-- GALLERY:END -->' markers in index.html").toList

def errMarkers2 : Str :=
  ("Please add these markers around the gallery cards in index.html first.").toList

/-- The status label of the report line:
`{"sold": "SOLD", "collection": "COLLECTION"}.get(st, format_price(...))`. -/
def statusLabel (r : Radio) : Str :=
  let st := r.status.getD ("sale").toList
  if st = ("sold").toList then ("SOLD").toList
  else if st = ("collection").toList then ("COLLECTION").toList
  else format_price (r.price.getD 0)

/-- The per-record report line `f"  {r['year']} {r['model']} — {label}"`. -/
def summaryLine (r : Radio) : Str :=
  ("  ").toList ++ intStr r.year ++ (" ").toList ++ r.model ++ (" — ").toList ++ statusLabel r

/-- `f"Built gallery with {len(radios)} radio(s):"`. -/
def builtMsg (n : Nat) : Str :=
  ("Built gallery with ").toList ++ natDigits n ++ (" radio(s):").toList

/-- The gallery splice of `main`:
`html[:start_idx] + render_gallery(radios) + html[end_idx + len(GALLERY_END):]`. -/
def splice_gallery (radios : List Radio) (html : Str) (start_idx end_idx : Nat) : Str :=
  html.take start_idx ++ render_gallery radios ++ html.drop (end_idx + GALLERY_END.length)

/-- The tail of `main` after the splice: build the entry dictionaries, patch
the translations (an uncaught `re.error` escapes here), then write the
document and print the report. -/
def mainRest (radios : List Radio) (html1 : Str) : MainResult :=
  match update_translations html1 (build_translations radios).1
      (build_translations radios).2 with
  | .error e => .raised e
  | .ok html2 =>
    .finished (builtMsg radios.length :: radios.map summaryLine) (some html2)

/-- `main()` from build.py, as a function of the loaded records and the text of
`index.html`.  File I/O is the surrounding glue: the document is read once at
the start and written once at the very end, so the written text (if any) is
part of the result. -/
def main (radios : List Radio) (html : Str) : MainResult :=
  if radios.isEmpty then .finished [noRadiosMsg] none
  else
    match findSub GALLERY_START html, findSub GALLERY_END html with
    | some start_idx, some end_idx =>
      mainRest radios (splice_gallery radios html start_idx end_idx)
    | _, _ => .finished [errMarkers1, errMarkers2] none

/-- Python `<` on strings: lexicographic comparison of code points. -/
def pyStrLt : Str → Str → Bool
  | _, [] => false
  | [], _ :: _ => true
  | a :: s1, b :: s2 =>
    if a.toNat < b.toNat then true
    else if b.toNat < a.toNat then false
    else pyStrLt s1 s2

/-- Insert a record into a list that is sorted by `_file`. -/
def insertRadio (r : Radio) : List Radio → List Radio
  | [] => [r]
  | x :: xs => if pyStrLt r.file x.file then r :: x :: xs else x :: insertRadio r xs

/-- `load_radios()` from build.py: the enumerated record files are processed in
`sorted(...)` order of their file names; parsing is the filesystem glue, so the
function maps the unordered records (with `_file` attached) to the
filename-sorted list. -/
def load_radios : List Radio → List Radio
  | [] => []
  | r :: rest => insertRadio r (load_radios rest)

/-- Modelled from the spec: "integer value grouped in thousands using `.` as
separator" — the decimal digit string split into three-digit groups from the
right, joined with `'.'`. -/
def specThousandsGrouped (ds : Str) : Str :=
  if h : ds.length ≤ 3 then ds
  else specThousandsGrouped (ds.take (ds.length - 3)) ++ '.' :: ds.drop (ds.length - 3)
termination_by ds.length
decreasing_by simp only [List.length_take]; omega

/-- The pattern `p` can start nowhere in `s`, not even as a partial match
hanging off the right end of `s`: `p` is not inside `s`, and no proper
nonempty prefix of `p` is a suffix of `s`. -/
def Blocked (p s : Str) : Prop :=
  ¬ p <:+: s ∧ ∀ k < p.length, 0 < k → ¬ p.take k <:+ s

instance (p s : Str) : Decidable (Blocked p s) := by
  unfold Blocked; infer_instance

def mailtoPat : Str := ("mailto:").toList

/-- One entry of a structured language block, together with the separator text
that precedes it. -/
structure BEntry where
  sep : Str
  key : Str
  ws1 : Str
  ws2 : Str
  value : Str
deriving DecidableEq, Repr

/-- The text `'<key>'<ws1>:<ws2>'<value>'` of one entry. -/
def mkEntry (key ws1 ws2 value : Str) : Str :=
  '\'' :: key ++ '\'' :: ws1 ++ ':' :: ws2 ++ '\'' :: value ++ ['\'']

/-- The text of a structured block: each entry preceded by its separator, with
trailing text after the last entry. -/
def entriesText : List BEntry → Str → Str
  | [], tail => tail
  | e :: es, tail => e.sep ++ mkEntry e.key e.ws1 e.ws2 e.value ++ entriesText es tail

/-- Rewriting of one key/value pair on one entry: entries holding the key get
the escaped value. -/
def updEntry (kv : Str × Str) (e : BEntry) : BEntry :=
  if e.key = kv.1 then { e with value := escapeQ kv.2 } else e

/-- Sequential rewriting of a whole entry dictionary. -/
def updEntries (kvs : List (Str × Str)) (es : List BEntry) : List BEntry :=
  kvs.foldl (fun acc kv => acc.map (updEntry kv)) es

def noQuote (s : Str) : Prop := '\'' ∉ s

def braceFree (s : Str) : Prop := '\x7b' ∉ s ∧ '\x7d' ∉ s

/-- A key shape that the matcher can never mistake for block punctuation:
nonempty, quote-free, and not starting with whitespace or `':'`. -/
def keyShape (k : Str) : Prop :=
  k ≠ [] ∧ noQuote k ∧ ∀ c, k.head? = some c → pyWs c = false ∧ c ≠ ':'

/-- No occurrence of `'<key` anywhere in the quoted value: substituting some
other key cannot start a match inside this value. -/
def valueFresh (key v : Str) : Prop := ¬ ('\'' :: key) <:+: ('\'' :: v)

/-- All the side conditions under which `subAll` on a structured block rewrites
exactly the entries whose key is the substituted one. -/
def blockFits (key : Str) (es : List BEntry) (tail : Str) : Prop :=
  noQuote tail ∧ (∀ c ∈ tail, c ≠ ':') ∧
  ∀ e ∈ es,
    noQuote e.sep ∧ (∀ c ∈ e.sep, c ≠ ':') ∧ keyShape e.key ∧
    (∀ c ∈ e.ws1, pyWs c = true) ∧ (∀ c ∈ e.ws2, pyWs c = true) ∧
    (if e.key = key then noQuote e.value else valueFresh key e.value)

instance (s : Str) : Decidable (noQuote s) := by
  unfold noQuote; infer_instance

instance (s : Str) : Decidable (braceFree s) := by
  unfold braceFree; infer_instance

instance (k : Str) : Decidable (keyShape k) := by
  unfold keyShape; infer_instance

instance (key v : Str) : Decidable (valueFresh key v) := by
  unfold valueFresh; infer_instance

/-- The document content after one run of the tool: the written text when the
run writes, and the unchanged document otherwise. -/
def runDocument (radios : List Radio) (html : Str) : Str :=
  match main radios html with
  | .finished _ (some h) => h
  | _ => html

/-- Executable occurrence check: `p` occurs as a contiguous substring of `s`. -/
def containsSub (p : Str) : Str → Bool
  | [] => p.isEmpty
  | c :: rest => p.isPrefixOf (c :: rest) || containsSub p rest

/-- Executable form of `Blocked`. -/
def blockedB (p s : Str) : Bool :=
  !containsSub p s &&
    (List.range p.length).all (fun k => k = 0 || !(p.take k).isSuffixOf s)

/-- The items that `parse_template` produces from `escapeQ v ++ "\g<2>"` when
`v` is backslash-free: each escaped quote is "left alone", every other
character is a literal, and the trailing `\g<2>` is group 2. -/
def escItems : Str → List TItem
  | [] => [.group 2]
  | '\'' :: vs => .lit ['\\', '\''] :: escItems vs
  | c :: vs => .lit [c] :: escItems vs

/-- The cumulative effect of `updEntries` on a single entry. -/
def updAll (kvs : List (Str × Str)) (e : BEntry) : BEntry :=
  kvs.foldl (fun x kv => updEntry kv x) e

/-- Tail-recursive list length, for iterative evaluation of marker offsets. -/
def lengthAcc {α : Type} : List α → Nat → Nat
  | [], n => n
  | _ :: rest, n => lengthAcc rest (n + 1)

/-! ### Generic string toolbox -/

theorem length_eq_lengthAcc0 {α : Type} : ∀ (l : List α), l.length = lengthAcc l 0 := by
  have h : ∀ (l : List α) (n : Nat), l.length + n = lengthAcc l n := by
    intro l
    induction l with
    | nil => intro n; simp [lengthAcc]
    | cons x rest ih =>
      intro n
      show rest.length + 1 + n = lengthAcc rest (n + 1)
      rw [← ih (n + 1)]
      omega
  intro l
  have := h l 0
  simpa using this

theorem containsSub_iff {p : Str} : ∀ {s : Str}, containsSub p s = true ↔ p <:+: s := by
  intro s
  induction s with
  | nil =>
    simp only [containsSub, List.isEmpty_iff, List.infix_nil]
  | cons c rest ih =>
    simp only [containsSub, Bool.or_eq_true, List.infix_cons_iff, ih,
      List.isPrefixOf_iff_prefix]

theorem not_infix_of_containsSub {p s : Str} (h : containsSub p s = false) : ¬ p <:+: s := by
  intro hin
  rw [← containsSub_iff] at hin
  rw [h] at hin
  cases hin

theorem blockedB_sound {p s : Str} (h : blockedB p s = true) : Blocked p s := by
  unfold blockedB at h
  rw [Bool.and_eq_true] at h
  obtain ⟨h1, h2⟩ := h
  constructor
  · intro hin
    rw [← containsSub_iff] at hin
    rw [hin] at h1
    cases h1
  · intro k hk hk0 hsuf
    rw [List.all_eq_true] at h2
    have hm : k ∈ List.range p.length := List.mem_range.mpr hk
    have := h2 k hm
    rw [Bool.or_eq_true] at this
    rcases this with h' | h'
    · simp only [decide_eq_true_eq] at h'
      omega
    · rw [Bool.not_eq_true', ← Bool.not_eq_true] at h'
      exact h' (List.isSuffixOf_iff_suffix.mpr hsuf)

theorem infix_append_split {p a b : Str} (h : p <:+: a ++ b) :
    p <:+: a ∨ p <:+: b ∨
      ∃ k, 0 < k ∧ k < p.length ∧ p.take k <:+ a ∧ p.drop k <+: b := by
  obtain ⟨u, v, huv⟩ := h
  rw [List.append_assoc] at huv
  by_cases hua : u.length + p.length ≤ a.length
  · left
    have ha : a = (u ++ (p ++ v)).take a.length := by rw [huv, List.take_left]
    rw [List.take_append_eq_append_take,
      List.take_of_length_le (by omega : u.length ≤ a.length),
      List.take_append_eq_append_take,
      List.take_of_length_le (by omega : p.length ≤ a.length - u.length)] at ha
    exact ⟨u, v.take (a.length - u.length - p.length),
      by rw [List.append_assoc]; exact ha.symm⟩
  · by_cases hub : a.length ≤ u.length
    · right; left
      have hb : b = (u ++ (p ++ v)).drop a.length := by rw [huv, List.drop_left]
      rw [List.drop_append_eq_append_drop,
        Nat.sub_eq_zero_of_le hub, List.drop_zero] at hb
      exact ⟨u.drop a.length, v, by rw [List.append_assoc]; exact hb.symm⟩
    · right; right
      refine ⟨a.length - u.length, by omega, by omega, ?_, ?_⟩
      · have ha : a = (u ++ (p ++ v)).take a.length := by rw [huv, List.take_left]
        rw [List.take_append_eq_append_take,
          List.take_of_length_le (by omega : u.length ≤ a.length),
          List.take_append_eq_append_take,
          Nat.sub_eq_zero_of_le (by omega : a.length - u.length ≤ p.length),
          List.take_zero, List.append_nil] at ha
        exact ⟨u, ha.symm⟩
      · have hb : b = (u ++ (p ++ v)).drop a.length := by rw [huv, List.drop_left]
        rw [List.drop_append_eq_append_drop,
          List.drop_eq_nil_of_le (by omega : u.length ≤ a.length), List.nil_append,
          List.drop_append_eq_append_drop,
          Nat.sub_eq_zero_of_le (by omega : a.length - u.length ≤ p.length),
          List.drop_zero] at hb
        exact ⟨v, hb.symm⟩

theorem not_infix_append {p a b : Str} (hb : Blocked p a) (h2 : ¬ p <:+: b) :
    ¬ p <:+: a ++ b := by
  intro h
  rcases infix_append_split h with h' | h' | ⟨k, hk0, hklt, hta, htb⟩
  · exact hb.1 h'
  · exact h2 h'
  · exact hb.2 k hklt hk0 hta

theorem mem_of_infix {p s : Str} {c : Char} (h : p <:+: s) (hc : c ∈ p) : c ∈ s := by
  obtain ⟨u, v, rfl⟩ := h
  simp only [List.mem_append]
  exact Or.inl (Or.inr hc)

theorem mem_of_suffix {p s : Str} {c : Char} (h : p <:+ s) (hc : c ∈ p) : c ∈ s := by
  obtain ⟨u, rfl⟩ := h
  simp only [List.mem_append]
  exact Or.inr hc

/-- A segment whose characters are disjoint from the pattern blocks it. -/
theorem blocked_of_disjoint {p s : Str} (hp : p ≠ []) (h : ∀ c ∈ s, c ∉ p) :
    Blocked p s := by
  constructor
  · intro hin
    obtain ⟨c, hc⟩ := List.exists_mem_of_ne_nil p hp
    exact h c ( mem_of_infix hin hc) hc
  · intro k hk hk0 hsuf
    have hlen : (p.take k).length = k := by rw [List.length_take]; omega
    have hne : p.take k ≠ [] := by
      intro hemp; rw [hemp] at hlen; simp at hlen; omega
    obtain ⟨c, hc⟩ := List.exists_mem_of_ne_nil _ hne
    have hcp : c ∈ p := List.mem_of_mem_take hc
    exact h c (mem_of_suffix hsuf hc) hcp

/-- A segment also blocks when its last character is not in the pattern and
some character of the pattern does not occur in it. -/
theorem blocked_of_getLast {p s : Str}
    (h1 : ∃ c ∈ p, c ∉ s) (h2 : ∀ c, s.getLast? = some c → c ∉ p) : Blocked p s := by
  constructor
  · intro hin
    obtain ⟨c, hcp, hcs⟩ := h1
    exact hcs ( mem_of_infix hin hcp)
  · intro k hk hk0 hsuf
    have hlen : (p.take k).length = k := by rw [List.length_take]; omega
    have hne : p.take k ≠ [] := by
      intro hemp; rw [hemp] at hlen; simp at hlen; omega
    have hsome : (p.take k).getLast?.isSome := List.getLast?_isSome.mpr hne
    obtain ⟨c, hc⟩ := Option.isSome_iff_exists.mp hsome
    have hlast : s.getLast? = some c := by
      obtain ⟨u, hu⟩ := hsuf
      rw [← hu, List.getLast?_append, hc, Option.or_some]
    have hcp : c ∈ p :=
      List.mem_of_mem_take (List.mem_of_getLast?_eq_some hc)
    exact h2 c hlast hcp

/-! ### Decimal digits -/

theorem natDigitsF_mono : ∀ (fuel fuel' n : Nat), n < fuel → n < fuel' →
    natDigitsF fuel n = natDigitsF fuel' n := by
  intro fuel
  induction fuel with
  | zero => intro fuel' n h; omega
  | succ f ih =>
    intro fuel' n h h'
    cases fuel' with
    | zero => omega
    | succ f' =>
      simp only [natDigitsF]
      by_cases h10 : n < 10
      · simp [h10]
      · simp only [h10, if_false]
        have hd : n / 10 < n := Nat.div_lt_self (by omega) (by omega)
        rw [ih f' (n / 10) (by omega) (by omega)]

theorem natDigits_eq (n : Nat) :
    natDigits n = if n < 10 then [digCh n] else natDigits (n / 10) ++ [digCh (n % 10)] := by
  unfold natDigits
  conv_lhs => rw [natDigitsF]
  by_cases h10 : n < 10
  · simp [h10]
  · simp only [h10, if_false]
    have hd : n / 10 < n := Nat.div_lt_self (by omega) (by omega)
    rw [natDigitsF_mono n (n / 10 + 1) (n / 10) (by omega) (by omega)]

theorem natDigits_induction (P : Nat → Prop)
    (h1 : ∀ n, n < 10 → P n) (h2 : ∀ n, ¬ n < 10 → P (n / 10) → P n) : ∀ n, P n := by
  intro n
  induction n using Nat.strong_induction_on with
  | _ n ih =>
    by_cases h10 : n < 10
    · exact h1 n h10
    · exact h2 n h10 (ih (n / 10) (Nat.div_lt_self (by omega) (by omega)))

theorem digCh_mem_digits {d : Nat} (h : d < 10) : digCh d ∈ ("0123456789").toList := by
  interval_cases d <;> decide

theorem natDigits_chars (n : Nat) : ∀ c ∈ natDigits n, c ∈ ("0123456789").toList := by
  induction n using natDigits_induction with
  | h1 n h =>
    rw [natDigits_eq, if_pos h]
    intro c hc
    rw [List.mem_singleton] at hc
    rw [hc]; exact digCh_mem_digits h
  | h2 n h ih =>
    rw [natDigits_eq, if_neg h]
    intro c hc
    rw [List.mem_append] at hc
    rcases hc with hc | hc
    · exact ih c hc
    · rw [List.mem_singleton] at hc
      rw [hc]; exact digCh_mem_digits (Nat.mod_lt _ (by omega))

theorem natDigits_ne_nil (n : Nat) : natDigits n ≠ [] := by
  rw [natDigits_eq]
  by_cases h10 : n < 10
  · simp [h10]
  · simp [h10]

theorem digitsVal_append_single (a : Str) (c : Char) :
    digitsVal (a ++ [c]) = 10 * digitsVal a + (c.toNat - 48) := by
  unfold digitsVal
  rw [List.foldl_append]
  rfl

theorem digCh_toNat {d : Nat} (h : d < 10) : (digCh d).toNat = 48 + d := by
  interval_cases d <;> decide

theorem digitsVal_natDigits (n : Nat) : digitsVal (natDigits n) = n := by
  induction n using natDigits_induction with
  | h1 n h =>
    rw [natDigits_eq, if_pos h]
    show digitsVal ([] ++ [digCh n]) = n
    rw [digitsVal_append_single, digCh_toNat h]
    unfold digitsVal
    simp
  | h2 n h ih =>
    rw [natDigits_eq, if_neg h]
    rw [digitsVal_append_single, ih, digCh_toNat (Nat.mod_lt _ (by omega))]
    omega

theorem natDigits_injective {m n : Nat} (h : natDigits m = natDigits n) : m = n := by
  have := congrArg digitsVal h
  rwa [digitsVal_natDigits, digitsVal_natDigits] at this

theorem radioKey_injective {m n : Nat} (h : radioKey m = radioKey n) : m = n := by
  unfold radioKey at h
  have h1 := List.append_cancel_right h
  have h2 := List.append_cancel_left h1
  exact natDigits_injective h2

/-! ### Price formatting (C4) -/

theorem grpRev_map_repl : ∀ (r : Str), (∀ c ∈ r, c ≠ ',') →
    (grpRev r).map (fun c => if c = ',' then '.' else c) = grpRevDot r := by
  intro r
  induction r using grpRev.induct with
  | case1 a b c d rest ih =>
    intro h
    simp only [grpRev, grpRevDot, List.map_cons]
    rw [ih (by
      intro x hx
      apply h x
      simp only [List.mem_cons] at hx ⊢
      tauto)]
    have ha : a ≠ ',' := h a (by simp)
    have hb : b ≠ ',' := h b (by simp)
    have hc : c ≠ ',' := h c (by simp)
    simp [ha, hb, hc]
  | case2 s hs =>
    intro h
    have hid : s.map (fun c => if c = ',' then '.' else c) = s := by
      have hcong : s.map (fun c => if c = ',' then '.' else c) = s.map id :=
        List.map_congr_left (fun x hx => by simp [h x hx])
      rw [hcong, List.map_id]
    rcases s with _ | ⟨a, _ | ⟨b, _ | ⟨c, _ | ⟨d, rest⟩⟩⟩⟩
    · rfl
    · simpa [grpRev, grpRevDot] using hid
    · simpa [grpRev, grpRevDot] using hid
    · simpa [grpRev, grpRevDot] using hid
    · exact absurd rfl (hs a b c d rest)

theorem grpRevDot_short {s : Str} (h : s.length ≤ 3) : grpRevDot s = s := by
  rcases s with _ | ⟨a, _ | ⟨b, _ | ⟨c, _ | ⟨d, rest⟩⟩⟩⟩
  · rfl
  · rfl
  · rfl
  · rfl
  · simp at h

theorem specThousandsGrouped_reverse : ∀ (ds : Str),
    (specThousandsGrouped ds).reverse = grpRevDot ds.reverse := by
  intro ds
  induction ds using specThousandsGrouped.induct with
  | case1 ds h =>
    rw [specThousandsGrouped, dif_pos h, grpRevDot_short (by simpa using h)]
  | case2 ds h ih =>
    rw [specThousandsGrouped, dif_neg h]
    rw [List.reverse_append, List.reverse_cons]
    have hsplit : ds.reverse = (ds.drop (ds.length - 3)).reverse ++ (ds.take (ds.length - 3)).reverse := by
      rw [← List.reverse_append, List.take_append_drop]
    have hlen : (ds.drop (ds.length - 3)).length = 3 := by
      rw [List.length_drop]; omega
    obtain ⟨a, b, c, habc⟩ := List.length_eq_three.mp (by
      rw [List.length_reverse]; exact hlen : (ds.drop (ds.length - 3)).reverse.length = 3)
    have htne : (ds.take (ds.length - 3)).reverse ≠ [] := by
      intro hemp
      have := congrArg List.length hemp
      simp only [List.length_reverse, List.length_take] at this
      simp at this
      omega
    obtain ⟨t0, trest, ht⟩ := List.exists_cons_of_ne_nil htne
    rw [hsplit, habc, ht]
    simp only [List.cons_append, List.nil_append, grpRevDot]
    rw [ih, ht]

/-- C4: for every (nonnegative, per the data model) integer price,
`format_price` returns the decimal digits grouped in thousands with `'.'` as
separator and the `'€'` suffix — `specThousandsGrouped` is the spec-side
grouping — and in particular 0 ↦ "0€", 850 ↦ "850€", 1000 ↦ "1.000€",
1234567 ↦ "1.234.567€". -/
theorem c4_format_price :
    (∀ p : Int, 0 ≤ p →
      format_price p = specThousandsGrouped (natDigits p.toNat) ++ ("€").toList) ∧
    format_price 0 = ("0€").toList ∧
    format_price 850 = ("850€").toList ∧
    format_price 1000 = ("1.000€").toList ∧
    format_price 1234567 = ("1.234.567€").toList := by
  refine ⟨?_, by decide, by decide, by decide, by decide⟩
  intro p hp
  unfold format_price pyCommaFormat
  have hneg : ¬ p < 0 := by omega
  rw [if_neg hneg, List.nil_append, List.map_append]
  have heuro : ("€").toList.map (fun c => if c = ',' then '.' else c) = ("€").toList := by
    decide
  rw [heuro]
  have habs : p.natAbs = p.toNat := by omega
  rw [habs]
  have hcommas : ∀ c ∈ (natDigits p.toNat).reverse, c ≠ ',' := by
    intro c hc heq
    have hmem := natDigits_chars p.toNat c (List.mem_reverse.mp hc)
    subst heq
    revert hmem
    decide
  rw [List.map_reverse, grpRev_map_repl _ hcommas,
    ← specThousandsGrouped_reverse, List.reverse_reverse]

/-- Witness for C4's universally quantified part at the concrete price 7. -/
theorem c4_format_price_witness :
    (0 : Int) ≤ 7 ∧
      format_price 7 = specThousandsGrouped (natDigits (7 : Int).toNat) ++ ("€").toList :=
  ⟨by decide, c4_format_price.1 7 (by decide)⟩

/-! ### Status branching (C3) -/

theorem not_mem_of_elem_false {c : Char} {l : Str} (h : l.elem c = false) : c ∉ l := by
  intro hc
  rw [List.elem_eq_true_of_mem hc] at h
  cases h

theorem intStr_chars (y : Int) : ∀ c ∈ intStr y, c ∈ ("-0123456789").toList := by
  unfold intStr
  by_cases hy : y < 0
  · rw [if_pos hy]
    intro c hc
    rcases List.mem_cons.mp hc with hc | hc
    · rw [hc]; decide
    · have := natDigits_chars y.natAbs c hc
      simp only [List.mem_cons] at this ⊢
      tauto
  · rw [if_neg hy]
    intro c hc
    have := natDigits_chars y.toNat c hc
    simp only [List.mem_cons] at this ⊢
    tauto

theorem grpRev_chars : ∀ (r : Str), ∀ c ∈ grpRev r, c ∈ r ∨ c = ',' := by
  intro r
  induction r using grpRev.induct with
  | case1 a b c d rest ih =>
    intro x hx
    simp only [grpRev, List.mem_cons] at hx
    rcases hx with h | h | h | h | h
    · exact Or.inl (by simp [h])
    · exact Or.inl (by simp [h])
    · exact Or.inl (by simp [h])
    · exact Or.inr h
    · rcases ih x h with h' | h'
      · exact Or.inl (by simp only [List.mem_cons] at h' ⊢; tauto)
      · exact Or.inr h'
  | case2 s hs =>
    intro x hx
    left
    rcases s with _ | ⟨a, _ | ⟨b, _ | ⟨c, _ | ⟨d, rest⟩⟩⟩⟩ <;>
      first
      | exact hx
      | exact absurd rfl (hs _ _ _ _ _)

theorem format_price_chars (p : Int) :
    ∀ c ∈ format_price p, c ∈ ("-0123456789.€").toList := by
  unfold format_price pyCommaFormat
  intro c hc
  rw [List.mem_map] at hc
  obtain ⟨x, hx, hxc⟩ := hc
  rw [List.mem_append] at hx
  rcases hx with hx | hx
  · rw [List.mem_append] at hx
    rcases hx with hx | hx
    · by_cases hp : p < 0
      · rw [if_pos hp] at hx
        rw [List.mem_singleton] at hx
        subst hx; subst hxc; decide
      · rw [if_neg hp] at hx
        cases hx
    · rw [List.mem_reverse] at hx
      rcases grpRev_chars _ x hx with hx' | hx'
      · rw [List.mem_reverse] at hx'
        have hdig := natDigits_chars p.natAbs x hx'
        subst hxc
        have hxne : x ≠ ',' := by
          intro hcom; subst hcom; revert hdig; decide
        rw [if_neg hxne]
        revert hdig
        have hsub : ∀ y ∈ ("0123456789").toList, y ∈ ("-0123456789.€").toList := by decide
        exact hsub x
      · subst hx'; subst hxc; decide
  · have hx' : x ∈ ['€'] := hx
    rw [List.mem_singleton] at hx'
    subst hx'; subst hxc; decide

theorem render_card_sold (r : Radio) (i : Nat) (hst : r.status = some (("sold").toList)) :
    render_card r i =
      cardBody (("sold").toList) ((" position: relative;").toList) overlayLit
        r.image r.year r.model (radioKey i) r.description_en
        (soldRowA ++ format_price (r.price.getD 0) ++ soldRowB) := by
  unfold render_card
  rw [hst]
  rfl

theorem render_card_collection (r : Radio) (i : Nat)
    (hst : r.status = some (("collection").toList)) :
    render_card r i =
      cardBody (("collection").toList) [] [] r.image r.year r.model (radioKey i)
        r.description_en collectionRow := by
  unfold render_card
  rw [hst]
  rfl

theorem render_card_sale_branch (r : Radio) (i : Nat) (st : Str)
    (hst : r.status = some st) (h1 : st ≠ ("sold").toList)
    (h2 : st ≠ ("collection").toList) :
    render_card r i =
      cardBody st [] [] r.image r.year r.model (radioKey i) r.description_en
        (saleRowA ++ format_price (r.price.getD 0) ++ saleRowB ++ r.model ++ saleRowC) := by
  unfold render_card
  rw [hst]
  simp only [Option.getD_some]
  rw [if_neg h1, if_neg h1, if_neg h1, if_neg h2]

theorem radioKey_colon_free (i : Nat) : ':' ∉ radioKey i := by
  unfold radioKey
  intro h
  rw [List.append_assoc, List.mem_append, List.mem_append] at h
  rcases h with h | h | h
  · revert h; decide
  · have := natDigits_chars i ':' h
    revert this; decide
  · revert h; decide

theorem radioKey_getLast (i : Nat) : (radioKey i).getLast? = some 'c' := by
  unfold radioKey
  rw [List.getLast?_append]
  rfl

theorem radioKey_blocked (i : Nat) : Blocked mailtoPat (radioKey i) := by
  apply blocked_of_getLast
  · exact ⟨':', by decide, radioKey_colon_free i⟩
  · intro c hc
    rw [radioKey_getLast] at hc
    injection hc with hc
    subst hc
    decide

theorem euro_not_mem_intStr (y : Int) : '€' ∉ intStr y := by
  intro h
  have := intStr_chars y '€' h
  revert this; decide

theorem euro_not_mem_radioKey (i : Nat) : '€' ∉ radioKey i := by
  unfold radioKey
  intro h
  rw [List.append_assoc, List.mem_append, List.mem_append] at h
  rcases h with h | h | h
  · revert h; decide
  · have := natDigits_chars i '€' h
    revert this; decide
  · revert h; decide

/-- C3: status branching of `render_card` — a `"sold"` record renders no
mailto contact link (no occurrence of `"mailto:"` anywhere in the card, given
that the interpolated text fields do not themselves contain characters of that
pattern); a `"collection"` record renders no price (the card does not depend
on the price field at all, and no `'€'` glyph appears given the text fields
carry none); a record with no status renders identically to `status "sale"`;
and any other status value renders through the sale branch (sale action row,
no overlay, no position override). -/
theorem c3_status_branching :
    (∀ (r : Radio) (i : Nat), r.status = some (("sold").toList) →
      (∀ c ∈ r.model, c ∉ mailtoPat) → (∀ c ∈ r.image, c ∉ mailtoPat) →
      (∀ c ∈ r.description_en, c ∉ mailtoPat) →
      ¬ mailtoPat <:+: render_card r i) ∧
    (∀ (r : Radio) (i : Nat) (p₁ p₂ : Option Int),
      r.status = some (("collection").toList) →
      render_card { r with price := p₁ } i = render_card { r with price := p₂ } i) ∧
    (∀ (r : Radio) (i : Nat), r.status = some (("collection").toList) →
      '€' ∉ r.model → '€' ∉ r.image → '€' ∉ r.description_en →
      '€' ∉ render_card r i) ∧
    (∀ (r : Radio) (i : Nat),
      render_card { r with status := none } i =
        render_card { r with status := some (("sale").toList) } i) ∧
    (∀ (r : Radio) (i : Nat) (st : Str), r.status = some st →
      st ≠ ("sold").toList → st ≠ ("collection").toList →
      render_card r i =
        cardBody st [] [] r.image r.year r.model (radioKey i) r.description_en
          (saleRowA ++ format_price (r.price.getD 0) ++ saleRowB ++ r.model ++ saleRowC)) := by
  refine ⟨?_, ?_, ?_, ?_, ?_⟩
  · intro r i hst hm hi hd
    rw [render_card_sold r i hst]
    unfold cardBody
    simp only [List.append_assoc]
    have hpne : mailtoPat ≠ [] := by decide
    have hdig : ∀ c ∈ ("-0123456789").toList, c ∉ mailtoPat := by decide
    have hfp : ∀ c ∈ ("-0123456789.€").toList, c ∉ mailtoPat := by decide
    have Bint : Blocked mailtoPat (intStr r.year) :=
      blocked_of_disjoint hpne (fun c hc => hdig c (intStr_chars r.year c hc))
    have Bfp : Blocked mailtoPat (format_price (r.price.getD 0)) :=
      blocked_of_disjoint hpne (fun c hc => hfp c (format_price_chars _ c hc))
    have Bimage : Blocked mailtoPat r.image := blocked_of_disjoint hpne hi
    have Bmodel : Blocked mailtoPat r.model := blocked_of_disjoint hpne hm
    have Bdesc : Blocked mailtoPat r.description_en := blocked_of_disjoint hpne hd
    exact not_infix_append (blockedB_sound (by rfl))
      (not_infix_append (blockedB_sound (by rfl))
      (not_infix_append (blockedB_sound (by rfl))
      (not_infix_append (blockedB_sound (by rfl))
      (not_infix_append (blockedB_sound (by rfl))
      (not_infix_append (blockedB_sound (by rfl))
      (not_infix_append (blockedB_sound (by rfl))
      (not_infix_append Bimage
      (not_infix_append (blockedB_sound (by rfl))
      (not_infix_append Bint
      (not_infix_append (blockedB_sound (by rfl))
      (not_infix_append Bmodel
      (not_infix_append (blockedB_sound (by rfl))
      (not_infix_append Bint
      (not_infix_append (blockedB_sound (by rfl))
      (not_infix_append Bmodel
      (not_infix_append (blockedB_sound (by rfl))
      (not_infix_append (radioKey_blocked i)
      (not_infix_append (blockedB_sound (by rfl))
      (not_infix_append Bdesc
      (not_infix_append (blockedB_sound (by rfl))
      (not_infix_append (blockedB_sound (by rfl))
      (not_infix_append Bfp
      (not_infix_append (blockedB_sound (by rfl))
      ((blockedB_sound (by rfl : blockedB mailtoPat bodyL11 = true)).1))))))))))))))))))))))))
  · intro r i p₁ p₂ hst
    rw [render_card_collection _ i (by simpa using hst),
      render_card_collection _ i (by simpa using hst)]
  · intro r i hst hm hi hd
    rw [render_card_collection r i hst]
    unfold cardBody
    intro hmem
    simp only [List.append_assoc, List.nil_append, List.mem_append] at hmem
    rcases hmem with h|h|h|h|h|h|h|h|h|h|h|h|h|h|h|h|h|h|h|h|h
    all_goals first
      | exact hi h
      | exact hm h
      | exact hd h
      | exact euro_not_mem_intStr r.year h
      | exact euro_not_mem_radioKey i h
      | exact not_mem_of_elem_false (by rfl) h
  · intro r i
    unfold render_card
    rfl
  · intro r i st hst h1 h2
    exact render_card_sale_branch r i st hst h1 h2

/-- Witness for C3 at a concrete sold, collection, unstatused and
custom-status record. -/
theorem c3_status_branching_witness :
    (¬ mailtoPat <:+: render_card
      { year := 1940, model := ("XB-99").toList, image := ("x.jpg").toList,
        price := some 850, status := some (("sold").toList),
        description_en := ("GREY SET").toList, description_es := ("ES").toList,
        file := ("a.json").toList } 1) ∧
    (render_card
      { year := 1950, model := ("M").toList, image := ("y.jpg").toList,
        price := some 1, status := some (("collection").toList),
        description_en := ("D").toList, description_es := ("E").toList,
        file := ("b.json").toList } 2 =
     render_card
      { year := 1950, model := ("M").toList, image := ("y.jpg").toList,
        price := some 999, status := some (("collection").toList),
        description_en := ("D").toList, description_es := ("E").toList,
        file := ("b.json").toList } 2) ∧
    ('€' ∉ render_card
      { year := 1950, model := ("M").toList, image := ("y.jpg").toList,
        price := some 7, status := some (("collection").toList),
        description_en := ("D").toList, description_es := ("E").toList,
        file := ("b.json").toList } 2) ∧
    (render_card
      { year := 1960, model := ("N").toList, image := ("z.jpg").toList,
        price := none, status := none,
        description_en := ("F").toList, description_es := ("G").toList,
        file := ("c.json").toList } 3 =
     render_card
      { year := 1960, model := ("N").toList, image := ("z.jpg").toList,
        price := none, status := some (("sale").toList),
        description_en := ("F").toList, description_es := ("G").toList,
        file := ("c.json").toList } 3) ∧
    (render_card
      { year := 1970, model := ("P").toList, image := ("w.jpg").toList,
        price := some 5, status := some (("weird").toList),
        description_en := ("H").toList, description_es := ("I").toList,
        file := ("d.json").toList } 4 =
      cardBody (("weird").toList) [] [] (("w.jpg").toList) 1970 (("P").toList)
        (radioKey 4) (("H").toList)
        (saleRowA ++ format_price 5 ++ saleRowB ++ ("P").toList ++ saleRowC)) := by
  refine ⟨?_, ?_, ?_, ?_, ?_⟩
  · exact c3_status_branching.1 _ 1 rfl (by decide) (by decide) (by decide)
  · exact c3_status_branching.2.1
      { year := 1950, model := ("M").toList, image := ("y.jpg").toList,
        price := some 1, status := some (("collection").toList),
        description_en := ("D").toList, description_es := ("E").toList,
        file := ("b.json").toList } 2 (some 1) (some 999) rfl
  · exact c3_status_branching.2.2.1 _ 2 rfl (by decide) (by decide) (by decide)
  · exact c3_status_branching.2.2.2.1
      { year := 1960, model := ("N").toList, image := ("z.jpg").toList,
        price := none, status := none,
        description_en := ("F").toList, description_es := ("G").toList,
        file := ("c.json").toList } 3
  · exact c3_status_branching.2.2.2.2 _ 4 _ rfl (by decide) (by decide)

/-! ### Loading order (C1) -/

theorem pyStrLt_irrefl : ∀ s : Str, pyStrLt s s = false := by
  intro s
  induction s with
  | nil => rfl
  | cons a rest ih =>
    unfold pyStrLt
    simp only [Nat.lt_irrefl, if_false]
    exact ih

theorem pyStrLt_trans : ∀ a b c : Str,
    pyStrLt a b = true → pyStrLt b c = true → pyStrLt a c = true := by
  intro a
  induction a with
  | nil =>
    intro b c hab hbc
    cases b with
    | nil => cases hab
    | cons b0 bs =>
      cases c with
      | nil => cases hbc
      | cons c0 cs => rfl
  | cons a0 as ih =>
    intro b c hab hbc
    cases b with
    | nil => cases hab
    | cons b0 bs =>
      cases c with
      | nil => cases hbc
      | cons c0 cs =>
        unfold pyStrLt at hab hbc ⊢
        by_cases h1 : a0.toNat < b0.toNat
        · by_cases h2 : b0.toNat < c0.toNat
          · rw [if_pos (by omega)]
          · rw [if_neg h2] at hbc
            by_cases h3 : c0.toNat < b0.toNat
            · rw [if_pos h3] at hbc; cases hbc
            · rw [if_pos (by omega)]
        · rw [if_neg h1] at hab
          by_cases h1' : b0.toNat < a0.toNat
          · rw [if_pos h1'] at hab; cases hab
          · rw [if_neg h1'] at hab
            by_cases h2 : b0.toNat < c0.toNat
            · rw [if_pos (by omega)]
            · rw [if_neg h2] at hbc
              by_cases h3 : c0.toNat < b0.toNat
              · rw [if_pos h3] at hbc; cases hbc
              · rw [if_neg h3] at hbc
                rw [if_neg (by omega), if_neg (by omega)]
                exact ih bs cs hab hbc

theorem pyStrLt_asymm {a b : Str} (h : pyStrLt a b = true) : pyStrLt b a = false := by
  by_cases h' : pyStrLt b a = true
  · have := pyStrLt_trans a b a h h'
    rw [pyStrLt_irrefl] at this
    cases this
  · exact Bool.not_eq_true _ ▸ (by simpa using h')

theorem mem_insertRadio {x r : Radio} : ∀ {l : List Radio},
    x ∈ insertRadio r l ↔ x = r ∨ x ∈ l := by
  intro l
  induction l with
  | nil => simp [insertRadio]
  | cons y ys ih =>
    unfold insertRadio
    by_cases h : pyStrLt r.file y.file = true
    · rw [if_pos h]
      simp only [List.mem_cons]
    · rw [if_neg h]
      simp only [List.mem_cons, ih]
      tauto

theorem perm_insertRadio (r : Radio) : ∀ (l : List Radio),
    (insertRadio r l).Perm (r :: l) := by
  intro l
  induction l with
  | nil => simp [insertRadio]
  | cons y ys ih =>
    unfold insertRadio
    by_cases h : pyStrLt r.file y.file = true
    · rw [if_pos h]
    · rw [if_neg h]
      exact (ih.cons y).trans (List.Perm.swap r y ys)

theorem pairwise_insertRadio {r : Radio} : ∀ {l : List Radio},
    List.Pairwise (fun a b => pyStrLt b.file a.file = false) l →
    List.Pairwise (fun a b => pyStrLt b.file a.file = false) (insertRadio r l) := by
  intro l
  induction l with
  | nil =>
    intro _
    simp [insertRadio]
  | cons y ys ih =>
    intro hp
    rw [List.pairwise_cons] at hp
    obtain ⟨hy, hys⟩ := hp
    unfold insertRadio
    by_cases h : pyStrLt r.file y.file = true
    · rw [if_pos h]
      rw [List.pairwise_cons]
      constructor
      · intro z hz
        rcases List.mem_cons.mp hz with hz | hz
        · subst hz
          exact pyStrLt_asymm h
        · by_cases hzr : pyStrLt z.file r.file = true
          · have hzy : pyStrLt z.file y.file = true := pyStrLt_trans _ _ _ hzr h
            rw [hy z hz] at hzy
            cases hzy
          · simpa using hzr
      · rw [List.pairwise_cons]
        exact ⟨hy, hys⟩
    · rw [if_neg h]
      rw [List.pairwise_cons]
      constructor
      · intro z hz
        rcases mem_insertRadio.mp hz with hz | hz
        · subst hz
          simpa using h
        · exact hy z hz
      · exact ih hys

theorem load_radios_perm : ∀ (files : List Radio), (load_radios files).Perm files := by
  intro files
  induction files with
  | nil => rfl
  | cons r rest ih =>
    unfold load_radios
    exact (perm_insertRadio r (load_radios rest)).trans (ih.cons r)

theorem load_radios_sortedBy : ∀ (files : List Radio),
    List.Pairwise (fun a b => pyStrLt b.file a.file = false) (load_radios files) := by
  intro files
  induction files with
  | nil => exact List.Pairwise.nil
  | cons r rest ih =>
    unfold load_radios
    exact pairwise_insertRadio ih

theorem radioKey_infix_cardBody (a b c d : Str) (e : Int) (f k g h : Str) :
    k <:+: cardBody a b c d e f k g h := by
  refine ⟨bodyL1 ++ a ++ bodyL2 ++ b ++ bodyL3 ++ c ++ bodyL4 ++ d ++ bodyL5 ++
    intStr e ++ [' '] ++ f ++ bodyL6 ++ intStr e ++ bodyL7 ++ f ++ bodyL8,
    bodyL9 ++ g ++ bodyL10 ++ h ++ bodyL11, ?_⟩
  unfold cardBody
  simp only [List.append_assoc]

theorem radioKey_infix_render_card (r : Radio) (i : Nat) :
    radioKey i <:+: render_card r i := by
  unfold render_card
  simp only []
  exact radioKey_infix_cardBody _ _ _ _ _ _ _ _ _

/-- C1: the run renders exactly one card per input record; the records are
loaded in filename-sorted order (a sorted permutation of the inputs) and this
order is the card order of the gallery; and the card at position i (0-based)
is rendered from the i-th sorted record with 1-based index i+1, so it carries
the localization key `radio<i+1>.desc`. -/
theorem c1_cards_order (files : List Radio) :
    (cardsList (load_radios files)).length = files.length ∧
    (load_radios files).Perm files ∧
    List.Pairwise (fun a b => pyStrLt b.file a.file = false) (load_radios files) ∧
    render_gallery (load_radios files) =
      GALLERY_START ++ ("\n                ").toList ++
        (cardsList (load_radios files)).flatten ++ ("\n                ").toList ++
        GALLERY_END ∧
    ∀ (i : Nat) (r : Radio), (load_radios files)[i]? = some r →
      (cardsList (load_radios files))[i]? = some (render_card r (i + 1)) ∧
      radioKey (i + 1) <:+: render_card r (i + 1) := by
  refine ⟨?_, load_radios_perm files, load_radios_sortedBy files, ?_, ?_⟩
  · unfold cardsList
    rw [List.length_map, List.enum_length]
    exact (load_radios_perm files).length_eq
  · unfold render_gallery cardsConcat
    simp [List.append_assoc]
  · intro i r hr
    constructor
    · unfold cardsList
      rw [List.getElem?_map]
      unfold List.enum
      rw [List.getElem?_enumFrom, hr]
      simp
    · exact radioKey_infix_render_card r (i + 1)

/-- Witness for C1 on a concrete two-record input given in reverse filename
order. -/
theorem c1_cards_order_witness :
    ((load_radios
      [{ year := 2, model := ("B").toList, image := ("b.jpg").toList,
         price := none, status := none, description_en := ("DB").toList,
         description_es := ("EB").toList, file := ("b.json").toList },
       { year := 1, model := ("A").toList, image := ("a.jpg").toList,
         price := none, status := none, description_en := ("DA").toList,
         description_es := ("EA").toList, file := ("a.json").toList }])[0]? =
      some { year := 1, model := ("A").toList, image := ("a.jpg").toList,
             price := none, status := none, description_en := ("DA").toList,
             description_es := ("EA").toList, file := ("a.json").toList }) ∧
    ((cardsList (load_radios
      [{ year := 2, model := ("B").toList, image := ("b.jpg").toList,
         price := none, status := none, description_en := ("DB").toList,
         description_es := ("EB").toList, file := ("b.json").toList },
       { year := 1, model := ("A").toList, image := ("a.jpg").toList,
         price := none, status := none, description_en := ("DA").toList,
         description_es := ("EA").toList, file := ("a.json").toList }]))[0]? =
      some (render_card
        { year := 1, model := ("A").toList, image := ("a.jpg").toList,
          price := none, status := none, description_en := ("DA").toList,
          description_es := ("EA").toList, file := ("a.json").toList } 1) ∧
      radioKey 1 <:+: render_card
        { year := 1, model := ("A").toList, image := ("a.jpg").toList,
          price := none, status := none, description_en := ("DA").toList,
          description_es := ("EA").toList, file := ("a.json").toList } 1) :=
  ⟨by decide,
   (c1_cards_order _).2.2.2.2 0 _ (by decide)⟩

/-! ### Marker lookup (C2, C7, C9) -/

theorem findSubAux_sound {p : Str} : ∀ (s : Str) (i0 j : Nat),
    findSubAux p s i0 = some j → i0 ≤ j ∧ p <+: s.drop (j - i0) := by
  intro s
  induction s with
  | nil =>
    intro i0 j h
    unfold findSubAux at h
    by_cases he : p.isEmpty
    · rw [if_pos he] at h
      injection h with h
      subst h
      refine ⟨Nat.le_refl _, ?_⟩
      rw [List.isEmpty_iff] at he
      subst he
      simp
    · rw [if_neg he] at h
      cases h
  | cons c rest ih =>
    intro i0 j h
    unfold findSubAux at h
    by_cases hp : p.isPrefixOf (c :: rest)
    · rw [if_pos hp] at h
      injection h with h
      subst h
      simp only [Nat.sub_self, List.drop_zero]
      exact ⟨Nat.le_refl _, List.isPrefixOf_iff_prefix.mp hp⟩
    · rw [if_neg hp] at h
      obtain ⟨h1, h2⟩ := ih (i0 + 1) j h
      refine ⟨by omega, ?_⟩
      have : j - i0 = (j - (i0 + 1)) + 1 := by omega
      rw [this]
      simpa using h2

theorem findSubAux_least {p : Str} : ∀ (s : Str) (i0 j : Nat),
    findSubAux p s i0 = some j → ∀ k, k < j - i0 → ¬ p <+: s.drop k := by
  intro s
  induction s with
  | nil =>
    intro i0 j h k hk
    unfold findSubAux at h
    by_cases he : p.isEmpty
    · rw [if_pos he] at h
      injection h with h
      omega
    · rw [if_neg he] at h
      cases h
  | cons c rest ih =>
    intro i0 j h k hk
    unfold findSubAux at h
    by_cases hp : p.isPrefixOf (c :: rest)
    · rw [if_pos hp] at h
      injection h with h
      omega
    · rw [if_neg hp] at h
      cases k with
      | zero =>
        simp only [List.drop_zero]
        intro hpre
        exact hp (List.isPrefixOf_iff_prefix.mpr hpre)
      | succ k' =>
        have hle := (findSubAux_sound rest (i0 + 1) j h).1
        simpa using ih (i0 + 1) j h k' (by omega)

theorem findSub_sound {p s : Str} {i : Nat} (h : findSub p s = some i) :
    p <+: s.drop i := by
  have := (findSubAux_sound s 0 i h).2
  simpa using this

theorem findSub_least {p s : Str} {i : Nat} (h : findSub p s = some i) :
    ∀ j < i, ¬ p <+: s.drop j := by
  intro j hj
  exact findSubAux_least s 0 i h j (by omega)

theorem findSubAux_shape {p z : Str} (hp : p ≠ []) : ∀ (pre : Str) (i0 : Nat),
    (∀ k < pre.length, ¬ p <+: (pre ++ p ++ z).drop k) →
    findSubAux p (pre ++ p ++ z) i0 = some (i0 + pre.length) := by
  intro pre
  induction pre with
  | nil =>
    intro i0 _
    simp only [List.nil_append, List.length_nil, Nat.add_zero]
    rcases p with _ | ⟨c, ps⟩
    · exact absurd rfl hp
    · simp only [List.cons_append]
      unfold findSubAux
      rw [if_pos (List.isPrefixOf_iff_prefix.mpr (by
        rw [← List.cons_append]
        exact List.prefix_append _ _))]
  | cons c pre' ih =>
    intro i0 hfresh
    simp only [List.cons_append]
    unfold findSubAux
    rw [if_neg (by
      intro hpre
      exact hfresh 0 (by simp)
        (by simpa using List.isPrefixOf_iff_prefix.mp hpre))]
    have hrec := ih (i0 + 1) (by
      intro k hk
      have := hfresh (k + 1) (by simpa using Nat.succ_lt_succ hk)
      simpa using this)
    rw [hrec]
    congr 1
    simp only [List.length_cons]
    omega

theorem findSub_shape {p pre z : Str} (hp : p ≠ [])
    (hfresh : ∀ k < pre.length, ¬ p <+: (pre ++ p ++ z).drop k) :
    findSub p (pre ++ p ++ z) = some pre.length := by
  have := findSubAux_shape hp pre 0 hfresh
  simpa using this

/-- C2: with both markers found (at the first occurrences `s` and `e`), the
splice replaces exactly the span from the start marker's first character
through the end marker's last character with start marker, glue, concatenated
card fragments, glue, end marker, keeping the text before `s` and after
`e + len(end)` unchanged. -/
theorem c2_splice_replaces_span (radios : List Radio) (html : Str) (s e : Nat)
    (hr : radios ≠ [])
    (hs : findSub GALLERY_START html = some s)
    (he : findSub GALLERY_END html = some e) :
    GALLERY_START <+: html.drop s ∧
    GALLERY_END <+: html.drop e ∧
    splice_gallery radios html s e =
      html.take s ++
        (GALLERY_START ++ ("\n                ").toList ++ cardsConcat radios ++
          ("\n                ").toList ++ GALLERY_END) ++
        html.drop (e + GALLERY_END.length) := by
  refine ⟨findSub_sound hs, findSub_sound he, ?_⟩
  unfold splice_gallery render_gallery
  simp [List.append_assoc]

/-- Witness for C2 on a concrete one-record input and a document with both
markers. -/
theorem c2_splice_replaces_span_witness :
    ([{ year := 1, model := ("A").toList, image := ("a.jpg").toList,
        price := none, status := none, description_en := ("DA").toList,
        description_es := ("EA").toList, file := ("a.json").toList }] ≠
      ([] : List Radio)) ∧
    findSub GALLERY_START (("x<!-- GALLERY:START -->y<!-- GALLERY:END -->z").toList) =
      some 1 ∧
    splice_gallery
      [{ year := 1, model := ("A").toList, image := ("a.jpg").toList,
         price := none, status := none, description_en := ("DA").toList,
         description_es := ("EA").toList, file := ("a.json").toList }]
      (("x<!-- GALLERY:START -->y<!-- GALLERY:END -->z").toList) 1 24 =
      (("x<!-- GALLERY:START -->y<!-- GALLERY:END -->z").toList).take 1 ++
        (GALLERY_START ++ ("\n                ").toList ++
          cardsConcat
            [{ year := 1, model := ("A").toList, image := ("a.jpg").toList,
               price := none, status := none, description_en := ("DA").toList,
               description_es := ("EA").toList, file := ("a.json").toList }] ++
          ("\n                ").toList ++ GALLERY_END) ++
        (("x<!-- GALLERY:START -->y<!-- GALLERY:END -->z").toList).drop
          (24 + GALLERY_END.length) :=
  ⟨by decide, by rfl,
    (c2_splice_replaces_span _ _ 1 24 (by decide) (by rfl) (by rfl)).2.2⟩

/-- C7 counterexample: on a document without the markers the run prints the
two diagnostics and writes nothing, but it returns normally — the process
exit status is zero, not the non-zero failure outcome the claim states
(`MainResult.raised` is the only non-zero outcome in this model). -/
theorem c7_counterexample :
    main
      [{ year := 1, model := ("A").toList, image := ("a.jpg").toList,
         price := none, status := none, description_en := ("DA").toList,
         description_es := ("EA").toList, file := ("a.json").toList }]
      (("no markers here").toList) =
      .finished [errMarkers1, errMarkers2] none ∧
    ∀ msg, main
      [{ year := 1, model := ("A").toList, image := ("a.jpg").toList,
         price := none, status := none, description_en := ("DA").toList,
         description_es := ("EA").toList, file := ("a.json").toList }]
      (("no markers here").toList) ≠ .raised msg := by
  constructor
  · rfl
  · intro msg h
    rw [(by rfl : main
      [{ year := 1, model := ("A").toList, image := ("a.jpg").toList,
         price := none, status := none, description_en := ("DA").toList,
         description_es := ("EA").toList, file := ("a.json").toList }]
      (("no markers here").toList) = .finished [errMarkers1, errMarkers2] none)] at h
    cases h

/-- C7 as amended: when either marker is absent, the run prints the two
diagnostics and leaves the document unwritten, returning normally (process
exit status zero). -/
theorem c7_missing_markers (radios : List Radio) (html : Str)
    (hr : radios ≠ [])
    (hmiss : findSub GALLERY_START html = none ∨ findSub GALLERY_END html = none) :
    main radios html = .finished [errMarkers1, errMarkers2] none := by
  unfold main
  have h0 : radios.isEmpty = false := by
    rw [List.isEmpty_eq_false_iff_exists_mem]
    rcases radios with _ | ⟨r, rest⟩
    · exact absurd rfl hr
    · exact ⟨r, by simp⟩
  rw [h0]
  simp only [Bool.false_eq_true, if_false]
  rcases hmiss with h | h
  · rw [h]
  · rw [h]
    rcases hfs : findSub GALLERY_START html with _ | s <;> rfl

/-- Witness for the amended C7 at a concrete record and marker-free document. -/
theorem c7_missing_markers_witness :
    main
      [{ year := 1, model := ("A").toList, image := ("a.jpg").toList,
         price := none, status := none, description_en := ("DA").toList,
         description_es := ("EA").toList, file := ("a.json").toList }]
      (("<html>nothing</html>").toList) = .finished [errMarkers1, errMarkers2] none :=
  c7_missing_markers _ _ (by decide) (Or.inl (by rfl))

/-- C9 counterexample: on a document whose start marker occurs at indices 1
and 24 (with the end marker at 47), the code splices starting at the FIRST
occurrence (index 1) — `str.find` returns the lowest index — although a later
occurrence exists, and splicing at the last occurrence would produce a
different document. -/
theorem c9_counterexample :
    main
      [{ year := 1, model := ("A").toList, image := ("a.jpg").toList,
         price := none, status := none, description_en := ("DA").toList,
         description_es := ("EA").toList, file := ("a.json").toList }]
      (("A<!-- GALLERY:START -->B<!-- GALLERY:START -->C<!-- GALLERY:END -->D").toList) =
      mainRest
        [{ year := 1, model := ("A").toList, image := ("a.jpg").toList,
           price := none, status := none, description_en := ("DA").toList,
           description_es := ("EA").toList, file := ("a.json").toList }]
        (splice_gallery
          [{ year := 1, model := ("A").toList, image := ("a.jpg").toList,
             price := none, status := none, description_en := ("DA").toList,
             description_es := ("EA").toList, file := ("a.json").toList }]
          (("A<!-- GALLERY:START -->B<!-- GALLERY:START -->C<!-- GALLERY:END -->D").toList)
          1 47) ∧
    GALLERY_START <+:
      ((("A<!-- GALLERY:START -->B<!-- GALLERY:START -->C<!-- GALLERY:END -->D").toList).drop 24) ∧
    splice_gallery
      [{ year := 1, model := ("A").toList, image := ("a.jpg").toList,
         price := none, status := none, description_en := ("DA").toList,
         description_es := ("EA").toList, file := ("a.json").toList }]
      (("A<!-- GALLERY:START -->B<!-- GALLERY:START -->C<!-- GALLERY:END -->D").toList)
      1 47 ≠
    splice_gallery
      [{ year := 1, model := ("A").toList, image := ("a.jpg").toList,
         price := none, status := none, description_en := ("DA").toList,
         description_es := ("EA").toList, file := ("a.json").toList }]
      (("A<!-- GALLERY:START -->B<!-- GALLERY:START -->C<!-- GALLERY:END -->D").toList)
      24 47 := by
  refine ⟨rfl, by decide, ?_⟩
  intro h
  have hb : (splice_gallery
      [{ year := 1, model := ("A").toList, image := ("a.jpg").toList,
         price := none, status := none, description_en := ("DA").toList,
         description_es := ("EA").toList, file := ("a.json").toList }]
      (("A<!-- GALLERY:START -->B<!-- GALLERY:START -->C<!-- GALLERY:END -->D").toList)
      1 47 ==
    splice_gallery
      [{ year := 1, model := ("A").toList, image := ("a.jpg").toList,
         price := none, status := none, description_en := ("DA").toList,
         description_es := ("EA").toList, file := ("a.json").toList }]
      (("A<!-- GALLERY:START -->B<!-- GALLERY:START -->C<!-- GALLERY:END -->D").toList)
      24 47) = false := by rfl
  rw [h] at hb
  simp at hb

/-- C9 as amended: the splice uses the FIRST occurrence of the start marker:
when `str.find` returns `s`, the start marker sits at `s`, no earlier index
carries it, and the run proceeds by splicing the span that begins at `s`. -/
theorem c9_first_occurrence (radios : List Radio) (html : Str) (s e : Nat)
    (hr : radios ≠ [])
    (hs : findSub GALLERY_START html = some s)
    (he : findSub GALLERY_END html = some e) :
    GALLERY_START <+: html.drop s ∧
    (∀ j < s, ¬ GALLERY_START <+: html.drop j) ∧
    main radios html = mainRest radios (splice_gallery radios html s e) := by
  refine ⟨findSub_sound hs, findSub_least hs, ?_⟩
  unfold main
  have h0 : radios.isEmpty = false := by
    rw [List.isEmpty_eq_false_iff_exists_mem]
    rcases radios with _ | ⟨r, rest⟩
    · exact absurd rfl hr
    · exact ⟨r, by simp⟩
  rw [h0, hs, he]
  simp only [Bool.false_eq_true, if_false]

/-- Witness for the amended C9 on the duplicated-marker document. -/
theorem c9_first_occurrence_witness :
    GALLERY_START <+:
      ((("A<!-- GALLERY:START -->B<!-- GALLERY:START -->C<!-- GALLERY:END -->D").toList).drop 1) ∧
    (∀ j < 1, ¬ GALLERY_START <+:
      ((("A<!-- GALLERY:START -->B<!-- GALLERY:START -->C<!-- GALLERY:END -->D").toList).drop j)) ∧
    main
      [{ year := 1, model := ("A").toList, image := ("a.jpg").toList,
         price := none, status := none, description_en := ("DA").toList,
         description_es := ("EA").toList, file := ("a.json").toList }]
      (("A<!-- GALLERY:START -->B<!-- GALLERY:START -->C<!-- GALLERY:END -->D").toList) =
      mainRest
        [{ year := 1, model := ("A").toList, image := ("a.jpg").toList,
           price := none, status := none, description_en := ("DA").toList,
           description_es := ("EA").toList, file := ("a.json").toList }]
        (splice_gallery
          [{ year := 1, model := ("A").toList, image := ("a.jpg").toList,
             price := none, status := none, description_en := ("DA").toList,
             description_es := ("EA").toList, file := ("a.json").toList }]
          (("A<!-- GALLERY:START -->B<!-- GALLERY:START -->C<!-- GALLERY:END -->D").toList)
          1 47) :=
  c9_first_occurrence _ _ 1 47 (by decide) (by rfl) (by rfl)

/-- C10: a schema-valid record whose English description contains a backslash
followed by an ASCII letter (`\d`), on a document with both gallery markers and
both language blocks carrying the generated key, makes the translation patch
raise `re.error` ("bad escape \d"): the replacement value is interpolated into
the regex template, which Python parses eagerly.  The run aborts with the
uncaught exception and `MainResult.raised` carries no written document. -/
theorem c10_bad_escape_raises :
    ('\\' :: ['d']) <:+:
      ({ year := 1960, model := ("M").toList, image := ("m.jpg").toList,
         price := none, status := none, description_en := ("a \\d b").toList,
         description_es := ("es uno").toList, file := ("a.json").toList : Radio }).description_en ∧
    (findSub GALLERY_START
      (("<html><!-- GALLERY:START -->X<!-- GALLERY:END -->\nen: \x7b\n 'radio1.desc': 'old en',\n\x7d,\nes: \x7b\n 'radio1.desc': 'old es',\n\x7d,</html>").toList)).isSome = true ∧
    (findSub GALLERY_END
      (("<html><!-- GALLERY:START -->X<!-- GALLERY:END -->\nen: \x7b\n 'radio1.desc': 'old en',\n\x7d,\nes: \x7b\n 'radio1.desc': 'old es',\n\x7d,</html>").toList)).isSome = true ∧
    main
      [{ year := 1960, model := ("M").toList, image := ("m.jpg").toList,
         price := none, status := none, description_en := ("a \\d b").toList,
         description_es := ("es uno").toList, file := ("a.json").toList }]
      (("<html><!-- GALLERY:START -->X<!-- GALLERY:END -->\nen: \x7b\n 'radio1.desc': 'old en',\n\x7d,\nes: \x7b\n 'radio1.desc': 'old es',\n\x7d,</html>").toList) =
      .raised (("bad escape \\").toList ++ ['d']) := by
  refine ⟨by decide, by rfl, by rfl, ?_⟩
  rfl

/-! ### The matcher on structured blocks -/

theorem takeWhile_sat_append {p : Char → Bool} :
    ∀ (a : Str) {c : Char} (b : Str), (∀ x ∈ a, p x = true) → p c = false →
      (a ++ c :: b).takeWhile p = a := by
  intro a
  induction a with
  | nil =>
    intro c b _ hc
    simp [List.takeWhile, hc]
  | cons x a ih =>
    intro c b h hc
    have hx : p x = true := h x (by simp)
    simp only [List.cons_append, List.takeWhile, hx, List.append_eq]
    rw [ih b (fun y hy => h y (by simp [hy])) hc]

theorem dropWhile_sat_append {p : Char → Bool} :
    ∀ (a : Str) {c : Char} (b : Str), (∀ x ∈ a, p x = true) → p c = false →
      (a ++ c :: b).dropWhile p = c :: b := by
  intro a
  induction a with
  | nil =>
    intro c b _ hc
    simp [List.dropWhile, hc]
  | cons x a ih =>
    intro c b h hc
    have hx : p x = true := h x (by simp)
    simp only [List.cons_append, List.dropWhile, hx, List.append_eq]
    exact ih b (fun y hy => h y (by simp [hy])) hc

theorem isPrefixOf_append_self : ∀ (a b : Str), a.isPrefixOf (a ++ b) = true := by
  intro a b
  induction a with
  | nil => simp [List.isPrefixOf]
  | cons x a ih => simp [List.isPrefixOf, ih]

/-- Two decompositions of a string at the first occurrence of a character that
neither leading part contains agree. -/
theorem append_cons_inj {c : Char} :
    ∀ (a b x y : Str), c ∉ a → c ∉ b → a ++ c :: x = b ++ c :: y →
      a = b ∧ x = y := by
  intro a
  induction a with
  | nil =>
    intro b x y _ hb h
    cases b with
    | nil =>
      simp only [List.nil_append] at h
      exact ⟨rfl, (List.cons.injEq _ _ _ _).mp h |>.2⟩
    | cons d b' =>
      simp only [List.nil_append, List.cons_append] at h
      obtain ⟨h1, _⟩ := (List.cons.injEq _ _ _ _).mp h
      exact absurd (by simp [← h1]) hb
  | cons e a' ih =>
    intro b x y ha hb h
    cases b with
    | nil =>
      simp only [List.nil_append, List.cons_append] at h
      obtain ⟨h1, _⟩ := (List.cons.injEq _ _ _ _).mp h
      exact absurd (by simp [h1]) ha
    | cons d b' =>
      simp only [List.cons_append] at h
      obtain ⟨h1, h2⟩ := (List.cons.injEq _ _ _ _).mp h
      have ha' : c ∉ a' := fun hm => ha (by simp [hm])
      have hb' : c ∉ b' := fun hm => hb (by simp [hm])
      obtain ⟨h3, h4⟩ := ih b' x y ha' hb' h2
      exact ⟨by rw [h1, h3], h4⟩

/-- A quote-free string closed by a quote is a prefix of any string it aligns
with up to that string's own first closing quote. -/
theorem prefix_of_quotefree_append :
    ∀ (a : Str), '\'' ∉ a → ∀ (b x y : Str), a ++ '\'' :: x = b ++ '\'' :: y →
      a <+: b := by
  intro a
  induction a with
  | nil => intro _ b x y _; exact List.nil_prefix
  | cons e a' ih =>
    intro ha b x y h
    cases b with
    | nil =>
      simp only [List.nil_append, List.cons_append] at h
      obtain ⟨h1, _⟩ := (List.cons.injEq _ _ _ _).mp h
      exact absurd (by simp [h1]) ha
    | cons d b' =>
      simp only [List.cons_append] at h
      obtain ⟨h1, h2⟩ := (List.cons.injEq _ _ _ _).mp h
      have ha' : '\'' ∉ a' := fun hm => ha (by simp [hm])
      obtain ⟨t, ht⟩ := ih ha' b' x y h2
      exact ⟨t, by rw [List.cons_append, ht, h1]⟩

/-- Full characterization of a successful match of the pattern
`('<key>'\s*:\s*')[^']*(')`: the string decomposes as quoted key, whitespace,
colon, whitespace, quoted value, and the output is determined by the parts. -/
theorem expectQuote_cons (r : Str) : expectQuote ('\'' :: r) = some r := rfl

theorem expectColon_cons (r : Str) : expectColon (':' :: r) = some r := rfl

theorem expectQuote_some {s r : Str} (h : expectQuote s = some r) : s = '\'' :: r := by
  unfold expectQuote at h
  split at h
  · rename_i r'
    injection h with h'
    rw [h']
  · exact absurd h (by simp)

theorem expectColon_some {s r : Str} (h : expectColon s = some r) : s = ':' :: r := by
  unfold expectColon at h
  split at h
  · rename_i r'
    injection h with h'
    rw [h']
  · exact absurd h (by simp)

/-- Full characterization of a successful match of the pattern
`('<key>'\s*:\s*')[^']*(')`: the string decomposes as quoted key, whitespace,
colon, whitespace, quoted value, and the output is determined by the parts. -/
theorem matchDesc_some_iff {key s : Str} {out : Str × Str × Nat} :
    matchDesc key s = some out ↔
    ∃ ws1 ws2 v rest,
      (∀ c ∈ ws1, pyWs c = true) ∧ (∀ c ∈ ws2, pyWs c = true) ∧ '\'' ∉ v ∧
      s = '\'' :: key ++ '\'' :: ws1 ++ ':' :: ws2 ++ '\'' :: v ++ '\'' :: rest ∧
      out = ('\'' :: key ++ '\'' :: ws1 ++ ':' :: ws2 ++ ['\''], v,
             key.length + ws1.length + ws2.length + v.length + 4) := by
  constructor
  · intro h
    unfold matchDesc at h
    cases hq1 : expectQuote s with
    | none => rw [hq1] at h; simp at h
    | some s1 =>
    rw [hq1] at h
    simp only [Option.some_bind] at h
    by_cases hpre : key.isPrefixOf s1
    case neg => rw [if_neg hpre] at h; simp at h
    rw [if_pos hpre] at h
    cases hq2 : expectQuote (s1.drop key.length) with
    | none => rw [hq2] at h; simp at h
    | some s3 =>
    rw [hq2] at h
    simp only [Option.some_bind] at h
    cases hq3 : expectColon (s3.dropWhile pyWs) with
    | none => rw [hq3] at h; simp at h
    | some s5 =>
    rw [hq3] at h
    simp only [Option.some_bind] at h
    cases hq4 : expectQuote (s5.dropWhile pyWs) with
    | none => rw [hq4] at h; simp at h
    | some s7 =>
    rw [hq4] at h
    simp only [Option.some_bind] at h
    cases hq5 : expectQuote (s7.dropWhile (fun c => c != '\'')) with
    | none => rw [hq5] at h; simp at h
    | some s9 =>
    rw [hq5] at h
    simp only [Option.some_bind] at h
    set w1 := s3.takeWhile pyWs with hw1
    set w2 := s5.takeWhile pyWs with hw2
    set vv := s7.takeWhile (fun c => c != '\'') with hvv
    refine ⟨w1, w2, vv, s9, ?_, ?_, ?_, ?_, ?_⟩
    · intro c hc; rw [hw1] at hc; exact List.mem_takeWhile_imp hc
    · intro c hc; rw [hw2] at hc; exact List.mem_takeWhile_imp hc
    · intro hc
      rw [hvv] at hc
      have := List.mem_takeWhile_imp hc
      simp at this
    · have h0 : s = '\'' :: s1 := expectQuote_some hq1
      have h1 : key ++ s1.drop key.length = s1 :=
        List.prefix_iff_eq_append.mp ( List.isPrefixOf_iff_prefix.mp hpre)
      have h2 : s1.drop key.length = '\'' :: s3 := expectQuote_some hq2
      have h3 : w1 ++ (':' :: s5) = s3 := by
        rw [hw1, ← expectColon_some hq3]
        exact List.takeWhile_append_dropWhile _ _
      have h5 : w2 ++ ('\'' :: s7) = s5 := by
        rw [hw2, ← expectQuote_some hq4]
        exact List.takeWhile_append_dropWhile _ _
      have h7 : vv ++ ('\'' :: s9) = s7 := by
        rw [hvv, ← expectQuote_some hq5]
        exact List.takeWhile_append_dropWhile _ _
      rw [h0, ← h1, h2, ← h3, ← h5, ← h7]
      simp [List.append_assoc]
    · injection h with h'
      rw [← h']
  · rintro ⟨ws1, ws2, v, rest, hw1, hw2, hv, hs, hout⟩
    have hvb : ∀ c ∈ v, (c != '\'') = true := by
      intro c hc
      simp only [bne_iff_ne, ne_eq]
      intro hcq; exact hv (hcq ▸ hc)
    have e1 : s = '\'' :: (key ++ '\'' :: (ws1 ++ ':' :: (ws2 ++ '\'' :: (v ++ '\'' :: rest)))) := by
      rw [hs]; simp [List.append_assoc]
    rw [e1]
    unfold matchDesc
    rw [expectQuote_cons]
    simp only [Option.some_bind]
    rw [if_pos (isPrefixOf_append_self key _)]
    rw [List.drop_left key]
    rw [expectQuote_cons]
    simp only [Option.some_bind]
    rw [takeWhile_sat_append ws1 _ hw1 (by decide),
        dropWhile_sat_append ws1 _ hw1 (by decide)]
    rw [expectColon_cons]
    simp only [Option.some_bind]
    rw [takeWhile_sat_append ws2 _ hw2 (by decide),
        dropWhile_sat_append ws2 _ hw2 (by decide)]
    rw [expectQuote_cons]
    simp only [Option.some_bind]
    rw [takeWhile_sat_append v _ hvb (by decide),
        dropWhile_sat_append v _ hvb (by decide)]
    rw [expectQuote_cons]
    simp only [Option.some_bind]
    rw [hout]

theorem subAllGo_skip {key : Str} {items : List TItem} :
    ∀ (pre rest : Str), subAllGo key items (pre ++ rest) pre.length =
      subAllGo key items rest 0 := by
  intro pre
  induction pre with
  | nil => intro rest; rfl
  | cons a pre ih =>
    intro rest
    simp only [List.cons_append, List.length_cons, subAllGo]
    exact ih rest

theorem matchDesc_none_nonquote {key : Str} {c : Char} {cs : Str} (hc : c ≠ '\'') :
    matchDesc key (c :: cs) = none := by
  cases h : matchDesc key (c :: cs) with
  | none => rfl
  | some out =>
    obtain ⟨ws1, ws2, v, rest, _, _, _, hs, _⟩ := matchDesc_some_iff.mp h
    simp only [List.cons_append] at hs
    injection hs with h1 _
    exact absurd h1 hc

theorem subAllGo_copy_one {key : Str} {items : List TItem} {c : Char} {cs : Str}
    (h : matchDesc key (c :: cs) = none) :
    subAllGo key items (c :: cs) 0 = c :: subAllGo key items cs 0 := by
  simp only [subAllGo]
  rw [h]

theorem subAllGo_copy_noquote {key : Str} {items : List TItem} :
    ∀ (pre rest : Str), '\'' ∉ pre →
      subAllGo key items (pre ++ rest) 0 = pre ++ subAllGo key items rest 0 := by
  intro pre
  induction pre with
  | nil => intro rest _; rfl
  | cons a pre ih =>
    intro rest hpre
    have ha : a ≠ '\'' := fun h => hpre (by simp [h])
    simp only [List.cons_append]
    rw [subAllGo_copy_one (matchDesc_none_nonquote ha)]
    rw [ih rest (fun h => hpre (by simp [h]))]

theorem matchDesc_none_wrong_key {key ekey : Str} (hk : '\'' ∉ key)
    (he : '\'' ∉ ekey) (hne : key ≠ ekey) (Z : Str) :
    matchDesc key ('\'' :: (ekey ++ '\'' :: Z)) = none := by
  cases h : matchDesc key ('\'' :: (ekey ++ '\'' :: Z)) with
  | none => rfl
  | some out =>
    exfalso
    obtain ⟨ws1, ws2, v, rest, _, _, _, hs, _⟩ := matchDesc_some_iff.mp h
    simp only [List.cons_append, List.append_assoc] at hs
    injection hs with _ h2
    obtain ⟨h3, _⟩ := append_cons_inj ekey key _ _ he hk h2
    exact hne h3.symm

theorem matchDesc_none_ws_colon {key : Str} (hk : keyShape key) {w1 : Str}
    (hw : ∀ c ∈ w1, pyWs c = true) (Z : Str) :
    matchDesc key ('\'' :: (w1 ++ ':' :: Z)) = none := by
  cases h : matchDesc key ('\'' :: (w1 ++ ':' :: Z)) with
  | none => rfl
  | some out =>
    exfalso
    obtain ⟨ws1, ws2, v, rest, _, _, _, hs, _⟩ := matchDesc_some_iff.mp h
    simp only [List.cons_append, List.append_assoc] at hs
    injection hs with _ h2
    obtain ⟨hne, _, hhead⟩ := hk
    cases hkey : key with
    | nil => exact hne hkey
    | cons c0 key' =>
      rw [hkey] at h2
      obtain ⟨hws, hcol⟩ := hhead c0 (by rw [hkey]; rfl)
      cases w1 with
      | nil =>
        simp only [List.nil_append, List.cons_append] at h2
        injection h2 with h3 _
        exact hcol h3.symm
      | cons a w1' =>
        simp only [List.cons_append] at h2
        injection h2 with h3 _
        have := hw a (by simp)
        rw [h3] at this
        rw [this] at hws
        exact absurd hws (by simp)

theorem matchDesc_none_value {key v w : Str} (hk : '\'' ∉ key)
    (hvf : valueFresh key v) (hw : ('\'' :: w) <:+: ('\'' :: v)) (R : Str) :
    matchDesc key ('\'' :: (w ++ '\'' :: R)) = none := by
  cases h : matchDesc key ('\'' :: (w ++ '\'' :: R)) with
  | none => rfl
  | some out =>
    exfalso
    obtain ⟨ws1, ws2, v', rest, _, _, _, hs, _⟩ := matchDesc_some_iff.mp h
    simp only [List.cons_append, List.append_assoc] at hs
    injection hs with _ h2
    obtain ⟨t, ht⟩ := prefix_of_quotefree_append key hk w _ _ h2.symm
    cases t with
    | nil =>
      rw [List.append_nil] at ht
      exact hvf (ht ▸ hw)
    | cons d t' =>
      have h4 : key ++ '\'' :: (ws1 ++ ':' :: (ws2 ++ '\'' :: (v' ++ '\'' :: rest))) =
          (key ++ d :: t') ++ '\'' :: R := by rw [ht]; exact h2.symm
      rw [List.append_assoc] at h4
      have h5 := List.append_cancel_left h4
      simp only [List.cons_append] at h5
      injection h5 with h6 _
      have hw' : ('\'' :: key) <+: ('\'' :: w) := by
        refine ⟨'\'' :: t', ?_⟩
        rw [← ht, ← h6]
        simp
      exact hvf (hw'.isInfix.trans hw)

theorem matchDesc_none_close {key : Str} (hkq : '\'' ∉ key) :
    ∀ (es : List BEntry) (tail : Str), '\'' ∉ tail →
      (∀ e ∈ es, '\'' ∉ e.sep ∧ keyShape e.key) →
      matchDesc key ('\'' :: entriesText es tail) = none := by
  intro es tail htail hes
  cases h : matchDesc key ('\'' :: entriesText es tail) with
  | none => rfl
  | some out =>
    exfalso
    obtain ⟨ws1, ws2, v, rest, hws1, _, _, hs, _⟩ := matchDesc_some_iff.mp h
    cases es with
    | nil =>
      simp only [entriesText, List.cons_append, List.append_assoc] at hs
      injection hs with _ h2
      exact htail (h2 ▸ (by simp : '\'' ∈ key ++ '\'' :: (ws1 ++ ':' :: (ws2 ++ '\'' :: (v ++ '\'' :: rest)))))
    | cons e' es' =>
      obtain ⟨hsep, hks⟩ := hes e' (by simp)
      simp only [entriesText, mkEntry, List.cons_append, List.append_assoc] at hs
      injection hs with _ h2
      obtain ⟨hkey_eq, h3⟩ := append_cons_inj e'.sep key _ _ hsep hkq h2
      obtain ⟨hne, _, hhead⟩ := hks
      cases hk' : e'.key with
      | nil => exact hne hk'
      | cons c0 k'' =>
        rw [hk'] at h3
        obtain ⟨hws, hcol⟩ := hhead c0 (by rw [hk']; rfl)
        cases ws1 with
        | nil =>
          simp only [List.nil_append, List.cons_append] at h3
          injection h3 with h4 _
          exact hcol h4
        | cons a w1' =>
          simp only [List.cons_append] at h3
          injection h3 with h4 _
          have := hws1 a (by simp)
          rw [← h4] at this
          rw [this] at hws
          exact absurd hws (by simp)

theorem subAllGo_value_scan {key v : Str} {items : List TItem} (hk : '\'' ∉ key)
    (hvf : valueFresh key v) :
    ∀ (w : Str), w <:+ v → ∀ (R : Str),
      subAllGo key items (w ++ '\'' :: R) 0 = w ++ subAllGo key items ('\'' :: R) 0 := by
  intro w
  induction w with
  | nil => intro _ R; rfl
  | cons c w' ih =>
    intro hsuf R
    have hsuf' : w' <:+ v := (List.suffix_cons c w').trans hsuf
    simp only [List.cons_append]
    by_cases hc : c = '\''
    · subst hc
      obtain ⟨u, hu⟩ := hsuf
      have hinf : ('\'' :: w') <:+: ('\'' :: v) := by
        refine ⟨'\'' :: u, [], ?_⟩
        simp only [List.append_nil, List.cons_append]
        rw [hu]
      rw [subAllGo_copy_one (matchDesc_none_value hk hvf hinf R)]
      rw [ih hsuf' R]
    · rw [subAllGo_copy_one (matchDesc_none_nonquote hc)]
      rw [ih hsuf' R]

theorem subAllGo_match_step {key : Str} {items : List TItem} {c : Char} {cs : Str}
    {g1 v : Str} {k : Nat} (h : matchDesc key (c :: cs) = some (g1, v, k)) :
    subAllGo key items (c :: cs) 0 =
      expandTemplate items (g1 ++ v ++ ['\'']) g1 ['\''] ++ subAllGo key items cs k := by
  simp only [subAllGo]
  rw [h]

theorem escapeQ_cons_other {c : Char} (h : c ≠ '\'') (r : Str) :
    escapeQ (c :: r) = c :: escapeQ r := by
  conv_lhs => unfold escapeQ
  split
  · rename_i heq
    exact absurd heq (by simp)
  · rename_i rest heq
    injection heq with h1 _
    exact absurd h1 h
  · rename_i c' rest heq
    injection heq with h1 h2
    rw [h1, h2]

theorem escItems_cons_other {c : Char} (h : c ≠ '\'') (r : Str) :
    escItems (c :: r) = .lit [c] :: escItems r := by
  conv_lhs => unfold escItems
  split
  · rename_i heq
    exact absurd heq (by simp)
  · rename_i rest heq
    injection heq with h1 _
    exact absurd h1 h
  · rename_i c' rest heq
    injection heq with h1 h2
    rw [h1, h2]

theorem unescapeQ_cons_other {c : Char} {r : Str} (h : ¬ (c = '\\' ∧ r.head? = some '\'')) :
    unescapeQ (c :: r) = c :: unescapeQ r := by
  conv_lhs => unfold unescapeQ
  split
  · rename_i heq
    exact absurd heq (by simp)
  · rename_i rest heq
    injection heq with h1 h2
    exact absurd ⟨h1, by rw [h2]; rfl⟩ h
  · rename_i c' rest heq
    injection heq with h1 h2
    rw [h1, h2]

theorem expandTemplate_escItems :
    ∀ (nv : Str) (g0 g1 g2 : Str),
      expandTemplate (escItems nv) g0 g1 g2 = escapeQ nv ++ g2 := by
  intro nv
  induction nv with
  | nil =>
    intro g0 g1 g2
    simp [expandTemplate, escItems, escapeQ]
  | cons c nv' ih =>
    intro g0 g1 g2
    by_cases hc : c = '\''
    · subst hc
      show expandTemplate (.lit ['\\', '\''] :: escItems nv') g0 g1 g2 = _
      simp only [expandTemplate, List.flatMap_cons] at ih ⊢
      rw [ih g0 g1 g2]
      rfl
    · rw [escItems_cons_other hc, escapeQ_cons_other hc]
      simp only [expandTemplate, List.flatMap_cons] at ih ⊢
      rw [ih g0 g1 g2]
      rfl

theorem expandTemplate_group1 (items : List TItem) (g0 g1 g2 : Str) :
    expandTemplate (.group 1 :: items) g0 g1 g2 = g1 ++ expandTemplate items g0 g1 g2 := by
  simp [expandTemplate]

theorem subAllGo_entry_skip {key : Str} {items : List TItem} {ekey w1 w2 v : Str}
    (hks : keyShape key) (hsek : keyShape ekey) (hne : key ≠ ekey)
    (hw1 : ∀ c ∈ w1, pyWs c = true) (hw2 : ∀ c ∈ w2, pyWs c = true)
    (hvf : valueFresh key v) (REST : Str)
    (hclose : matchDesc key ('\'' :: REST) = none) :
    subAllGo key items (mkEntry ekey w1 w2 v ++ REST) 0 =
      mkEntry ekey w1 w2 v ++ subAllGo key items REST 0 := by
  have hkq : '\'' ∉ key := hks.2.1
  have hekq : '\'' ∉ ekey := hsek.2.1
  have hw1q : '\'' ∉ w1 := fun hm => absurd (hw1 _ hm) (by decide)
  have hw2q : '\'' ∉ w2 := fun hm => absurd (hw2 _ hm) (by decide)
  have e : mkEntry ekey w1 w2 v ++ REST =
      '\'' :: (ekey ++ '\'' :: (w1 ++ ':' :: (w2 ++ '\'' :: (v ++ '\'' :: REST)))) := by
    simp [mkEntry, List.append_assoc]
  rw [e]
  rw [subAllGo_copy_one (matchDesc_none_wrong_key hkq hekq hne _)]
  rw [subAllGo_copy_noquote ekey _ hekq]
  rw [subAllGo_copy_one (matchDesc_none_ws_colon hks hw1 _)]
  rw [subAllGo_copy_noquote w1 _ hw1q]
  rw [subAllGo_copy_one (matchDesc_none_nonquote (by decide))]
  rw [subAllGo_copy_noquote w2 _ hw2q]
  rw [subAllGo_copy_one (matchDesc_none_value hkq hvf (List.infix_refl _) REST)]
  rw [subAllGo_value_scan hkq hvf v (List.suffix_refl v) REST]
  rw [subAllGo_copy_one hclose]
  simp [mkEntry, List.append_assoc]

theorem subAllGo_entry_match {key w1 w2 v nv : Str}
    (hw1 : ∀ c ∈ w1, pyWs c = true) (hw2 : ∀ c ∈ w2, pyWs c = true)
    (hv : '\'' ∉ v) (REST : Str) :
    subAllGo key (.group 1 :: escItems nv) (mkEntry key w1 w2 v ++ REST) 0 =
      mkEntry key w1 w2 (escapeQ nv) ++
        subAllGo key (.group 1 :: escItems nv) REST 0 := by
  have e : mkEntry key w1 w2 v ++ REST =
      '\'' :: (key ++ '\'' :: (w1 ++ ':' :: (w2 ++ '\'' :: (v ++ '\'' :: REST)))) := by
    simp [mkEntry, List.append_assoc]
  have hm : matchDesc key
      ('\'' :: (key ++ '\'' :: (w1 ++ ':' :: (w2 ++ '\'' :: (v ++ '\'' :: REST))))) =
      some ('\'' :: key ++ '\'' :: w1 ++ ':' :: w2 ++ ['\''], v,
            key.length + w1.length + w2.length + v.length + 4) :=
    matchDesc_some_iff.mpr ⟨w1, w2, v, REST, hw1, hw2, hv,
      by simp [List.append_assoc], rfl⟩
  rw [e, subAllGo_match_step hm]
  have e2 : key ++ '\'' :: (w1 ++ ':' :: (w2 ++ '\'' :: (v ++ '\'' :: REST))) =
      (key ++ '\'' :: w1 ++ ':' :: w2 ++ '\'' :: v ++ ['\'']) ++ REST := by
    simp [List.append_assoc]
  have e3 : key.length + w1.length + w2.length + v.length + 4 =
      (key ++ '\'' :: w1 ++ ':' :: w2 ++ '\'' :: v ++ ['\'']).length := by
    simp [List.length_append]
    ring
  rw [e2, e3, subAllGo_skip]
  have e4 : expandTemplate (.group 1 :: escItems nv)
      (('\'' :: key ++ '\'' :: w1 ++ ':' :: w2 ++ ['\'']) ++ v ++ ['\''])
      ('\'' :: key ++ '\'' :: w1 ++ ':' :: w2 ++ ['\'']) ['\''] =
      ('\'' :: key ++ '\'' :: w1 ++ ':' :: w2 ++ ['\'']) ++ escapeQ nv ++ ['\''] := by
    rw [expandTemplate_group1, expandTemplate_escItems]
    simp [List.append_assoc]
  rw [e4]
  simp [mkEntry, List.append_assoc]

/-- The regex substitution on a structured block rewrites exactly the entries
carrying the substituted key and leaves everything else byte-identical. -/
theorem subAll_entriesText {key nv : Str} (hks : keyShape key) :
    ∀ (es : List BEntry) (tail : Str), blockFits key es tail →
      subAll key (.group 1 :: escItems nv) (entriesText es tail) =
        entriesText
          (es.map (fun e => if e.key = key then { e with value := escapeQ nv } else e))
          tail := by
  intro es
  induction es with
  | nil =>
    intro tail hfit
    unfold subAll
    have h := @subAllGo_copy_noquote key (.group 1 :: escItems nv) tail [] hfit.1
    simp only [List.append_nil] at h
    simpa [entriesText, subAllGo] using h
  | cons e es ih =>
    intro tail hfit
    obtain ⟨htq, htc, hall⟩ := hfit
    have hfit' : blockFits key es tail :=
      ⟨htq, htc, fun e' he' => hall e' (List.mem_cons_of_mem e he')⟩
    obtain ⟨hsepq, hsepc, hkshape, hw1, hw2, hvif⟩ := hall e (List.mem_cons_self e es)
    simp only [entriesText, List.map_cons]
    unfold subAll
    rw [List.append_assoc]
    rw [subAllGo_copy_noquote e.sep _ hsepq]
    by_cases hk : e.key = key
    · rw [if_pos hk] at hvif
      have hif : (if e.key = key then ({ e with value := escapeQ nv } : BEntry) else e) =
          { e with value := escapeQ nv } := if_pos hk
      rw [hif]
      dsimp only
      rw [hk]
      rw [subAllGo_entry_match hw1 hw2 hvif (entriesText es tail)]
      have ihx := ih tail hfit'
      unfold subAll at ihx
      rw [ihx]
      simp [List.append_assoc]
    · rw [if_neg hk]
      have hvf : valueFresh key e.value := by rwa [if_neg hk] at hvif
      have hclose : matchDesc key ('\'' :: entriesText es tail) = none :=
        matchDesc_none_close hks.2.1 es tail htq
          (fun e' he' => ⟨(hall e' (List.mem_cons_of_mem e he')).1,
                          (hall e' (List.mem_cons_of_mem e he')).2.2.1⟩)
      rw [subAllGo_entry_skip hks hkshape (fun h => hk h.symm) hw1 hw2 hvf
            (entriesText es tail) hclose]
      have ihx := ih tail hfit'
      unfold subAll at ihx
      rw [ihx]
      simp [List.append_assoc]

theorem parse_templateF_cons_other {c : Char} (h : c ≠ '\\') (fuel : Nat) (rest : Str) :
    parse_templateF (fuel + 1) (c :: rest) =
      (parse_templateF fuel rest).map (fun items => .lit [c] :: items) := by
  conv_lhs => unfold parse_templateF
  split
  · rename_i heq
    exact absurd heq (by simp)
  · rename_i rest' heq
    injection heq with h1 _
    exact absurd h1 h
  · rename_i c' rest' heq
    injection heq with h1 h2
    rw [h1, h2]

theorem escapeQ_length : ∀ (v : Str), v.length ≤ (escapeQ v).length := by
  intro v
  induction v with
  | nil => simp [escapeQ]
  | cons c v' ih =>
    by_cases hc : c = '\''
    · subst hc
      show _ ≤ (escapeQ ('\'' :: v')).length
      rw [show escapeQ ('\'' :: v') = '\\' :: '\'' :: escapeQ v' from rfl]
      simp only [List.length_cons]
      omega
    · rw [escapeQ_cons_other hc]
      simp only [List.length_cons]
      omega

theorem escapeQ_id : ∀ (v : Str), '\'' ∉ v → escapeQ v = v := by
  intro v
  induction v with
  | nil => intro _; rfl
  | cons c v' ih =>
    intro h
    have hc : c ≠ '\'' := fun hq => h (by simp [hq])
    rw [escapeQ_cons_other hc, ih (fun hm => h (by simp [hm]))]

theorem unescapeQ_escapeQ : ∀ (v : Str), '\\' ∉ v → unescapeQ (escapeQ v) = v := by
  intro v
  induction v with
  | nil => intro _; rfl
  | cons c v' ih =>
    intro h
    have hcb : c ≠ '\\' := fun hq => h (by simp [hq])
    have hbs' : '\\' ∉ v' := fun hm => h (by simp [hm])
    by_cases hc : c = '\''
    · subst hc
      rw [show escapeQ ('\'' :: v') = '\\' :: '\'' :: escapeQ v' from rfl]
      rw [show unescapeQ ('\\' :: '\'' :: escapeQ v') = '\'' :: unescapeQ (escapeQ v') from rfl]
      rw [ih hbs']
    · rw [escapeQ_cons_other hc]
      rw [unescapeQ_cons_other (fun hand => hcb hand.1)]
      rw [ih hbs']

theorem parse_templateF_escape :
    ∀ (v : Str) (fuel : Nat), '\\' ∉ v → v.length + 1 < fuel →
      parse_templateF fuel (escapeQ v ++ ("\\g<2>").toList) = .ok (escItems v) := by
  intro v
  induction v with
  | nil =>
    intro fuel _ hf
    obtain ⟨f, rfl⟩ : ∃ f, fuel = f + 2 := ⟨fuel - 2, by omega⟩
    rfl
  | cons c v' ih =>
    intro fuel hbs hf
    obtain ⟨f, rfl⟩ : ∃ f, fuel = f + 1 := ⟨fuel - 1, by omega⟩
    have hbs' : '\\' ∉ v' := fun hm => hbs (by simp [hm])
    have hf' : v'.length + 1 < f := by
      simp only [List.length_cons] at hf
      omega
    by_cases hc : c = '\''
    · subst hc
      rw [show escapeQ ('\'' :: v') = '\\' :: '\'' :: escapeQ v' from rfl]
      rw [show parse_templateF (f + 1)
            (('\\' :: '\'' :: escapeQ v') ++ ("\\g<2>").toList) =
          (parse_templateF f (escapeQ v' ++ ("\\g<2>").toList)).map
            (fun items => .lit ['\\', '\''] :: items) from rfl]
      rw [ih f hbs' hf']
      rfl
    · have hcb : c ≠ '\\' := fun hq => hbs (by simp [hq])
      rw [escapeQ_cons_other hc, List.cons_append,
          parse_templateF_cons_other hcb f _, ih f hbs' hf',
          escItems_cons_other hc]
      rfl

/-- Python parses the replacement template `\g<1>{escaped}\g<2>` eagerly; for a
backslash-free value it yields group 1, the escaped-value literals, group 2. -/
theorem parse_template_repl (v : Str) (hbs : '\\' ∉ v) :
    parse_template (("\\g<1>").toList ++ escapeQ v ++ ("\\g<2>").toList) =
      .ok (.group 1 :: escItems v) := by
  unfold parse_template
  have hL : ((("\\g<1>").toList ++ escapeQ v ++ ("\\g<2>").toList)).length
      = (escapeQ v).length + 10 := by
    simp [List.length_append]
  rw [hL]
  rw [show parse_templateF ((escapeQ v).length + 10 + 1)
        (("\\g<1>").toList ++ escapeQ v ++ ("\\g<2>").toList) =
      (parse_templateF ((escapeQ v).length + 10)
        (escapeQ v ++ ("\\g<2>").toList)).map
        (fun items => .group 1 :: items) from rfl]
  have hlen := escapeQ_length v
  rw [parse_templateF_escape v _ hbs (by omega)]
  rfl

theorem updEntry_sep (kv : Str × Str) (e : BEntry) : (updEntry kv e).sep = e.sep := by
  unfold updEntry; split <;> rfl

theorem updEntry_key (kv : Str × Str) (e : BEntry) : (updEntry kv e).key = e.key := by
  unfold updEntry; split <;> rfl

theorem updEntry_ws1 (kv : Str × Str) (e : BEntry) : (updEntry kv e).ws1 = e.ws1 := by
  unfold updEntry; split <;> rfl

theorem updEntry_ws2 (kv : Str × Str) (e : BEntry) : (updEntry kv e).ws2 = e.ws2 := by
  unfold updEntry; split <;> rfl

theorem updEntry_value_pos {kv : Str × Str} {e : BEntry} (h : e.key = kv.1) :
    (updEntry kv e).value = escapeQ kv.2 := by
  unfold updEntry; rw [if_pos h]

theorem updEntry_value_neg {kv : Str × Str} {e : BEntry} (h : e.key ≠ kv.1) :
    (updEntry kv e).value = e.value := by
  unfold updEntry; rw [if_neg h]

/-- `replace_keys_in_slice` on a structured block: each key rewrites its own
entries' values to the escaped new value and the fold succeeds, leaving the
block in structured form with `updEntries` applied. -/
theorem replace_keys_slice_ok :
    ∀ (kvs : List (Str × Str)) (es : List BEntry) (tail : Str),
      (∀ kv ∈ kvs, keyShape kv.1 ∧ '\\' ∉ kv.2) →
      (kvs.map Prod.fst).Nodup →
      noQuote tail → (∀ c ∈ tail, c ≠ ':') →
      (∀ e ∈ es, noQuote e.sep ∧ (∀ c ∈ e.sep, c ≠ ':') ∧ keyShape e.key ∧
        (∀ c ∈ e.ws1, pyWs c = true) ∧ (∀ c ∈ e.ws2, pyWs c = true)) →
      (∀ kv ∈ kvs, ∀ e ∈ es,
        if e.key = kv.1 then noQuote e.value else valueFresh kv.1 e.value) →
      (∀ kv ∈ kvs, ∀ kv' ∈ kvs, kv.1 ≠ kv'.1 → valueFresh kv.1 (escapeQ kv'.2)) →
      replace_keys_in_slice (entriesText es tail) kvs =
        .ok (entriesText (updEntries kvs es) tail) := by
  intro kvs
  induction kvs with
  | nil =>
    intro es tail _ _ _ _ _ _ _
    rfl
  | cons kv kvs' ih =>
    intro es tail hkv hnd htq htc hes hval hcross
    obtain ⟨key, v⟩ := kv
    obtain ⟨hkey_shape, hvbs⟩ := hkv (key, v) (List.mem_cons_self _ _)
    have hstep : replace_keys_in_slice (entriesText es tail) ((key, v) :: kvs') =
        (parse_template (("\\g<1>").toList ++ escapeQ v ++ ("\\g<2>").toList)).bind
          (fun items => replace_keys_in_slice
            (subAll key items (entriesText es tail)) kvs') := by
      rfl
    rw [hstep, parse_template_repl v hvbs]
    show replace_keys_in_slice
        (subAll key (.group 1 :: escItems v) (entriesText es tail)) kvs' = _
    have hfit : blockFits key es tail := by
      refine ⟨htq, htc, ?_⟩
      intro e he
      obtain ⟨h1, h2, h3, h4, h5⟩ := hes e he
      exact ⟨h1, h2, h3, h4, h5, hval (key, v) (List.mem_cons_self _ _) e he⟩
    rw [subAll_entriesText hkey_shape es tail hfit]
    have hmap : es.map (fun e => if e.key = key then
          ({ e with value := escapeQ v } : BEntry) else e) =
        es.map (updEntry (key, v)) := rfl
    rw [hmap]
    have hkeyout : key ∉ kvs'.map Prod.fst := by
      have := hnd
      simp only [List.map_cons, List.nodup_cons] at this
      exact this.1
    have hupdeq : updEntries ((key, v) :: kvs') es =
        updEntries kvs' (es.map (updEntry (key, v))) := rfl
    rw [hupdeq]
    refine ih (es.map (updEntry (key, v))) tail ?_ ?_ htq htc ?_ ?_ ?_
    · intro kv' hm; exact hkv kv' (List.mem_cons_of_mem _ hm)
    · simp only [List.map_cons, List.nodup_cons] at hnd
      exact hnd.2
    · intro e' he'
      obtain ⟨e, he, rfl⟩ := List.mem_map.mp he'
      obtain ⟨h1, h2, h3, h4, h5⟩ := hes e he
      rw [updEntry_sep, updEntry_key, updEntry_ws1, updEntry_ws2]
      exact ⟨h1, h2, h3, h4, h5⟩
    · intro kv' hm' e' he'
      obtain ⟨e, he, rfl⟩ := List.mem_map.mp he'
      rw [updEntry_key]
      by_cases hek : e.key = key
      · have hne : e.key ≠ kv'.1 := by
          rw [hek]
          intro heq
          exact hkeyout (heq ▸ List.mem_map_of_mem Prod.fst hm')
        rw [if_neg hne, updEntry_value_pos hek]
        exact hcross kv' (List.mem_cons_of_mem _ hm') (key, v)
          (List.mem_cons_self _ _) (fun h => hne (hek.trans h.symm))
      · rw [updEntry_value_neg hek]
        exact hval kv' (List.mem_cons_of_mem _ hm') e he
    · intro a ha b hb hne
      exact hcross a (List.mem_cons_of_mem _ ha) b (List.mem_cons_of_mem _ hb) hne

theorem updEntries_eq_map :
    ∀ (kvs : List (Str × Str)) (es : List BEntry),
      updEntries kvs es = es.map (updAll kvs) := by
  intro kvs
  induction kvs with
  | nil =>
    intro es
    show es = es.map (fun e => e)
    simp
  | cons kv kvs' ih =>
    intro es
    show updEntries kvs' (es.map (updEntry kv)) = _
    rw [ih (es.map (updEntry kv)), List.map_map]
    rfl

theorem updAll_key : ∀ (kvs : List (Str × Str)) (e : BEntry),
    (updAll kvs e).key = e.key := by
  intro kvs
  induction kvs with
  | nil => intro e; rfl
  | cons kv kvs' ih =>
    intro e
    show (updAll kvs' (updEntry kv e)).key = e.key
    rw [ih, updEntry_key]

theorem updAll_sep : ∀ (kvs : List (Str × Str)) (e : BEntry),
    (updAll kvs e).sep = e.sep := by
  intro kvs
  induction kvs with
  | nil => intro e; rfl
  | cons kv kvs' ih =>
    intro e
    show (updAll kvs' (updEntry kv e)).sep = e.sep
    rw [ih, updEntry_sep]

theorem updAll_ws1 : ∀ (kvs : List (Str × Str)) (e : BEntry),
    (updAll kvs e).ws1 = e.ws1 := by
  intro kvs
  induction kvs with
  | nil => intro e; rfl
  | cons kv kvs' ih =>
    intro e
    show (updAll kvs' (updEntry kv e)).ws1 = e.ws1
    rw [ih, updEntry_ws1]

theorem updAll_ws2 : ∀ (kvs : List (Str × Str)) (e : BEntry),
    (updAll kvs e).ws2 = e.ws2 := by
  intro kvs
  induction kvs with
  | nil => intro e; rfl
  | cons kv kvs' ih =>
    intro e
    show (updAll kvs' (updEntry kv e)).ws2 = e.ws2
    rw [ih, updEntry_ws2]

theorem updAll_not_mem : ∀ {kvs : List (Str × Str)} {e : BEntry},
    e.key ∉ kvs.map Prod.fst → updAll kvs e = e := by
  intro kvs
  induction kvs with
  | nil => intro e _; rfl
  | cons kv kvs' ih =>
    intro e hmem
    have h1 : e.key ≠ kv.1 := fun h => hmem (by simp [h])
    show updAll kvs' (updEntry kv e) = e
    rw [show updEntry kv e = e by unfold updEntry; rw [if_neg h1]]
    exact ih (fun h => hmem (by simp; right; simpa using h))

theorem updAll_value_of_mem : ∀ {kvs : List (Str × Str)} {key v : Str} {e : BEntry},
    (kvs.map Prod.fst).Nodup → (key, v) ∈ kvs → e.key = key →
      updAll kvs e = { e with value := escapeQ v } := by
  intro kvs
  induction kvs with
  | nil => intro key v e _ hm; exact absurd hm (by simp)
  | cons kv kvs' ih =>
    intro key v e hnd hm hek
    simp only [List.map_cons, List.nodup_cons] at hnd
    rcases List.mem_cons.mp hm with heq | hm'
    · have h1 : e.key = kv.1 := by rw [hek, ← heq]
      show updAll kvs' (updEntry kv e) = _
      rw [show updEntry kv e = { e with value := escapeQ kv.2 } by
        unfold updEntry; rw [if_pos h1]]
      have hout : ({ e with value := escapeQ kv.2 } : BEntry).key ∉ kvs'.map Prod.fst := by
        show e.key ∉ _
        rw [h1]; exact hnd.1
      rw [updAll_not_mem hout, ← heq]
    · have hkey_in : key ∈ kvs'.map Prod.fst :=
        List.mem_map_of_mem Prod.fst hm'
      have h1 : e.key ≠ kv.1 := by
        rw [hek]
        intro h
        exact hnd.1 (h ▸ hkey_in)
      show updAll kvs' (updEntry kv e) = _
      rw [show updEntry kv e = e by unfold updEntry; rw [if_neg h1]]
      exact ih hnd.2 hm' hek

theorem updAll_idem {kvs : List (Str × Str)} (hnd : (kvs.map Prod.fst).Nodup)
    (e : BEntry) : updAll kvs (updAll kvs e) = updAll kvs e := by
  by_cases hmem : e.key ∈ kvs.map Prod.fst
  · obtain ⟨p, hp, hfst⟩ := List.mem_map.mp hmem
    have hm2 : (e.key, p.2) ∈ kvs := by
      have : p = (e.key, p.2) := by
        rw [← hfst]
      rwa [this] at hp
    have h1 := updAll_value_of_mem hnd hm2 rfl
    rw [h1]
    have h2 : ({ e with value := escapeQ p.2 } : BEntry).key = e.key := rfl
    rw [updAll_value_of_mem hnd hm2 h2]
  · rw [updAll_not_mem hmem, updAll_not_mem hmem]

theorem updEntries_idem {kvs : List (Str × Str)} (hnd : (kvs.map Prod.fst).Nodup)
    (es : List BEntry) : updEntries kvs (updEntries kvs es) = updEntries kvs es := by
  rw [updEntries_eq_map, updEntries_eq_map, List.map_map]
  apply List.map_congr_left
  intro e _
  exact updAll_idem hnd e

theorem braceWalk_flat :
    ∀ (inner : Str), '\x7b' ∉ inner → '\x7d' ∉ inner → ∀ (after : Str) (i : Nat),
      braceWalk (inner ++ '\x7d' :: after) 1 i = some (i + inner.length + 1) := by
  intro inner
  induction inner with
  | nil =>
    intro _ _ after i
    simp [braceWalk]
  | cons c inner' ih =>
    intro h1 h2 after i
    have hc1 : c ≠ '\x7b' := fun h => h1 (by simp [h])
    have hc2 : c ≠ '\x7d' := fun h => h2 (by simp [h])
    simp only [List.cons_append, braceWalk, if_neg hc1, if_neg hc2, List.append_eq]
    rw [ih (fun h => h1 (by simp [h])) (fun h => h2 (by simp [h])) after (i + 1)]
    congr 1
    simp only [List.length_cons]
    omega

theorem braceWalk_block (inner after : Str) (h1 : '\x7b' ∉ inner) (h2 : '\x7d' ∉ inner) :
    braceWalk ('\x7b' :: inner ++ '\x7d' :: after) 0 0 = some (inner.length + 2) := by
  rw [show braceWalk ('\x7b' :: inner ++ '\x7d' :: after) 0 0 =
      braceWalk (inner ++ '\x7d' :: after) 1 1 from rfl]
  rw [braceWalk_flat inner h1 h2 after 1]
  congr 1
  omega

theorem findSub_brace (Y : Str) :
    findSub ['\x7b'] (':' :: ' ' :: '\x7b' :: Y) = some 2 := by
  simp [findSub, findSubAux, List.isPrefixOf]

theorem find_lang_block_shape (lang A inner Z : Str)
    (hfind : findSub (lang ++ (": \x7b").toList)
        (A ++ (lang ++ (": \x7b").toList) ++ (inner ++ '\x7d' :: Z)) =
      some A.length)
    (hb1 : '\x7b' ∉ inner) (hb2 : '\x7d' ∉ inner) :
    find_lang_block (A ++ (lang ++ (": \x7b").toList) ++ (inner ++ '\x7d' :: Z)) lang =
      .ok (some (A.length + lang.length + 2,
                 A.length + lang.length + 2 + (inner.length + 2))) := by
  have hMeq : (": \x7b").toList = [':', ' ', '\x7b'] := rfl
  have e1 : A ++ (lang ++ (": \x7b").toList) ++ (inner ++ '\x7d' :: Z) =
      (A ++ lang) ++ (':' :: ' ' :: '\x7b' :: (inner ++ '\x7d' :: Z)) := by
    rw [hMeq]; simp [List.append_assoc]
  have e2 : A ++ (lang ++ (": \x7b").toList) ++ (inner ++ '\x7d' :: Z) =
      ((A ++ lang) ++ [':', ' ']) ++ ('\x7b' :: inner ++ '\x7d' :: Z) := by
    rw [hMeq]; simp [List.append_assoc]
  simp only [find_lang_block]
  rw [hfind]
  dsimp only
  have hdrop1 : (A ++ (lang ++ (": \x7b").toList) ++ (inner ++ '\x7d' :: Z)).drop
      (A.length + lang.length) = ':' :: ' ' :: '\x7b' :: (inner ++ '\x7d' :: Z) := by
    rw [e1, show A.length + lang.length = (A ++ lang).length by simp]
    exact List.drop_left _ _
  rw [hdrop1, findSub_brace]
  dsimp only
  have hdrop2 : (A ++ (lang ++ (": \x7b").toList) ++ (inner ++ '\x7d' :: Z)).drop
      (A.length + lang.length + 2) = '\x7b' :: inner ++ '\x7d' :: Z := by
    rw [e2, show A.length + lang.length + 2 = ((A ++ lang) ++ [':', ' ']).length by
      simp; omega]
    exact List.drop_left _ _
  rw [hdrop2, braceWalk_block inner Z hb1 hb2]

/-- `updateLang` on a document whose language block is in structured form:
the slice is rewritten and spliced back in place, everything else kept. -/
theorem updateLang_shape (lang : Str) (kvs : List (Str × Str)) (A inner Z B2 : Str)
    (es : List BEntry) (tail : Str)
    (hfind : findSub (lang ++ (": \x7b").toList)
        (A ++ (lang ++ (": \x7b").toList) ++ (inner ++ '\x7d' :: Z)) =
      some A.length)
    (hb1 : '\x7b' ∉ inner) (hb2 : '\x7d' ∉ inner)
    (hblock : '\x7b' :: (inner ++ ['\x7d']) = entriesText es tail)
    (hok : replace_keys_in_slice (entriesText es tail) kvs = .ok B2) :
    updateLang (A ++ (lang ++ (": \x7b").toList) ++ (inner ++ '\x7d' :: Z)) lang kvs =
      .ok (A ++ (lang ++ (": ").toList) ++ B2 ++ Z) := by
  have hMeq : (": \x7b").toList = [':', ' ', '\x7b'] := rfl
  have e2 : A ++ (lang ++ (": \x7b").toList) ++ (inner ++ '\x7d' :: Z) =
      ((A ++ lang) ++ [':', ' ']) ++ ('\x7b' :: inner ++ '\x7d' :: Z) := by
    rw [hMeq]; simp [List.append_assoc]
  have e3 : A ++ (lang ++ (": \x7b").toList) ++ (inner ++ '\x7d' :: Z) =
      (((A ++ lang) ++ [':', ' ']) ++ ('\x7b' :: (inner ++ ['\x7d']))) ++ Z := by
    rw [hMeq]; simp [List.append_assoc]
  unfold updateLang
  rw [find_lang_block_shape lang A inner Z hfind hb1 hb2]
  dsimp only
  have hdrop2 : (A ++ (lang ++ (": \x7b").toList) ++ (inner ++ '\x7d' :: Z)).drop
      (A.length + lang.length + 2) = '\x7b' :: inner ++ '\x7d' :: Z := by
    rw [e2, show A.length + lang.length + 2 = ((A ++ lang) ++ [':', ' ']).length by
      simp; omega]
    exact List.drop_left _ _
  have hsub : A.length + lang.length + 2 + (inner.length + 2) -
      (A.length + lang.length + 2) = inner.length + 2 := by omega
  rw [hdrop2, hsub]
  have htake2 : ('\x7b' :: inner ++ '\x7d' :: Z).take (inner.length + 2) =
      '\x7b' :: (inner ++ ['\x7d']) := by
    rw [show ('\x7b' :: inner ++ '\x7d' :: Z) =
        ('\x7b' :: (inner ++ ['\x7d'])) ++ Z by simp]
    rw [show inner.length + 2 = ('\x7b' :: (inner ++ ['\x7d'])).length by simp]
    exact List.take_left _ _
  rw [htake2, hblock, hok]
  have htakeA : (A ++ (lang ++ (": \x7b").toList) ++ (inner ++ '\x7d' :: Z)).take
      (A.length + lang.length + 2) = (A ++ lang) ++ [':', ' '] := by
    rw [e2, show A.length + lang.length + 2 = ((A ++ lang) ++ [':', ' ']).length by
      simp; omega]
    exact List.take_left _ _
  have hdropZ : (A ++ (lang ++ (": \x7b").toList) ++ (inner ++ '\x7d' :: Z)).drop
      (A.length + lang.length + 2 + (inner.length + 2)) = Z := by
    rw [e3, show A.length + lang.length + 2 + (inner.length + 2) =
        ((((A ++ lang) ++ [':', ' ']) ++ ('\x7b' :: (inner ++ ['\x7d'])))).length by
      simp; omega]
    exact List.drop_left _ _
  show Except.ok (_ ++ B2 ++ _) = _
  rw [htakeA, hdropZ]
  have : (A ++ lang) ++ [':', ' '] ++ B2 ++ Z = A ++ (lang ++ (": ").toList) ++ B2 ++ Z := by
    rw [show (": ").toList = [':', ' '] from rfl]
    simp [List.append_assoc]
  rw [this]

theorem radioKey_quote_free (i : Nat) : '\'' ∉ radioKey i := by
  unfold radioKey
  intro h
  rw [List.append_assoc, List.mem_append, List.mem_append] at h
  rcases h with h | h | h
  · revert h; decide
  · have := natDigits_chars i '\'' h
    revert this; decide
  · revert h; decide

theorem radioKey_keyShape (i : Nat) : keyShape (radioKey i) := by
  refine ⟨?_, radioKey_quote_free i, ?_⟩
  · unfold radioKey
    simp
  · intro c hc
    have : (radioKey i).head? = some 'r' := rfl
    rw [this] at hc
    injection hc with hc'
    rw [← hc']
    exact ⟨by decide, by decide⟩

theorem enum_snd_mem {α : Type} {l : List α} {p : Nat × α} (h : p ∈ l.enum) :
    p.2 ∈ l := by
  have := List.mem_map_of_mem Prod.snd h
  rwa [List.enum_map_snd] at this

theorem build_translations_en_keys (radios : List Radio) :
    ((build_translations radios).1).map Prod.fst =
      (List.range radios.length).map (fun i => radioKey (i + 1)) := by
  unfold build_translations
  rw [List.map_map, ← List.enum_map_fst radios, List.map_map]
  rfl

theorem build_translations_es_keys (radios : List Radio) :
    ((build_translations radios).2).map Prod.fst =
      (List.range radios.length).map (fun i => radioKey (i + 1)) := by
  unfold build_translations
  rw [List.map_map, ← List.enum_map_fst radios, List.map_map]
  rfl

theorem range_radioKey_nodup (n : Nat) :
    ((List.range n).map (fun i => radioKey (i + 1))).Nodup := by
  refine List.Nodup.map ?_ (List.nodup_range n)
  intro a b hab
  have := radioKey_injective hab
  omega

theorem build_translations_en_props (radios : List Radio) :
    ∀ kv ∈ (build_translations radios).1,
      keyShape kv.1 ∧ (kv.2 = kv.2) ∧ ∃ r ∈ radios, kv.2 = r.description_en := by
  intro kv hkv
  unfold build_translations at hkv
  obtain ⟨p, hp, rfl⟩ := List.mem_map.mp hkv
  exact ⟨radioKey_keyShape _, rfl, p.2, enum_snd_mem hp, rfl⟩

theorem build_translations_es_props (radios : List Radio) :
    ∀ kv ∈ (build_translations radios).2,
      keyShape kv.1 ∧ ∃ r ∈ radios, kv.2 = r.description_es := by
  intro kv hkv
  unfold build_translations at hkv
  obtain ⟨p, hp, rfl⟩ := List.mem_map.mp hkv
  exact ⟨radioKey_keyShape _, p.2, enum_snd_mem hp, rfl⟩

theorem except_bind_ok {E X Y : Type} (a : X) (f : X → Except E Y) :
    ((Except.ok a : Except E X) >>= f) = f a := rfl

/-- A full successful run on a structured document: the gallery is spliced at
the first marker occurrences and both language blocks are rewritten entrywise
to the escaped descriptions; the run prints the report and writes the result
back. -/
theorem main_shape
    (radios : List Radio) (P M A B C innerEN innerES tailEN tailES : Str)
    (esEN esES : List BEntry) (html html1 html2 REN RES D : Str)
    (hr : radios ≠ [])
    (hbsEN : ∀ r ∈ radios, '\\' ∉ r.description_en)
    (hbsES : ∀ r ∈ radios, '\\' ∉ r.description_es)
    (hhtml : html = P ++ GALLERY_START ++ M ++ GALLERY_END ++ A ++
      ("en: \x7b").toList ++ innerEN ++ ['\x7d'] ++ B ++
      ("es: \x7b").toList ++ innerES ++ ['\x7d'] ++ C)
    (hREN : REN = entriesText (updEntries (build_translations radios).1 esEN) tailEN)
    (hRES : RES = entriesText (updEntries (build_translations radios).2 esES) tailES)
    (hhtml1 : html1 = P ++ render_gallery radios ++ A ++
      ("en: \x7b").toList ++ innerEN ++ ['\x7d'] ++ B ++
      ("es: \x7b").toList ++ innerES ++ ['\x7d'] ++ C)
    (hhtml2 : html2 = P ++ render_gallery radios ++ A ++ ("en: ").toList ++ REN ++
      B ++ ("es: \x7b").toList ++ innerES ++ ['\x7d'] ++ C)
    (hD : D = P ++ render_gallery radios ++ A ++ ("en: ").toList ++ REN ++
      B ++ ("es: ").toList ++ RES ++ C)
    (hS : findSub GALLERY_START html = some P.length)
    (hE : findSub GALLERY_END html = some (P ++ GALLERY_START ++ M).length)
    (hEN : findSub (("en").toList ++ (": \x7b").toList) html1 =
      some (P ++ render_gallery radios ++ A).length)
    (hES : findSub (("es").toList ++ (": \x7b").toList) html2 =
      some (P ++ render_gallery radios ++ A ++ ("en: ").toList ++ REN ++ B).length)
    (hbEN : '\x7b' ∉ innerEN ∧ '\x7d' ∉ innerEN)
    (hbES : '\x7b' ∉ innerES ∧ '\x7d' ∉ innerES)
    (hblockEN : '\x7b' :: (innerEN ++ ['\x7d']) = entriesText esEN tailEN)
    (hblockES : '\x7b' :: (innerES ++ ['\x7d']) = entriesText esES tailES)
    (htailEN : noQuote tailEN ∧ ∀ c ∈ tailEN, c ≠ ':')
    (htailES : noQuote tailES ∧ ∀ c ∈ tailES, c ≠ ':')
    (hesEN : ∀ e ∈ esEN, noQuote e.sep ∧ (∀ c ∈ e.sep, c ≠ ':') ∧ keyShape e.key ∧
      (∀ c ∈ e.ws1, pyWs c = true) ∧ (∀ c ∈ e.ws2, pyWs c = true))
    (hesES : ∀ e ∈ esES, noQuote e.sep ∧ (∀ c ∈ e.sep, c ≠ ':') ∧ keyShape e.key ∧
      (∀ c ∈ e.ws1, pyWs c = true) ∧ (∀ c ∈ e.ws2, pyWs c = true))
    (hvalEN : ∀ kv ∈ (build_translations radios).1, ∀ e ∈ esEN,
      if e.key = kv.1 then noQuote e.value else valueFresh kv.1 e.value)
    (hvalES : ∀ kv ∈ (build_translations radios).2, ∀ e ∈ esES,
      if e.key = kv.1 then noQuote e.value else valueFresh kv.1 e.value)
    (hcrossEN : ∀ kv ∈ (build_translations radios).1,
      ∀ kv' ∈ (build_translations radios).1, kv.1 ≠ kv'.1 →
        valueFresh kv.1 (escapeQ kv'.2))
    (hcrossES : ∀ kv ∈ (build_translations radios).2,
      ∀ kv' ∈ (build_translations radios).2, kv.1 ≠ kv'.1 →
        valueFresh kv.1 (escapeQ kv'.2)) :
    main radios html =
      .finished (builtMsg radios.length :: radios.map summaryLine) (some D) := by
  have hokEN : replace_keys_in_slice (entriesText esEN tailEN)
      (build_translations radios).1 = .ok REN := by
    rw [hREN]
    refine replace_keys_slice_ok _ esEN tailEN ?_ ?_ htailEN.1 htailEN.2 hesEN
      hvalEN hcrossEN
    · intro kv hkv
      obtain ⟨hsh, _, r, hrm, heq⟩ := build_translations_en_props radios kv hkv
      exact ⟨hsh, heq ▸ hbsEN r hrm⟩
    · rw [build_translations_en_keys]
      exact range_radioKey_nodup _
  have hokES : replace_keys_in_slice (entriesText esES tailES)
      (build_translations radios).2 = .ok RES := by
    rw [hRES]
    refine replace_keys_slice_ok _ esES tailES ?_ ?_ htailES.1 htailES.2 hesES
      hvalES hcrossES
    · intro kv hkv
      obtain ⟨hsh, r, hrm, heq⟩ := build_translations_es_props radios kv hkv
      exact ⟨hsh, heq ▸ hbsES r hrm⟩
    · rw [build_translations_es_keys]
      exact range_radioKey_nodup _
  have h0 : radios.isEmpty = false := by
    rw [List.isEmpty_eq_false_iff_exists_mem]
    rcases radios with _ | ⟨r, rest⟩
    · exact absurd rfl hr
    · exact ⟨r, by simp⟩
  unfold main
  rw [h0]
  simp only [Bool.false_eq_true, if_false]
  rw [hS, hE]
  dsimp only
  have hsplice : splice_gallery radios html P.length
      (P ++ GALLERY_START ++ M).length = html1 := by
    unfold splice_gallery
    have eP : html = P ++ (GALLERY_START ++ M ++ GALLERY_END ++ A ++
        ("en: \x7b").toList ++ innerEN ++ ['\x7d'] ++ B ++
        ("es: \x7b").toList ++ innerES ++ ['\x7d'] ++ C) := by
      rw [hhtml]; simp [List.append_assoc]
    have eQ : html = ((P ++ GALLERY_START ++ M) ++ GALLERY_END) ++ (A ++
        ("en: \x7b").toList ++ innerEN ++ ['\x7d'] ++ B ++
        ("es: \x7b").toList ++ innerES ++ ['\x7d'] ++ C) := by
      rw [hhtml]; simp [List.append_assoc]
    rw [show (P ++ GALLERY_START ++ M).length + GALLERY_END.length =
        ((P ++ GALLERY_START ++ M) ++ GALLERY_END).length by
      simp only [List.length_append]]
    nth_rewrite 1 [eP]
    rw [List.take_left]
    rw [eQ, List.drop_left, hhtml1]
    simp [List.append_assoc]
  rw [hsplice]
  unfold mainRest update_translations
  have hup1 : updateLang html1 ("en").toList (build_translations radios).1 =
      .ok html2 := by
    have e1 : html1 = (P ++ render_gallery radios ++ A) ++
        (("en").toList ++ (": \x7b").toList) ++
        (innerEN ++ '\x7d' :: (B ++ ("es: \x7b").toList ++ innerES ++ ['\x7d'] ++ C)) := by
      rw [hhtml1, show ("en: \x7b").toList = ("en").toList ++ (": \x7b").toList from rfl]
      simp [List.append_assoc]
    rw [e1]
    rw [updateLang_shape ("en").toList _ _ _ _ REN esEN tailEN ?_ hbEN.1 hbEN.2
        hblockEN hokEN]
    · rw [hhtml2, show ("en: ").toList = ("en").toList ++ (": ").toList from rfl]
      simp [List.append_assoc]
    · rw [← e1]
      exact hEN
  rw [hup1, except_bind_ok]
  have hup2 : updateLang html2 ("es").toList (build_translations radios).2 =
      .ok D := by
    have e2 : html2 = (P ++ render_gallery radios ++ A ++ ("en: ").toList ++ REN ++ B) ++
        (("es").toList ++ (": \x7b").toList) ++ (innerES ++ '\x7d' :: C) := by
      rw [hhtml2, show ("es: \x7b").toList = ("es").toList ++ (": \x7b").toList from rfl]
      simp [List.append_assoc]
    rw [e2]
    rw [updateLang_shape ("es").toList _ _ _ _ RES esES tailES ?_ hbES.1 hbES.2
        hblockES hokES]
    · rw [hD, show ("es: ").toList = ("es").toList ++ (": ").toList from rfl]
    · rw [← e2]
      exact hES
  rw [hup2]

theorem updEntries_length (kvs : List (Str × Str)) (es : List BEntry) :
    (updEntries kvs es).length = es.length := by
  rw [updEntries_eq_map, List.length_map]

theorem updEntries_get?_not_mem {kvs : List (Str × Str)} {es : List BEntry}
    {i : Nat} {e : BEntry} (h : es.get? i = some e)
    (hnm : e.key ∉ kvs.map Prod.fst) :
    (updEntries kvs es).get? i = some e := by
  rw [updEntries_eq_map, List.get?_map, h]
  simp [updAll_not_mem hnm]

theorem updEntries_get?_mem {kvs : List (Str × Str)} {es : List BEntry}
    {i : Nat} {e : BEntry} {key v : Str} (hnd : (kvs.map Prod.fst).Nodup)
    (h : es.get? i = some e) (hm : (key, v) ∈ kvs) (hek : e.key = key) :
    (updEntries kvs es).get? i = some { e with value := escapeQ v } := by
  rw [updEntries_eq_map, List.get?_map, h]
  simp [updAll_value_of_mem hnd hm hek]

theorem enumFrom_mem_of_get? {α : Type} :
    ∀ (l : List α) (k n : Nat) (a : α), l.get? n = some a →
      (k + n, a) ∈ List.enumFrom k l := by
  intro l
  induction l with
  | nil => intro k n a h; simp at h
  | cons x xs ih =>
    intro k n a h
    cases n with
    | zero =>
      simp only [List.get?] at h
      injection h with h'
      simp [h']
    | succ m =>
      simp only [List.get?] at h
      have := ih (k + 1) m a h
      have harith : k + 1 + m = k + (m + 1) := by omega
      rw [harith] at this
      exact List.mem_cons_of_mem _ this

theorem enum_mem_of_get? {α : Type} {l : List α} {n : Nat} {a : α}
    (h : l.get? n = some a) : (n, a) ∈ l.enum := by
  have := enumFrom_mem_of_get? l 0 n a h
  simpa [List.enum] using this

theorem build_translations_mem_en {radios : List Radio} {n : Nat} {r : Radio}
    (h : radios.get? n = some r) :
    (radioKey (n + 1), r.description_en) ∈ (build_translations radios).1 := by
  unfold build_translations
  exact List.mem_map_of_mem _ (enum_mem_of_get? h)

theorem build_translations_mem_es {radios : List Radio} {n : Nat} {r : Radio}
    (h : radios.get? n = some r) :
    (radioKey (n + 1), r.description_es) ∈ (build_translations radios).2 := by
  unfold build_translations
  exact List.mem_map_of_mem _ (enum_mem_of_get? h)

theorem eqChars_eq : ∀ {a b : Str}, eqChars a b = true → a = b := by
  intro a
  induction a with
  | nil =>
    intro b h
    cases b with
    | nil => rfl
    | cons y ys => exact absurd h (by simp [eqChars])
  | cons x xs ih =>
    intro b h
    cases b with
    | nil => exact absurd h (by simp [eqChars])
    | cons y ys =>
      simp only [eqChars] at h
      split at h
      · rename_i hxy
        rw [eq_of_beq hxy, ih h]
      · exact absurd h (by simp)

theorem eqChars_refl : ∀ (a : Str), eqChars a a = true := by
  intro a
  induction a with
  | nil => rfl
  | cons x xs ih => simp [eqChars, ih]

theorem eqMsgs_eq : ∀ {a b : List Str}, eqMsgs a b = true → a = b := by
  intro a
  induction a with
  | nil =>
    intro b h
    cases b with
    | nil => rfl
    | cons y ys => exact absurd h (by simp [eqMsgs])
  | cons x xs ih =>
    intro b h
    cases b with
    | nil => exact absurd h (by simp [eqMsgs])
    | cons y ys =>
      simp only [eqMsgs] at h
      split at h
      · rename_i hxy
        rw [eqChars_eq hxy, ih h]
      · exact absurd h (by simp)

theorem eqOptStr_eq : ∀ {a b : Option Str}, eqOptStr a b = true → a = b := by
  intro a b h
  cases a with
  | none =>
    cases b with
    | none => rfl
    | some y => exact absurd h (by simp [eqOptStr])
  | some x =>
    cases b with
    | none => exact absurd h (by simp [eqOptStr])
    | some y =>
      simp only [eqOptStr] at h
      rw [eqChars_eq h]

theorem mainResult_eq_of_beq : ∀ {a b : MainResult}, beqMainResult a b = true → a = b := by
  intro a b h
  cases a <;> cases b <;> simp only [beqMainResult] at h
  case raised.raised => rw [eqChars_eq h]
  case raised.finished => exact absurd h (by simp)
  case finished.raised => exact absurd h (by simp)
  case finished.finished =>
    split at h
    · rename_i hm
      rw [eqMsgs_eq hm, eqOptStr_eq h]
    · exact absurd h (by simp)

theorem findSubAux_none {p : Str} : ∀ (s : Str) (i : Nat),
    findSubAux p s i = none → ∀ n, ¬ p <+: s.drop n := by
  intro s
  induction s with
  | nil =>
    intro i h n hpre
    unfold findSubAux at h
    split at h
    · exact absurd h (by simp)
    · rename_i hne
      rw [List.drop_nil] at hpre
      rw [List.prefix_nil.mp hpre] at hne
      exact hne (by simp)
  | cons c rest ih =>
    intro i h n hpre
    unfold findSubAux at h
    split at h
    · exact absurd h (by simp)
    · rename_i hpf
      cases n with
      | zero =>
        rw [List.drop_zero] at hpre
        exact hpf ( List.isPrefixOf_iff_prefix.mpr hpre)
      | succ m =>
        exact ih (i + 1) h m (by simpa using hpre)

theorem hasOccBefore_false {p : Str} : ∀ (s : Str) (n : Nat),
    hasOccBefore p s n = false → ∀ k < n, ¬ p <+: s.drop k := by
  intro s
  induction s with
  | nil =>
    intro n h k hk hpre
    cases n with
    | zero => omega
    | succ m =>
      rw [List.drop_nil] at hpre
      have : p = [] := List.prefix_nil.mp hpre
      rw [this] at h
      exact absurd h (by simp [hasOccBefore])
  | cons c rest ih =>
    intro n h k hk hpre
    cases n with
    | zero => omega
    | succ m =>
      simp only [hasOccBefore] at h
      split at h
      · exact absurd h (by simp)
      · rename_i hpf
        cases k with
        | zero =>
          rw [List.drop_zero] at hpre
          rw [ List.isPrefixOf_iff_prefix.mpr hpre] at hpf
          exact absurd hpf (by simp)
        | succ j =>
          exact ih m h j (by omega) (by simpa using hpre)

/-- Checker form of `findSub`: an occurrence at `n` and no occurrence below
`n` pin the first occurrence, without evaluating the scan itself. -/
theorem findSub_eval (m : Nat) {p s : Str} {n : Nat}
    (h1 : p.isPrefixOf (s.drop m) = true) (h2 : hasOccBefore p s m = false)
    (h3 : m = n) :
    findSub p s = some n := by
  subst h3
  have hocc : p <+: s.drop m := List.isPrefixOf_iff_prefix.mp h1
  cases hfs : findSub p s with
  | none => exact absurd hocc (findSubAux_none s 0 hfs m)
  | some k =>
    have hs := findSub_sound hfs
    have hl := findSub_least hfs
    have hnb := hasOccBefore_false s m h2
    have h5 : ¬ m < k := fun hlt => hl m hlt hocc
    have h6 : ¬ k < m := fun hlt => hnb k hlt hs
    have hmn : k = m := by omega
    rw [hmn]

/-- C8: the translation patcher never adds or removes keys.  On a successful
run over a structured document, each language block keeps exactly its original
entry list (same length, so nothing is added or removed), and every entry
whose key is not among the generated `radio<n>.desc` keys is byte-identical
(same separator, key, whitespace and value) before and after the run. -/
theorem c8_frame_keys
    (radios : List Radio) (P M A B C innerEN innerES tailEN tailES : Str)
    (esEN esES : List BEntry) (html html1 html2 REN RES D : Str)
    (hr : radios ≠ [])
    (hbsEN : ∀ r ∈ radios, '\\' ∉ r.description_en)
    (hbsES : ∀ r ∈ radios, '\\' ∉ r.description_es)
    (hhtml : html = P ++ GALLERY_START ++ M ++ GALLERY_END ++ A ++
      ("en: \x7b").toList ++ innerEN ++ ['\x7d'] ++ B ++
      ("es: \x7b").toList ++ innerES ++ ['\x7d'] ++ C)
    (hREN : REN = entriesText (updEntries (build_translations radios).1 esEN) tailEN)
    (hRES : RES = entriesText (updEntries (build_translations radios).2 esES) tailES)
    (hhtml1 : html1 = P ++ render_gallery radios ++ A ++
      ("en: \x7b").toList ++ innerEN ++ ['\x7d'] ++ B ++
      ("es: \x7b").toList ++ innerES ++ ['\x7d'] ++ C)
    (hhtml2 : html2 = P ++ render_gallery radios ++ A ++ ("en: ").toList ++ REN ++
      B ++ ("es: \x7b").toList ++ innerES ++ ['\x7d'] ++ C)
    (hD : D = P ++ render_gallery radios ++ A ++ ("en: ").toList ++ REN ++
      B ++ ("es: ").toList ++ RES ++ C)
    (hS : findSub GALLERY_START html = some P.length)
    (hE : findSub GALLERY_END html = some (P ++ GALLERY_START ++ M).length)
    (hEN : findSub (("en").toList ++ (": \x7b").toList) html1 =
      some (P ++ render_gallery radios ++ A).length)
    (hES : findSub (("es").toList ++ (": \x7b").toList) html2 =
      some (P ++ render_gallery radios ++ A ++ ("en: ").toList ++ REN ++ B).length)
    (hbEN : '\x7b' ∉ innerEN ∧ '\x7d' ∉ innerEN)
    (hbES : '\x7b' ∉ innerES ∧ '\x7d' ∉ innerES)
    (hblockEN : '\x7b' :: (innerEN ++ ['\x7d']) = entriesText esEN tailEN)
    (hblockES : '\x7b' :: (innerES ++ ['\x7d']) = entriesText esES tailES)
    (htailEN : noQuote tailEN ∧ ∀ c ∈ tailEN, c ≠ ':')
    (htailES : noQuote tailES ∧ ∀ c ∈ tailES, c ≠ ':')
    (hesEN : ∀ e ∈ esEN, noQuote e.sep ∧ (∀ c ∈ e.sep, c ≠ ':') ∧ keyShape e.key ∧
      (∀ c ∈ e.ws1, pyWs c = true) ∧ (∀ c ∈ e.ws2, pyWs c = true))
    (hesES : ∀ e ∈ esES, noQuote e.sep ∧ (∀ c ∈ e.sep, c ≠ ':') ∧ keyShape e.key ∧
      (∀ c ∈ e.ws1, pyWs c = true) ∧ (∀ c ∈ e.ws2, pyWs c = true))
    (hvalEN : ∀ kv ∈ (build_translations radios).1, ∀ e ∈ esEN,
      if e.key = kv.1 then noQuote e.value else valueFresh kv.1 e.value)
    (hvalES : ∀ kv ∈ (build_translations radios).2, ∀ e ∈ esES,
      if e.key = kv.1 then noQuote e.value else valueFresh kv.1 e.value)
    (hcrossEN : ∀ kv ∈ (build_translations radios).1,
      ∀ kv' ∈ (build_translations radios).1, kv.1 ≠ kv'.1 →
        valueFresh kv.1 (escapeQ kv'.2))
    (hcrossES : ∀ kv ∈ (build_translations radios).2,
      ∀ kv' ∈ (build_translations radios).2, kv.1 ≠ kv'.1 →
        valueFresh kv.1 (escapeQ kv'.2)) :
    main radios html =
      .finished (builtMsg radios.length :: radios.map summaryLine) (some D) ∧
    (updEntries (build_translations radios).1 esEN).length = esEN.length ∧
    (updEntries (build_translations radios).2 esES).length = esES.length ∧
    (∀ i e, esEN.get? i = some e →
      e.key ∉ ((build_translations radios).1).map Prod.fst →
      (updEntries (build_translations radios).1 esEN).get? i = some e) ∧
    (∀ i e, esES.get? i = some e →
      e.key ∉ ((build_translations radios).2).map Prod.fst →
      (updEntries (build_translations radios).2 esES).get? i = some e) := by
  refine ⟨main_shape radios P M A B C innerEN innerES tailEN tailES esEN esES
      html html1 html2 REN RES D hr hbsEN hbsES hhtml hREN hRES hhtml1 hhtml2 hD
      hS hE hEN hES hbEN hbES hblockEN hblockES htailEN htailES hesEN hesES
      hvalEN hvalES hcrossEN hcrossES,
    updEntries_length _ _, updEntries_length _ _, ?_, ?_⟩
  · intro i e h hnm
    exact updEntries_get?_not_mem h hnm
  · intro i e h hnm
    exact updEntries_get?_not_mem h hnm

/-- Witness for C8 on a concrete document whose blocks also hold a manual
`nav.home` entry. -/
theorem c8_frame_keys_witness :
    main
      [{ year := 1960, model := ("M1").toList, image := ("m.jpg").toList, price := some 850, status := none, description_en := ("New EN").toList, description_es := ("New ES").toList, file := ("a.json").toList }]
      (("<body>").toList ++ GALLERY_START ++ ("OLD").toList ++ GALLERY_END ++ ("\nconst i18n = \x7b\n").toList ++
      ("en: \x7b").toList ++ (" 'radio1.desc': 'Old EN', 'nav.home': 'Home' ").toList ++ ['\x7d'] ++ (",\n").toList ++
      ("es: \x7b").toList ++ (" 'radio1.desc': 'Old ES', 'nav.home': 'Inicio' ").toList ++ ['\x7d'] ++ ("\n\x7d;\n</body>").toList) =
      .finished (builtMsg (1 : Nat) ::
        List.map summaryLine
          [{ year := 1960, model := ("M1").toList, image := ("m.jpg").toList, price := some 850, status := none, description_en := ("New EN").toList, description_es := ("New ES").toList, file := ("a.json").toList }])
        (some (("<body>").toList ++ render_gallery
      [{ year := 1960, model := ("M1").toList, image := ("m.jpg").toList, price := some 850, status := none, description_en := ("New EN").toList, description_es := ("New ES").toList, file := ("a.json").toList }] ++ ("\nconst i18n = \x7b\n").toList ++ ("en: ").toList ++
      (entriesText (updEntries (build_translations
      [{ year := 1960, model := ("M1").toList, image := ("m.jpg").toList, price := some 850, status := none, description_en := ("New EN").toList, description_es := ("New ES").toList, file := ("a.json").toList }]).1
      [{ sep := ("\x7b ").toList, key := ("radio1.desc").toList, ws1 := [], ws2 := (" ").toList, value := ("Old EN").toList },
      { sep := (", ").toList, key := ("nav.home").toList, ws1 := [], ws2 := (" ").toList, value := ("Home").toList }]) (" \x7d").toList) ++
      (",\n").toList ++ ("es: ").toList ++
      (entriesText (updEntries (build_translations
      [{ year := 1960, model := ("M1").toList, image := ("m.jpg").toList, price := some 850, status := none, description_en := ("New EN").toList, description_es := ("New ES").toList, file := ("a.json").toList }]).2
      [{ sep := ("\x7b ").toList, key := ("radio1.desc").toList, ws1 := [], ws2 := (" ").toList, value := ("Old ES").toList },
      { sep := (", ").toList, key := ("nav.home").toList, ws1 := [], ws2 := (" ").toList, value := ("Inicio").toList }]) (" \x7d").toList) ++ ("\n\x7d;\n</body>").toList)) ∧
    (updEntries (build_translations
      [{ year := 1960, model := ("M1").toList, image := ("m.jpg").toList, price := some 850, status := none, description_en := ("New EN").toList, description_es := ("New ES").toList, file := ("a.json").toList }]).1
      [{ sep := ("\x7b ").toList, key := ("radio1.desc").toList, ws1 := [], ws2 := (" ").toList, value := ("Old EN").toList },
      { sep := (", ").toList, key := ("nav.home").toList, ws1 := [], ws2 := (" ").toList, value := ("Home").toList }]).length =
      ([{ sep := ("\x7b ").toList, key := ("radio1.desc").toList, ws1 := [], ws2 := (" ").toList, value := ("Old EN").toList },
      { sep := (", ").toList, key := ("nav.home").toList, ws1 := [], ws2 := (" ").toList, value := ("Home").toList }] : List BEntry).length ∧
    (updEntries (build_translations
      [{ year := 1960, model := ("M1").toList, image := ("m.jpg").toList, price := some 850, status := none, description_en := ("New EN").toList, description_es := ("New ES").toList, file := ("a.json").toList }]).2
      [{ sep := ("\x7b ").toList, key := ("radio1.desc").toList, ws1 := [], ws2 := (" ").toList, value := ("Old ES").toList },
      { sep := (", ").toList, key := ("nav.home").toList, ws1 := [], ws2 := (" ").toList, value := ("Inicio").toList }]).length =
      ([{ sep := ("\x7b ").toList, key := ("radio1.desc").toList, ws1 := [], ws2 := (" ").toList, value := ("Old ES").toList },
      { sep := (", ").toList, key := ("nav.home").toList, ws1 := [], ws2 := (" ").toList, value := ("Inicio").toList }] : List BEntry).length ∧
    (∀ i e, ([{ sep := ("\x7b ").toList, key := ("radio1.desc").toList, ws1 := [], ws2 := (" ").toList, value := ("Old EN").toList },
      { sep := (", ").toList, key := ("nav.home").toList, ws1 := [], ws2 := (" ").toList, value := ("Home").toList }] : List BEntry).get? i = some e →
      e.key ∉ ((build_translations
        [{ year := 1960, model := ("M1").toList, image := ("m.jpg").toList, price := some 850, status := none, description_en := ("New EN").toList, description_es := ("New ES").toList, file := ("a.json").toList }]).1).map Prod.fst →
      (updEntries (build_translations
        [{ year := 1960, model := ("M1").toList, image := ("m.jpg").toList, price := some 850, status := none, description_en := ("New EN").toList, description_es := ("New ES").toList, file := ("a.json").toList }]).1
        [{ sep := ("\x7b ").toList, key := ("radio1.desc").toList, ws1 := [], ws2 := (" ").toList, value := ("Old EN").toList },
      { sep := (", ").toList, key := ("nav.home").toList, ws1 := [], ws2 := (" ").toList, value := ("Home").toList }]).get? i = some e) ∧
    (∀ i e, ([{ sep := ("\x7b ").toList, key := ("radio1.desc").toList, ws1 := [], ws2 := (" ").toList, value := ("Old ES").toList },
      { sep := (", ").toList, key := ("nav.home").toList, ws1 := [], ws2 := (" ").toList, value := ("Inicio").toList }] : List BEntry).get? i = some e →
      e.key ∉ ((build_translations
        [{ year := 1960, model := ("M1").toList, image := ("m.jpg").toList, price := some 850, status := none, description_en := ("New EN").toList, description_es := ("New ES").toList, file := ("a.json").toList }]).2).map Prod.fst →
      (updEntries (build_translations
        [{ year := 1960, model := ("M1").toList, image := ("m.jpg").toList, price := some 850, status := none, description_en := ("New EN").toList, description_es := ("New ES").toList, file := ("a.json").toList }]).2
        [{ sep := ("\x7b ").toList, key := ("radio1.desc").toList, ws1 := [], ws2 := (" ").toList, value := ("Old ES").toList },
      { sep := (", ").toList, key := ("nav.home").toList, ws1 := [], ws2 := (" ").toList, value := ("Inicio").toList }]).get? i = some e) := by
  exact c8_frame_keys
    [{ year := 1960, model := ("M1").toList, image := ("m.jpg").toList, price := some 850, status := none, description_en := ("New EN").toList, description_es := ("New ES").toList, file := ("a.json").toList }]
    ("<body>").toList ("OLD").toList ("\nconst i18n = \x7b\n").toList (",\n").toList ("\n\x7d;\n</body>").toList
    (" 'radio1.desc': 'Old EN', 'nav.home': 'Home' ").toList
    (" 'radio1.desc': 'Old ES', 'nav.home': 'Inicio' ").toList
    (" \x7d").toList (" \x7d").toList
    [{ sep := ("\x7b ").toList, key := ("radio1.desc").toList, ws1 := [], ws2 := (" ").toList, value := ("Old EN").toList },
      { sep := (", ").toList, key := ("nav.home").toList, ws1 := [], ws2 := (" ").toList, value := ("Home").toList }]
    [{ sep := ("\x7b ").toList, key := ("radio1.desc").toList, ws1 := [], ws2 := (" ").toList, value := ("Old ES").toList },
      { sep := (", ").toList, key := ("nav.home").toList, ws1 := [], ws2 := (" ").toList, value := ("Inicio").toList }]
    (("<body>").toList ++ GALLERY_START ++ ("OLD").toList ++ GALLERY_END ++ ("\nconst i18n = \x7b\n").toList ++
      ("en: \x7b").toList ++ (" 'radio1.desc': 'Old EN', 'nav.home': 'Home' ").toList ++ ['\x7d'] ++ (",\n").toList ++
      ("es: \x7b").toList ++ (" 'radio1.desc': 'Old ES', 'nav.home': 'Inicio' ").toList ++ ['\x7d'] ++ ("\n\x7d;\n</body>").toList)
    (("<body>").toList ++ render_gallery
      [{ year := 1960, model := ("M1").toList, image := ("m.jpg").toList, price := some 850, status := none, description_en := ("New EN").toList, description_es := ("New ES").toList, file := ("a.json").toList }] ++ ("\nconst i18n = \x7b\n").toList ++
      ("en: \x7b").toList ++ (" 'radio1.desc': 'Old EN', 'nav.home': 'Home' ").toList ++ ['\x7d'] ++ (",\n").toList ++
      ("es: \x7b").toList ++ (" 'radio1.desc': 'Old ES', 'nav.home': 'Inicio' ").toList ++ ['\x7d'] ++ ("\n\x7d;\n</body>").toList)
    (("<body>").toList ++ render_gallery
      [{ year := 1960, model := ("M1").toList, image := ("m.jpg").toList, price := some 850, status := none, description_en := ("New EN").toList, description_es := ("New ES").toList, file := ("a.json").toList }] ++ ("\nconst i18n = \x7b\n").toList ++ ("en: ").toList ++
      (entriesText (updEntries (build_translations
      [{ year := 1960, model := ("M1").toList, image := ("m.jpg").toList, price := some 850, status := none, description_en := ("New EN").toList, description_es := ("New ES").toList, file := ("a.json").toList }]).1
      [{ sep := ("\x7b ").toList, key := ("radio1.desc").toList, ws1 := [], ws2 := (" ").toList, value := ("Old EN").toList },
      { sep := (", ").toList, key := ("nav.home").toList, ws1 := [], ws2 := (" ").toList, value := ("Home").toList }]) (" \x7d").toList) ++
      (",\n").toList ++ ("es: \x7b").toList ++ (" 'radio1.desc': 'Old ES', 'nav.home': 'Inicio' ").toList ++ ['\x7d'] ++ ("\n\x7d;\n</body>").toList)
    (entriesText (updEntries (build_translations
      [{ year := 1960, model := ("M1").toList, image := ("m.jpg").toList, price := some 850, status := none, description_en := ("New EN").toList, description_es := ("New ES").toList, file := ("a.json").toList }]).1
      [{ sep := ("\x7b ").toList, key := ("radio1.desc").toList, ws1 := [], ws2 := (" ").toList, value := ("Old EN").toList },
      { sep := (", ").toList, key := ("nav.home").toList, ws1 := [], ws2 := (" ").toList, value := ("Home").toList }]) (" \x7d").toList)
    (entriesText (updEntries (build_translations
      [{ year := 1960, model := ("M1").toList, image := ("m.jpg").toList, price := some 850, status := none, description_en := ("New EN").toList, description_es := ("New ES").toList, file := ("a.json").toList }]).2
      [{ sep := ("\x7b ").toList, key := ("radio1.desc").toList, ws1 := [], ws2 := (" ").toList, value := ("Old ES").toList },
      { sep := (", ").toList, key := ("nav.home").toList, ws1 := [], ws2 := (" ").toList, value := ("Inicio").toList }]) (" \x7d").toList)
    (("<body>").toList ++ render_gallery
      [{ year := 1960, model := ("M1").toList, image := ("m.jpg").toList, price := some 850, status := none, description_en := ("New EN").toList, description_es := ("New ES").toList, file := ("a.json").toList }] ++ ("\nconst i18n = \x7b\n").toList ++ ("en: ").toList ++
      (entriesText (updEntries (build_translations
      [{ year := 1960, model := ("M1").toList, image := ("m.jpg").toList, price := some 850, status := none, description_en := ("New EN").toList, description_es := ("New ES").toList, file := ("a.json").toList }]).1
      [{ sep := ("\x7b ").toList, key := ("radio1.desc").toList, ws1 := [], ws2 := (" ").toList, value := ("Old EN").toList },
      { sep := (", ").toList, key := ("nav.home").toList, ws1 := [], ws2 := (" ").toList, value := ("Home").toList }]) (" \x7d").toList) ++
      (",\n").toList ++ ("es: ").toList ++
      (entriesText (updEntries (build_translations
      [{ year := 1960, model := ("M1").toList, image := ("m.jpg").toList, price := some 850, status := none, description_en := ("New EN").toList, description_es := ("New ES").toList, file := ("a.json").toList }]).2
      [{ sep := ("\x7b ").toList, key := ("radio1.desc").toList, ws1 := [], ws2 := (" ").toList, value := ("Old ES").toList },
      { sep := (", ").toList, key := ("nav.home").toList, ws1 := [], ws2 := (" ").toList, value := ("Inicio").toList }]) (" \x7d").toList) ++ ("\n\x7d;\n</body>").toList)
    (by decide) (by decide) (by decide)
    rfl rfl rfl rfl rfl rfl
    (by rfl) (by rfl)
    (by rw [length_eq_lengthAcc0]; exact findSub_eval 1834 (by rfl) (by rfl) (by rfl))
    (by rw [length_eq_lengthAcc0]; exact findSub_eval 1887 (by rfl) (by rfl) (by rfl))
    (by decide) (by decide) (by decide) (by decide)
    (by decide) (by decide) (by decide) (by decide)
    (by decide) (by decide) (by decide) (by decide)

/-- C5 counterexample: a schema-valid record whose description contains a
backslash followed by `n`.  The run SUCCEEDS and writes the document, but the
English block's `radio1.desc` value is `a`, newline, `b` — the `\n` was
interpreted as a regex template escape — which is NOT the description with
quotes escaped, and unescaping it does not give the original string back. -/
theorem c5_counterexample :
    '\\' ∈ (("a\\nb").toList : Str) ∧
    main
      [{ year := 1, model := ("M").toList, image := ("i.jpg").toList, price := none, status := none, description_en := ("a\\nb").toList, description_es := ("x").toList, file := ("a.json").toList }]
      (("Z<!-- GALLERY:START -->O<!-- GALLERY:END -->pen: \x7b 'radio1.desc': 'old' \x7dqes: \x7b 'radio1.desc': 'viejo' \x7dr").toList) =
      .finished
        (builtMsg 1 ::
          [summaryLine { year := 1, model := ("M").toList, image := ("i.jpg").toList, price := none, status := none, description_en := ("a\\nb").toList, description_es := ("x").toList, file := ("a.json").toList }])
        (some (runDocument
          [{ year := 1, model := ("M").toList, image := ("i.jpg").toList, price := none, status := none, description_en := ("a\\nb").toList, description_es := ("x").toList, file := ("a.json").toList }]
          (("Z<!-- GALLERY:START -->O<!-- GALLERY:END -->pen: \x7b 'radio1.desc': 'old' \x7dqes: \x7b 'radio1.desc': 'viejo' \x7dr").toList))) ∧
    findSub ('\'' :: radioKey 1)
      (runDocument
        [{ year := 1, model := ("M").toList, image := ("i.jpg").toList, price := none, status := none, description_en := ("a\\nb").toList, description_es := ("x").toList, file := ("a.json").toList }]
        (("Z<!-- GALLERY:START -->O<!-- GALLERY:END -->pen: \x7b 'radio1.desc': 'old' \x7dqes: \x7b 'radio1.desc': 'viejo' \x7dr").toList)) = some 1807 ∧
    matchDesc (radioKey 1)
      ((runDocument
        [{ year := 1, model := ("M").toList, image := ("i.jpg").toList, price := none, status := none, description_en := ("a\\nb").toList, description_es := ("x").toList, file := ("a.json").toList }]
        (("Z<!-- GALLERY:START -->O<!-- GALLERY:END -->pen: \x7b 'radio1.desc': 'old' \x7dqes: \x7b 'radio1.desc': 'viejo' \x7dr").toList)).drop 1807) =
      some (("'radio1.desc': '").toList, ['a', '\n', 'b'], 19) ∧
    (['a', '\n', 'b'] : Str) ≠ escapeQ (("a\\nb").toList) ∧
    unescapeQ ['a', '\n', 'b'] ≠ (("a\\nb").toList : Str) := by
  exact ⟨by decide, mainResult_eq_of_beq (by rfl), findSub_eval 1807 (by rfl) (by rfl) (by rfl), by rfl, by decide, by decide⟩

/-- C5 as amended: on a successful run over a structured document whose
descriptions are backslash-free, the English block's entry for
`radio<n+1>.desc` carries exactly the n-th record's `description_en` with
every single quote backslash-escaped, and unescaping the stored value yields
the original description back. -/
theorem c5_translation_sync
    (radios : List Radio) (P M A B C innerEN innerES tailEN tailES : Str)
    (esEN esES : List BEntry) (html html1 html2 REN RES D : Str)
    (hr : radios ≠ [])
    (hbsEN : ∀ r ∈ radios, '\\' ∉ r.description_en)
    (hbsES : ∀ r ∈ radios, '\\' ∉ r.description_es)
    (hhtml : html = P ++ GALLERY_START ++ M ++ GALLERY_END ++ A ++
      ("en: \x7b").toList ++ innerEN ++ ['\x7d'] ++ B ++
      ("es: \x7b").toList ++ innerES ++ ['\x7d'] ++ C)
    (hREN : REN = entriesText (updEntries (build_translations radios).1 esEN) tailEN)
    (hRES : RES = entriesText (updEntries (build_translations radios).2 esES) tailES)
    (hhtml1 : html1 = P ++ render_gallery radios ++ A ++
      ("en: \x7b").toList ++ innerEN ++ ['\x7d'] ++ B ++
      ("es: \x7b").toList ++ innerES ++ ['\x7d'] ++ C)
    (hhtml2 : html2 = P ++ render_gallery radios ++ A ++ ("en: ").toList ++ REN ++
      B ++ ("es: \x7b").toList ++ innerES ++ ['\x7d'] ++ C)
    (hD : D = P ++ render_gallery radios ++ A ++ ("en: ").toList ++ REN ++
      B ++ ("es: ").toList ++ RES ++ C)
    (hS : findSub GALLERY_START html = some P.length)
    (hE : findSub GALLERY_END html = some (P ++ GALLERY_START ++ M).length)
    (hEN : findSub (("en").toList ++ (": \x7b").toList) html1 =
      some (P ++ render_gallery radios ++ A).length)
    (hES : findSub (("es").toList ++ (": \x7b").toList) html2 =
      some (P ++ render_gallery radios ++ A ++ ("en: ").toList ++ REN ++ B).length)
    (hbEN : '\x7b' ∉ innerEN ∧ '\x7d' ∉ innerEN)
    (hbES : '\x7b' ∉ innerES ∧ '\x7d' ∉ innerES)
    (hblockEN : '\x7b' :: (innerEN ++ ['\x7d']) = entriesText esEN tailEN)
    (hblockES : '\x7b' :: (innerES ++ ['\x7d']) = entriesText esES tailES)
    (htailEN : noQuote tailEN ∧ ∀ c ∈ tailEN, c ≠ ':')
    (htailES : noQuote tailES ∧ ∀ c ∈ tailES, c ≠ ':')
    (hesEN : ∀ e ∈ esEN, noQuote e.sep ∧ (∀ c ∈ e.sep, c ≠ ':') ∧ keyShape e.key ∧
      (∀ c ∈ e.ws1, pyWs c = true) ∧ (∀ c ∈ e.ws2, pyWs c = true))
    (hesES : ∀ e ∈ esES, noQuote e.sep ∧ (∀ c ∈ e.sep, c ≠ ':') ∧ keyShape e.key ∧
      (∀ c ∈ e.ws1, pyWs c = true) ∧ (∀ c ∈ e.ws2, pyWs c = true))
    (hvalEN : ∀ kv ∈ (build_translations radios).1, ∀ e ∈ esEN,
      if e.key = kv.1 then noQuote e.value else valueFresh kv.1 e.value)
    (hvalES : ∀ kv ∈ (build_translations radios).2, ∀ e ∈ esES,
      if e.key = kv.1 then noQuote e.value else valueFresh kv.1 e.value)
    (hcrossEN : ∀ kv ∈ (build_translations radios).1,
      ∀ kv' ∈ (build_translations radios).1, kv.1 ≠ kv'.1 →
        valueFresh kv.1 (escapeQ kv'.2))
    (hcrossES : ∀ kv ∈ (build_translations radios).2,
      ∀ kv' ∈ (build_translations radios).2, kv.1 ≠ kv'.1 →
        valueFresh kv.1 (escapeQ kv'.2)) :
    main radios html =
      .finished (builtMsg radios.length :: radios.map summaryLine) (some D) ∧
    ∀ n r, radios.get? n = some r →
      (∀ i e, esEN.get? i = some e → e.key = radioKey (n + 1) →
        (updEntries (build_translations radios).1 esEN).get? i =
          some { e with value := escapeQ r.description_en }) ∧
      unescapeQ (escapeQ r.description_en) = r.description_en := by
  refine ⟨main_shape radios P M A B C innerEN innerES tailEN tailES esEN esES
      html html1 html2 REN RES D hr hbsEN hbsES hhtml hREN hRES hhtml1 hhtml2 hD
      hS hE hEN hES hbEN hbES hblockEN hblockES htailEN htailES hesEN hesES
      hvalEN hvalES hcrossEN hcrossES, ?_⟩
  intro n r hget
  constructor
  · intro i e hi hek
    refine updEntries_get?_mem ?_ hi (build_translations_mem_en hget) hek
    rw [build_translations_en_keys]
    exact range_radioKey_nodup _
  · exact unescapeQ_escapeQ _ (hbsEN r (List.get?_mem hget))

/-- Witness for the amended C5: a record whose English description holds a
single quote; the stored value is the escaped description and unescaping
recovers it. -/
theorem c5_translation_sync_witness :
    main
      [{ year := 1975, model := ("Q").toList, image := ("q.jpg").toList, price := some 5, status := none, description_en := ("it's ok").toList, description_es := ("vale").toList, file := ("w.json").toList }]
      (("<p>").toList ++ GALLERY_START ++ ("X").toList ++ GALLERY_END ++ ("\nT = ").toList ++
      ("en: \x7b").toList ++ (" 'radio1.desc': 'Old' ").toList ++ ['\x7d'] ++ (";\nU = ").toList ++
      ("es: \x7b").toList ++ (" 'radio1.desc': 'Vieja' ").toList ++ ['\x7d'] ++ (";</p>").toList) =
      .finished (builtMsg (1 : Nat) ::
        List.map summaryLine
          [{ year := 1975, model := ("Q").toList, image := ("q.jpg").toList, price := some 5, status := none, description_en := ("it's ok").toList, description_es := ("vale").toList, file := ("w.json").toList }])
        (some (("<p>").toList ++ render_gallery
      [{ year := 1975, model := ("Q").toList, image := ("q.jpg").toList, price := some 5, status := none, description_en := ("it's ok").toList, description_es := ("vale").toList, file := ("w.json").toList }] ++ ("\nT = ").toList ++ ("en: ").toList ++
      (entriesText (updEntries (build_translations
      [{ year := 1975, model := ("Q").toList, image := ("q.jpg").toList, price := some 5, status := none, description_en := ("it's ok").toList, description_es := ("vale").toList, file := ("w.json").toList }]).1
      [{ sep := ("\x7b ").toList, key := ("radio1.desc").toList, ws1 := [], ws2 := (" ").toList, value := ("Old").toList }]) (" \x7d").toList) ++
      (";\nU = ").toList ++ ("es: ").toList ++
      (entriesText (updEntries (build_translations
      [{ year := 1975, model := ("Q").toList, image := ("q.jpg").toList, price := some 5, status := none, description_en := ("it's ok").toList, description_es := ("vale").toList, file := ("w.json").toList }]).2
      [{ sep := ("\x7b ").toList, key := ("radio1.desc").toList, ws1 := [], ws2 := (" ").toList, value := ("Vieja").toList }]) (" \x7d").toList) ++ (";</p>").toList)) ∧
    (∀ n r, ([{ year := 1975, model := ("Q").toList, image := ("q.jpg").toList, price := some 5, status := none, description_en := ("it's ok").toList, description_es := ("vale").toList, file := ("w.json").toList }] : List Radio).get? n = some r →
      (∀ i e, ([{ sep := ("\x7b ").toList, key := ("radio1.desc").toList, ws1 := [], ws2 := (" ").toList, value := ("Old").toList }] : List BEntry).get? i = some e →
        e.key = radioKey (n + 1) →
        (updEntries (build_translations
          [{ year := 1975, model := ("Q").toList, image := ("q.jpg").toList, price := some 5, status := none, description_en := ("it's ok").toList, description_es := ("vale").toList, file := ("w.json").toList }]).1
          [{ sep := ("\x7b ").toList, key := ("radio1.desc").toList, ws1 := [], ws2 := (" ").toList, value := ("Old").toList }]).get? i =
          some { e with value := escapeQ r.description_en }) ∧
      unescapeQ (escapeQ r.description_en) = r.description_en) := by
  exact c5_translation_sync
    [{ year := 1975, model := ("Q").toList, image := ("q.jpg").toList, price := some 5, status := none, description_en := ("it's ok").toList, description_es := ("vale").toList, file := ("w.json").toList }]
    ("<p>").toList ("X").toList ("\nT = ").toList (";\nU = ").toList (";</p>").toList
    (" 'radio1.desc': 'Old' ").toList
    (" 'radio1.desc': 'Vieja' ").toList
    (" \x7d").toList (" \x7d").toList
    [{ sep := ("\x7b ").toList, key := ("radio1.desc").toList, ws1 := [], ws2 := (" ").toList, value := ("Old").toList }]
    [{ sep := ("\x7b ").toList, key := ("radio1.desc").toList, ws1 := [], ws2 := (" ").toList, value := ("Vieja").toList }]
    (("<p>").toList ++ GALLERY_START ++ ("X").toList ++ GALLERY_END ++ ("\nT = ").toList ++
      ("en: \x7b").toList ++ (" 'radio1.desc': 'Old' ").toList ++ ['\x7d'] ++ (";\nU = ").toList ++
      ("es: \x7b").toList ++ (" 'radio1.desc': 'Vieja' ").toList ++ ['\x7d'] ++ (";</p>").toList)
    (("<p>").toList ++ render_gallery
      [{ year := 1975, model := ("Q").toList, image := ("q.jpg").toList, price := some 5, status := none, description_en := ("it's ok").toList, description_es := ("vale").toList, file := ("w.json").toList }] ++ ("\nT = ").toList ++
      ("en: \x7b").toList ++ (" 'radio1.desc': 'Old' ").toList ++ ['\x7d'] ++ (";\nU = ").toList ++
      ("es: \x7b").toList ++ (" 'radio1.desc': 'Vieja' ").toList ++ ['\x7d'] ++ (";</p>").toList)
    (("<p>").toList ++ render_gallery
      [{ year := 1975, model := ("Q").toList, image := ("q.jpg").toList, price := some 5, status := none, description_en := ("it's ok").toList, description_es := ("vale").toList, file := ("w.json").toList }] ++ ("\nT = ").toList ++ ("en: ").toList ++
      (entriesText (updEntries (build_translations
      [{ year := 1975, model := ("Q").toList, image := ("q.jpg").toList, price := some 5, status := none, description_en := ("it's ok").toList, description_es := ("vale").toList, file := ("w.json").toList }]).1
      [{ sep := ("\x7b ").toList, key := ("radio1.desc").toList, ws1 := [], ws2 := (" ").toList, value := ("Old").toList }]) (" \x7d").toList) ++
      (";\nU = ").toList ++ ("es: \x7b").toList ++ (" 'radio1.desc': 'Vieja' ").toList ++ ['\x7d'] ++ (";</p>").toList)
    (entriesText (updEntries (build_translations
      [{ year := 1975, model := ("Q").toList, image := ("q.jpg").toList, price := some 5, status := none, description_en := ("it's ok").toList, description_es := ("vale").toList, file := ("w.json").toList }]).1
      [{ sep := ("\x7b ").toList, key := ("radio1.desc").toList, ws1 := [], ws2 := (" ").toList, value := ("Old").toList }]) (" \x7d").toList)
    (entriesText (updEntries (build_translations
      [{ year := 1975, model := ("Q").toList, image := ("q.jpg").toList, price := some 5, status := none, description_en := ("it's ok").toList, description_es := ("vale").toList, file := ("w.json").toList }]).2
      [{ sep := ("\x7b ").toList, key := ("radio1.desc").toList, ws1 := [], ws2 := (" ").toList, value := ("Vieja").toList }]) (" \x7d").toList)
    (("<p>").toList ++ render_gallery
      [{ year := 1975, model := ("Q").toList, image := ("q.jpg").toList, price := some 5, status := none, description_en := ("it's ok").toList, description_es := ("vale").toList, file := ("w.json").toList }] ++ ("\nT = ").toList ++ ("en: ").toList ++
      (entriesText (updEntries (build_translations
      [{ year := 1975, model := ("Q").toList, image := ("q.jpg").toList, price := some 5, status := none, description_en := ("it's ok").toList, description_es := ("vale").toList, file := ("w.json").toList }]).1
      [{ sep := ("\x7b ").toList, key := ("radio1.desc").toList, ws1 := [], ws2 := (" ").toList, value := ("Old").toList }]) (" \x7d").toList) ++
      (";\nU = ").toList ++ ("es: ").toList ++
      (entriesText (updEntries (build_translations
      [{ year := 1975, model := ("Q").toList, image := ("q.jpg").toList, price := some 5, status := none, description_en := ("it's ok").toList, description_es := ("vale").toList, file := ("w.json").toList }]).2
      [{ sep := ("\x7b ").toList, key := ("radio1.desc").toList, ws1 := [], ws2 := (" ").toList, value := ("Vieja").toList }]) (" \x7d").toList) ++ (";</p>").toList)
    (by decide) (by decide) (by decide)
    rfl rfl rfl rfl rfl rfl
    (by rfl) (by rfl)
    (by rw [length_eq_lengthAcc0]; exact findSub_eval 1816 (by rfl) (by rfl) (by rfl))
    (by rw [length_eq_lengthAcc0]; exact findSub_eval 1855 (by rfl) (by rfl) (by rfl))
    (by decide) (by decide) (by decide) (by decide)
    (by decide) (by decide) (by decide) (by decide)
    (by decide) (by decide) (by decide) (by decide)

/-- C6 counterexample: a record whose description holds a single quote.  Both
runs succeed and write, but the second run's output differs from the first
run's output: the escaped quote `\'` in the written block makes the value
pattern `[^']*` stop early on the second pass, so the text grows
(`'it\'s'` becomes `'it\'s's'`). -/
theorem c6_counterexample :
    main
      [{ year := 2, model := ("N").toList, image := ("j.jpg").toList, price := none, status := none, description_en := ("it's").toList, description_es := ("y").toList, file := ("b.json").toList }]
      (("Z<!-- GALLERY:START -->O<!-- GALLERY:END -->pen: \x7b 'radio1.desc': 'old' \x7dqes: \x7b 'radio1.desc': 'viejo' \x7dr").toList) =
      .finished
        (builtMsg 1 ::
          [summaryLine { year := 2, model := ("N").toList, image := ("j.jpg").toList, price := none, status := none, description_en := ("it's").toList, description_es := ("y").toList, file := ("b.json").toList }])
        (some (runDocument
          [{ year := 2, model := ("N").toList, image := ("j.jpg").toList, price := none, status := none, description_en := ("it's").toList, description_es := ("y").toList, file := ("b.json").toList }]
          (("Z<!-- GALLERY:START -->O<!-- GALLERY:END -->pen: \x7b 'radio1.desc': 'old' \x7dqes: \x7b 'radio1.desc': 'viejo' \x7dr").toList))) ∧
    main
      [{ year := 2, model := ("N").toList, image := ("j.jpg").toList, price := none, status := none, description_en := ("it's").toList, description_es := ("y").toList, file := ("b.json").toList }]
      (runDocument
        [{ year := 2, model := ("N").toList, image := ("j.jpg").toList, price := none, status := none, description_en := ("it's").toList, description_es := ("y").toList, file := ("b.json").toList }]
        (("Z<!-- GALLERY:START -->O<!-- GALLERY:END -->pen: \x7b 'radio1.desc': 'old' \x7dqes: \x7b 'radio1.desc': 'viejo' \x7dr").toList)) =
      .finished
        (builtMsg 1 ::
          [summaryLine { year := 2, model := ("N").toList, image := ("j.jpg").toList, price := none, status := none, description_en := ("it's").toList, description_es := ("y").toList, file := ("b.json").toList }])
        (some (runDocument
          [{ year := 2, model := ("N").toList, image := ("j.jpg").toList, price := none, status := none, description_en := ("it's").toList, description_es := ("y").toList, file := ("b.json").toList }]
          (runDocument
            [{ year := 2, model := ("N").toList, image := ("j.jpg").toList, price := none, status := none, description_en := ("it's").toList, description_es := ("y").toList, file := ("b.json").toList }]
            (("Z<!-- GALLERY:START -->O<!-- GALLERY:END -->pen: \x7b 'radio1.desc': 'old' \x7dqes: \x7b 'radio1.desc': 'viejo' \x7dr").toList)))) ∧
    runDocument
      [{ year := 2, model := ("N").toList, image := ("j.jpg").toList, price := none, status := none, description_en := ("it's").toList, description_es := ("y").toList, file := ("b.json").toList }]
      (runDocument
        [{ year := 2, model := ("N").toList, image := ("j.jpg").toList, price := none, status := none, description_en := ("it's").toList, description_es := ("y").toList, file := ("b.json").toList }]
        (("Z<!-- GALLERY:START -->O<!-- GALLERY:END -->pen: \x7b 'radio1.desc': 'old' \x7dqes: \x7b 'radio1.desc': 'viejo' \x7dr").toList)) ≠
    runDocument
      [{ year := 2, model := ("N").toList, image := ("j.jpg").toList, price := none, status := none, description_en := ("it's").toList, description_es := ("y").toList, file := ("b.json").toList }]
      (("Z<!-- GALLERY:START -->O<!-- GALLERY:END -->pen: \x7b 'radio1.desc': 'old' \x7dqes: \x7b 'radio1.desc': 'viejo' \x7dr").toList) := by
  refine ⟨mainResult_eq_of_beq (by rfl), mainResult_eq_of_beq (by rfl), ?_⟩
  intro h
  have hb : eqChars (runDocument
      [{ year := 2, model := ("N").toList, image := ("j.jpg").toList, price := none, status := none, description_en := ("it's").toList, description_es := ("y").toList, file := ("b.json").toList }]
      (runDocument
        [{ year := 2, model := ("N").toList, image := ("j.jpg").toList, price := none, status := none, description_en := ("it's").toList, description_es := ("y").toList, file := ("b.json").toList }]
        (("Z<!-- GALLERY:START -->O<!-- GALLERY:END -->pen: \x7b 'radio1.desc': 'old' \x7dqes: \x7b 'radio1.desc': 'viejo' \x7dr").toList)))
    (runDocument
      [{ year := 2, model := ("N").toList, image := ("j.jpg").toList, price := none, status := none, description_en := ("it's").toList, description_es := ("y").toList, file := ("b.json").toList }]
      (("Z<!-- GALLERY:START -->O<!-- GALLERY:END -->pen: \x7b 'radio1.desc': 'old' \x7dqes: \x7b 'radio1.desc': 'viejo' \x7dr").toList)) = false := by rfl
  rw [h, eqChars_refl] at hb
  simp at hb

/-- C6 as amended: the second run is the identity on the first run's output
when the descriptions are free of backslashes AND single quotes (and the
produced document still satisfies the structural freshness conditions): both
runs print the same report and write the same document. -/
theorem c6_idempotent
    (radios : List Radio) (P M A B C innerEN innerES tailEN tailES : Str)
    (innerEN2 innerES2 : Str)
    (esEN esES : List BEntry) (html html1 html2 REN RES D : Str)
    (hr : radios ≠ [])
    (hbsEN : ∀ r ∈ radios, '\\' ∉ r.description_en)
    (hbsES : ∀ r ∈ radios, '\\' ∉ r.description_es)
    (hqEN : ∀ r ∈ radios, '\'' ∉ r.description_en)
    (hqES : ∀ r ∈ radios, '\'' ∉ r.description_es)
    (hhtml : html = P ++ GALLERY_START ++ M ++ GALLERY_END ++ A ++
      ("en: \x7b").toList ++ innerEN ++ ['\x7d'] ++ B ++
      ("es: \x7b").toList ++ innerES ++ ['\x7d'] ++ C)
    (hREN : REN = entriesText (updEntries (build_translations radios).1 esEN) tailEN)
    (hRES : RES = entriesText (updEntries (build_translations radios).2 esES) tailES)
    (hhtml1 : html1 = P ++ render_gallery radios ++ A ++
      ("en: \x7b").toList ++ innerEN ++ ['\x7d'] ++ B ++
      ("es: \x7b").toList ++ innerES ++ ['\x7d'] ++ C)
    (hhtml2 : html2 = P ++ render_gallery radios ++ A ++ ("en: ").toList ++ REN ++
      B ++ ("es: \x7b").toList ++ innerES ++ ['\x7d'] ++ C)
    (hD : D = P ++ render_gallery radios ++ A ++ ("en: ").toList ++ REN ++
      B ++ ("es: ").toList ++ RES ++ C)
    (hS : findSub GALLERY_START html = some P.length)
    (hE : findSub GALLERY_END html = some (P ++ GALLERY_START ++ M).length)
    (hEN : findSub (("en").toList ++ (": \x7b").toList) html1 =
      some (P ++ render_gallery radios ++ A).length)
    (hES : findSub (("es").toList ++ (": \x7b").toList) html2 =
      some (P ++ render_gallery radios ++ A ++ ("en: ").toList ++ REN ++ B).length)
    (hS2 : findSub GALLERY_START D = some P.length)
    (hE2 : findSub GALLERY_END D = some (P ++ GALLERY_START ++
      (("\n                ").toList ++ cardsConcat radios ++
        ("\n                ").toList)).length)
    (hEN2 : findSub (("en").toList ++ (": \x7b").toList) D =
      some (P ++ render_gallery radios ++ A).length)
    (hES2 : findSub (("es").toList ++ (": \x7b").toList) D =
      some (P ++ render_gallery radios ++ A ++ ("en: ").toList ++ REN ++ B).length)
    (hbEN : '\x7b' ∉ innerEN ∧ '\x7d' ∉ innerEN)
    (hbES : '\x7b' ∉ innerES ∧ '\x7d' ∉ innerES)
    (hbEN2 : '\x7b' ∉ innerEN2 ∧ '\x7d' ∉ innerEN2)
    (hbES2 : '\x7b' ∉ innerES2 ∧ '\x7d' ∉ innerES2)
    (hblockEN : '\x7b' :: (innerEN ++ ['\x7d']) = entriesText esEN tailEN)
    (hblockES : '\x7b' :: (innerES ++ ['\x7d']) = entriesText esES tailES)
    (hblockEN2 : '\x7b' :: (innerEN2 ++ ['\x7d']) =
      entriesText (updEntries (build_translations radios).1 esEN) tailEN)
    (hblockES2 : '\x7b' :: (innerES2 ++ ['\x7d']) =
      entriesText (updEntries (build_translations radios).2 esES) tailES)
    (htailEN : noQuote tailEN ∧ ∀ c ∈ tailEN, c ≠ ':')
    (htailES : noQuote tailES ∧ ∀ c ∈ tailES, c ≠ ':')
    (hesEN : ∀ e ∈ esEN, noQuote e.sep ∧ (∀ c ∈ e.sep, c ≠ ':') ∧ keyShape e.key ∧
      (∀ c ∈ e.ws1, pyWs c = true) ∧ (∀ c ∈ e.ws2, pyWs c = true))
    (hesES : ∀ e ∈ esES, noQuote e.sep ∧ (∀ c ∈ e.sep, c ≠ ':') ∧ keyShape e.key ∧
      (∀ c ∈ e.ws1, pyWs c = true) ∧ (∀ c ∈ e.ws2, pyWs c = true))
    (hvalEN : ∀ kv ∈ (build_translations radios).1, ∀ e ∈ esEN,
      if e.key = kv.1 then noQuote e.value else valueFresh kv.1 e.value)
    (hvalES : ∀ kv ∈ (build_translations radios).2, ∀ e ∈ esES,
      if e.key = kv.1 then noQuote e.value else valueFresh kv.1 e.value)
    (hcrossEN : ∀ kv ∈ (build_translations radios).1,
      ∀ kv' ∈ (build_translations radios).1, kv.1 ≠ kv'.1 →
        valueFresh kv.1 (escapeQ kv'.2))
    (hcrossES : ∀ kv ∈ (build_translations radios).2,
      ∀ kv' ∈ (build_translations radios).2, kv.1 ≠ kv'.1 →
        valueFresh kv.1 (escapeQ kv'.2)) :
    main radios html =
      .finished (builtMsg radios.length :: radios.map summaryLine) (some D) ∧
    main radios D =
      .finished (builtMsg radios.length :: radios.map summaryLine) (some D) := by
  have hndEN : (((build_translations radios).1).map Prod.fst).Nodup := by
    rw [build_translations_en_keys]
    exact range_radioKey_nodup _
  have hndES : (((build_translations radios).2).map Prod.fst).Nodup := by
    rw [build_translations_es_keys]
    exact range_radioKey_nodup _
  have hrg : render_gallery radios = GALLERY_START ++
      (("\n                ").toList ++ cardsConcat radios ++
        ("\n                ").toList) ++ GALLERY_END := by
    unfold render_gallery
    simp [List.append_assoc]
  have hRENb : REN = '\x7b' :: (innerEN2 ++ ['\x7d']) := by
    rw [hREN, ← hblockEN2]
  have hRESb : RES = '\x7b' :: (innerES2 ++ ['\x7d']) := by
    rw [hRES, ← hblockES2]
  have henlit : ("en: \x7b").toList = ("en: ").toList ++ ['\x7b'] := rfl
  have heslit : ("es: \x7b").toList = ("es: ").toList ++ ['\x7b'] := rfl
  refine ⟨main_shape radios P M A B C innerEN innerES tailEN tailES esEN esES
      html html1 html2 REN RES D hr hbsEN hbsES hhtml hREN hRES hhtml1 hhtml2 hD
      hS hE hEN hES hbEN hbES hblockEN hblockES htailEN htailES hesEN hesES
      hvalEN hvalES hcrossEN hcrossES, ?_⟩
  have hesEN' : ∀ e ∈ updEntries (build_translations radios).1 esEN,
      noQuote e.sep ∧ (∀ c ∈ e.sep, c ≠ ':') ∧ keyShape e.key ∧
      (∀ c ∈ e.ws1, pyWs c = true) ∧ (∀ c ∈ e.ws2, pyWs c = true) := by
    intro e' he'
    rw [updEntries_eq_map] at he'
    obtain ⟨e, he, rfl⟩ := List.mem_map.mp he'
    rw [updAll_sep, updAll_key, updAll_ws1, updAll_ws2]
    exact hesEN e he
  have hesES' : ∀ e ∈ updEntries (build_translations radios).2 esES,
      noQuote e.sep ∧ (∀ c ∈ e.sep, c ≠ ':') ∧ keyShape e.key ∧
      (∀ c ∈ e.ws1, pyWs c = true) ∧ (∀ c ∈ e.ws2, pyWs c = true) := by
    intro e' he'
    rw [updEntries_eq_map] at he'
    obtain ⟨e, he, rfl⟩ := List.mem_map.mp he'
    rw [updAll_sep, updAll_key, updAll_ws1, updAll_ws2]
    exact hesES e he
  have hvalEN' : ∀ kv ∈ (build_translations radios).1,
      ∀ e' ∈ updEntries (build_translations radios).1 esEN,
      if e'.key = kv.1 then noQuote e'.value else valueFresh kv.1 e'.value := by
    intro kv hkv e' he'
    rw [updEntries_eq_map] at he'
    obtain ⟨e, he, rfl⟩ := List.mem_map.mp he'
    rw [updAll_key]
    by_cases hmem : e.key ∈ ((build_translations radios).1).map Prod.fst
    · obtain ⟨p, hp, hfst⟩ := List.mem_map.mp hmem
      have hm2 : (e.key, p.2) ∈ (build_translations radios).1 := by
        have hpe : p = (e.key, p.2) := by rw [← hfst]
        rwa [hpe] at hp
      rw [updAll_value_of_mem hndEN hm2 rfl]
      obtain ⟨_, _, r, hrm, hv2⟩ := build_translations_en_props radios (e.key, p.2) hm2
      have hq : '\'' ∉ p.2 := by
        rw [hv2]
        exact hqEN r hrm
      by_cases hk : e.key = kv.1
      · rw [if_pos hk]
        show '\'' ∉ escapeQ p.2
        rw [escapeQ_id _ hq]
        exact hq
      · rw [if_neg hk]
        exact hcrossEN kv hkv (e.key, p.2) hm2 (fun h => hk h.symm)
    · rw [updAll_not_mem hmem]
      exact hvalEN kv hkv e he
  have hvalES' : ∀ kv ∈ (build_translations radios).2,
      ∀ e' ∈ updEntries (build_translations radios).2 esES,
      if e'.key = kv.1 then noQuote e'.value else valueFresh kv.1 e'.value := by
    intro kv hkv e' he'
    rw [updEntries_eq_map] at he'
    obtain ⟨e, he, rfl⟩ := List.mem_map.mp he'
    rw [updAll_key]
    by_cases hmem : e.key ∈ ((build_translations radios).2).map Prod.fst
    · obtain ⟨p, hp, hfst⟩ := List.mem_map.mp hmem
      have hm2 : (e.key, p.2) ∈ (build_translations radios).2 := by
        have hpe : p = (e.key, p.2) := by rw [← hfst]
        rwa [hpe] at hp
      rw [updAll_value_of_mem hndES hm2 rfl]
      obtain ⟨_, r, hrm, hv2⟩ := build_translations_es_props radios (e.key, p.2) hm2
      have hq : '\'' ∉ p.2 := by
        rw [hv2]
        exact hqES r hrm
      by_cases hk : e.key = kv.1
      · rw [if_pos hk]
        show '\'' ∉ escapeQ p.2
        rw [escapeQ_id _ hq]
        exact hq
      · rw [if_neg hk]
        exact hcrossES kv hkv (e.key, p.2) hm2 (fun h => hk h.symm)
    · rw [updAll_not_mem hmem]
      exact hvalES kv hkv e he
  refine main_shape radios P
      (("\n                ").toList ++ cardsConcat radios ++
        ("\n                ").toList)
      A B C innerEN2 innerES2 tailEN tailES
      (updEntries (build_translations radios).1 esEN)
      (updEntries (build_translations radios).2 esES)
      D D D REN RES D hr hbsEN hbsES ?_ ?_ ?_ ?_ ?_ hD
      hS2 hE2 hEN2 hES2 hbEN2 hbES2 hblockEN2 hblockES2 htailEN htailES
      hesEN' hesES' hvalEN' hvalES' hcrossEN hcrossES
  · rw [hD, hRENb, hRESb, hrg]
    simp [List.append_assoc, henlit, heslit]
  · rw [hREN]
    rw [updEntries_idem hndEN]
  · rw [hRES]
    rw [updEntries_idem hndES]
  · rw [hD, hRENb, hRESb]
    simp [List.append_assoc, henlit, heslit]
  · rw [hD, hRESb]
    simp [List.append_assoc, heslit]

/-- Witness for the amended C6: with a quote- and backslash-free description,
the second run writes exactly the document the first run wrote. -/
theorem c6_idempotent_witness :
    main
      [{ year := 1950, model := ("K").toList, image := ("k.jpg").toList, price := some 70, status := none, description_en := ("Nice").toList, description_es := ("Buena").toList, file := ("k.json").toList }]
      (("<q>").toList ++ GALLERY_START ++ ("Y").toList ++ GALLERY_END ++ ("\nV = ").toList ++
      ("en: \x7b").toList ++ (" 'radio1.desc': 'Old' ").toList ++ ['\x7d'] ++ (";\nW = ").toList ++
      ("es: \x7b").toList ++ (" 'radio1.desc': 'Vieja' ").toList ++ ['\x7d'] ++ (";</q>").toList) =
      .finished (builtMsg (1 : Nat) ::
        List.map summaryLine
          [{ year := 1950, model := ("K").toList, image := ("k.jpg").toList, price := some 70, status := none, description_en := ("Nice").toList, description_es := ("Buena").toList, file := ("k.json").toList }])
        (some (("<q>").toList ++ render_gallery
      [{ year := 1950, model := ("K").toList, image := ("k.jpg").toList, price := some 70, status := none, description_en := ("Nice").toList, description_es := ("Buena").toList, file := ("k.json").toList }] ++ ("\nV = ").toList ++ ("en: ").toList ++
      (entriesText (updEntries (build_translations
      [{ year := 1950, model := ("K").toList, image := ("k.jpg").toList, price := some 70, status := none, description_en := ("Nice").toList, description_es := ("Buena").toList, file := ("k.json").toList }]).1
      [{ sep := ("\x7b ").toList, key := ("radio1.desc").toList, ws1 := [], ws2 := (" ").toList, value := ("Old").toList }]) (" \x7d").toList) ++
      (";\nW = ").toList ++ ("es: ").toList ++
      (entriesText (updEntries (build_translations
      [{ year := 1950, model := ("K").toList, image := ("k.jpg").toList, price := some 70, status := none, description_en := ("Nice").toList, description_es := ("Buena").toList, file := ("k.json").toList }]).2
      [{ sep := ("\x7b ").toList, key := ("radio1.desc").toList, ws1 := [], ws2 := (" ").toList, value := ("Vieja").toList }]) (" \x7d").toList) ++ (";</q>").toList)) ∧
    main
      [{ year := 1950, model := ("K").toList, image := ("k.jpg").toList, price := some 70, status := none, description_en := ("Nice").toList, description_es := ("Buena").toList, file := ("k.json").toList }]
      (("<q>").toList ++ render_gallery
      [{ year := 1950, model := ("K").toList, image := ("k.jpg").toList, price := some 70, status := none, description_en := ("Nice").toList, description_es := ("Buena").toList, file := ("k.json").toList }] ++ ("\nV = ").toList ++ ("en: ").toList ++
      (entriesText (updEntries (build_translations
      [{ year := 1950, model := ("K").toList, image := ("k.jpg").toList, price := some 70, status := none, description_en := ("Nice").toList, description_es := ("Buena").toList, file := ("k.json").toList }]).1
      [{ sep := ("\x7b ").toList, key := ("radio1.desc").toList, ws1 := [], ws2 := (" ").toList, value := ("Old").toList }]) (" \x7d").toList) ++
      (";\nW = ").toList ++ ("es: ").toList ++
      (entriesText (updEntries (build_translations
      [{ year := 1950, model := ("K").toList, image := ("k.jpg").toList, price := some 70, status := none, description_en := ("Nice").toList, description_es := ("Buena").toList, file := ("k.json").toList }]).2
      [{ sep := ("\x7b ").toList, key := ("radio1.desc").toList, ws1 := [], ws2 := (" ").toList, value := ("Vieja").toList }]) (" \x7d").toList) ++ (";</q>").toList) =
      .finished (builtMsg (1 : Nat) ::
        List.map summaryLine
          [{ year := 1950, model := ("K").toList, image := ("k.jpg").toList, price := some 70, status := none, description_en := ("Nice").toList, description_es := ("Buena").toList, file := ("k.json").toList }])
        (some (("<q>").toList ++ render_gallery
      [{ year := 1950, model := ("K").toList, image := ("k.jpg").toList, price := some 70, status := none, description_en := ("Nice").toList, description_es := ("Buena").toList, file := ("k.json").toList }] ++ ("\nV = ").toList ++ ("en: ").toList ++
      (entriesText (updEntries (build_translations
      [{ year := 1950, model := ("K").toList, image := ("k.jpg").toList, price := some 70, status := none, description_en := ("Nice").toList, description_es := ("Buena").toList, file := ("k.json").toList }]).1
      [{ sep := ("\x7b ").toList, key := ("radio1.desc").toList, ws1 := [], ws2 := (" ").toList, value := ("Old").toList }]) (" \x7d").toList) ++
      (";\nW = ").toList ++ ("es: ").toList ++
      (entriesText (updEntries (build_translations
      [{ year := 1950, model := ("K").toList, image := ("k.jpg").toList, price := some 70, status := none, description_en := ("Nice").toList, description_es := ("Buena").toList, file := ("k.json").toList }]).2
      [{ sep := ("\x7b ").toList, key := ("radio1.desc").toList, ws1 := [], ws2 := (" ").toList, value := ("Vieja").toList }]) (" \x7d").toList) ++ (";</q>").toList)) := by
  exact c6_idempotent
    [{ year := 1950, model := ("K").toList, image := ("k.jpg").toList, price := some 70, status := none, description_en := ("Nice").toList, description_es := ("Buena").toList, file := ("k.json").toList }]
    ("<q>").toList ("Y").toList ("\nV = ").toList (";\nW = ").toList (";</q>").toList
    (" 'radio1.desc': 'Old' ").toList
    (" 'radio1.desc': 'Vieja' ").toList
    (" \x7d").toList (" \x7d").toList
    (" 'radio1.desc': 'Nice' ").toList
    (" 'radio1.desc': 'Buena' ").toList
    [{ sep := ("\x7b ").toList, key := ("radio1.desc").toList, ws1 := [], ws2 := (" ").toList, value := ("Old").toList }]
    [{ sep := ("\x7b ").toList, key := ("radio1.desc").toList, ws1 := [], ws2 := (" ").toList, value := ("Vieja").toList }]
    (("<q>").toList ++ GALLERY_START ++ ("Y").toList ++ GALLERY_END ++ ("\nV = ").toList ++
      ("en: \x7b").toList ++ (" 'radio1.desc': 'Old' ").toList ++ ['\x7d'] ++ (";\nW = ").toList ++
      ("es: \x7b").toList ++ (" 'radio1.desc': 'Vieja' ").toList ++ ['\x7d'] ++ (";</q>").toList)
    (("<q>").toList ++ render_gallery
      [{ year := 1950, model := ("K").toList, image := ("k.jpg").toList, price := some 70, status := none, description_en := ("Nice").toList, description_es := ("Buena").toList, file := ("k.json").toList }] ++ ("\nV = ").toList ++
      ("en: \x7b").toList ++ (" 'radio1.desc': 'Old' ").toList ++ ['\x7d'] ++ (";\nW = ").toList ++
      ("es: \x7b").toList ++ (" 'radio1.desc': 'Vieja' ").toList ++ ['\x7d'] ++ (";</q>").toList)
    (("<q>").toList ++ render_gallery
      [{ year := 1950, model := ("K").toList, image := ("k.jpg").toList, price := some 70, status := none, description_en := ("Nice").toList, description_es := ("Buena").toList, file := ("k.json").toList }] ++ ("\nV = ").toList ++ ("en: ").toList ++
      (entriesText (updEntries (build_translations
      [{ year := 1950, model := ("K").toList, image := ("k.jpg").toList, price := some 70, status := none, description_en := ("Nice").toList, description_es := ("Buena").toList, file := ("k.json").toList }]).1
      [{ sep := ("\x7b ").toList, key := ("radio1.desc").toList, ws1 := [], ws2 := (" ").toList, value := ("Old").toList }]) (" \x7d").toList) ++
      (";\nW = ").toList ++ ("es: \x7b").toList ++ (" 'radio1.desc': 'Vieja' ").toList ++ ['\x7d'] ++ (";</q>").toList)
    (entriesText (updEntries (build_translations
      [{ year := 1950, model := ("K").toList, image := ("k.jpg").toList, price := some 70, status := none, description_en := ("Nice").toList, description_es := ("Buena").toList, file := ("k.json").toList }]).1
      [{ sep := ("\x7b ").toList, key := ("radio1.desc").toList, ws1 := [], ws2 := (" ").toList, value := ("Old").toList }]) (" \x7d").toList)
    (entriesText (updEntries (build_translations
      [{ year := 1950, model := ("K").toList, image := ("k.jpg").toList, price := some 70, status := none, description_en := ("Nice").toList, description_es := ("Buena").toList, file := ("k.json").toList }]).2
      [{ sep := ("\x7b ").toList, key := ("radio1.desc").toList, ws1 := [], ws2 := (" ").toList, value := ("Vieja").toList }]) (" \x7d").toList)
    (("<q>").toList ++ render_gallery
      [{ year := 1950, model := ("K").toList, image := ("k.jpg").toList, price := some 70, status := none, description_en := ("Nice").toList, description_es := ("Buena").toList, file := ("k.json").toList }] ++ ("\nV = ").toList ++ ("en: ").toList ++
      (entriesText (updEntries (build_translations
      [{ year := 1950, model := ("K").toList, image := ("k.jpg").toList, price := some 70, status := none, description_en := ("Nice").toList, description_es := ("Buena").toList, file := ("k.json").toList }]).1
      [{ sep := ("\x7b ").toList, key := ("radio1.desc").toList, ws1 := [], ws2 := (" ").toList, value := ("Old").toList }]) (" \x7d").toList) ++
      (";\nW = ").toList ++ ("es: ").toList ++
      (entriesText (updEntries (build_translations
      [{ year := 1950, model := ("K").toList, image := ("k.jpg").toList, price := some 70, status := none, description_en := ("Nice").toList, description_es := ("Buena").toList, file := ("k.json").toList }]).2
      [{ sep := ("\x7b ").toList, key := ("radio1.desc").toList, ws1 := [], ws2 := (" ").toList, value := ("Vieja").toList }]) (" \x7d").toList) ++ (";</q>").toList)
    (by decide) (by decide) (by decide) (by decide) (by decide)
    rfl rfl rfl rfl rfl rfl
    (by rw [length_eq_lengthAcc0]; rfl)
    (by rw [length_eq_lengthAcc0]; rfl)
    (by rw [length_eq_lengthAcc0]; exact findSub_eval 1814 (by rfl) (by rfl) (by rfl))
    (by rw [length_eq_lengthAcc0]; exact findSub_eval 1849 (by rfl) (by rfl) (by rfl))
    (by rfl)
    (by rw [length_eq_lengthAcc0]; exact findSub_eval 1789 (by rfl) (by rfl) (by rfl))
    (by rw [length_eq_lengthAcc0]; exact findSub_eval 1814 (by rfl) (by rfl) (by rfl))
    (by rw [length_eq_lengthAcc0]; exact findSub_eval 1849 (by rfl) (by rfl) (by rfl))
    (by decide) (by decide) (by decide) (by decide)
    (by decide) (by decide) (by decide) (by decide)
    (by decide) (by decide) (by decide) (by decide)
    (by decide) (by decide) (by decide) (by decide)
